import Mathlib

/-!
# imx273.c — control logic of the VC MIPI IMX273 sensor driver

A shallow embedding of the register-programming paths of
`src/4.5_auvidea/kernel/nvidia/drivers/media/i2c/imx273.c`:
`reg_write`, `reg_read`, `imx273_write_table`, `imx273_set_gain`,
`imx_exposure_296_297`, `imx273_set_exposure`, `imx273_set_frame_rate`,
`vc_mipi_reset`, `imx273_start_streaming`, `imx273_set_mode`,
`vc_mipi_common_trigmode_write`, `imx273_stop_streaming` and
`imx273_board_setup`.  Long function bodies are cut
into named parts (`read_vmax`, `short_branch`, `long_branch`, `write_shutter`,
`poll_body`, `status_poll`, `trigger_config`, `stream_on`), each the
translation of the source lines named in its comment.

Conventions.
* C `u32`/`u64` values are `Nat`, reduced explicitly modulo `2^32`/`2^64`;
  C `int`/`s32`/`s64` values are `Int`.  Conversions are the functions
  `u8`, `u16`, `u32`, `u64` (two's complement truncation).
* Every bus transfer is appended to `Sys.log`.  The outcome of the `k`-th
  transfer issued since the log was empty is `env k` (`Env`): the value
  returned by `i2c_transfer`/`regmap_write`, and for a read the byte left in
  `buf[0]`.
* Delays (`mdelay`, `usleep_range`) and trace output are not modelled.
* `priv->rom` is tested only where the source tests it (`vc_mipi_reset`); the
  other paths dereference it unchecked and are modelled for a present bridge.
-/

namespace Imx273

/-! ## C integer conversions and 32/64-bit unsigned arithmetic -/

/-- Conversion of a C integer to `u8`. -/
def u8 (x : Int) : Nat := (x % 256).toNat

/-- Conversion of a C integer to `u16`. -/
def u16 (x : Int) : Nat := (x % 65536).toNat

/-- Conversion of a C integer to `u32`. -/
def u32 (x : Int) : Nat := (x % 4294967296).toNat

/-- Conversion of a C integer to `u64`. -/
def u64 (x : Int) : Nat := (x % 18446744073709551616).toNat

/-- Product of two `u32` values (wraps modulo `2^32`). -/
def mul32 (a b : Nat) : Nat := (a * b) % 4294967296

/-- Sum of two `u32` values (wraps modulo `2^32`). -/
def add32 (a b : Nat) : Nat := (a + b) % 4294967296

/-- Difference of two `u32` values (wraps modulo `2^32`). -/
def sub32 (a b : Nat) : Nat := (a + 4294967296 - b % 4294967296) % 4294967296

/-- Difference of two `u64` values (wraps modulo `2^64`). -/
def sub64 (a b : Nat) : Nat :=
  (a + 18446744073709551616 - b % 18446744073709551616) % 18446744073709551616

/-- Reinterpretation of a 32-bit pattern as a C `int` (two's complement). -/
def s32 (x : Nat) : Int :=
  if x % 4294967296 < 2147483648 then ((x % 4294967296 : Nat) : Int)
  else ((x % 4294967296 : Nat) : Int) - 4294967296

/-- Bitwise OR of two C `int` values (the operator `|`, as used by `ret |= ...`). -/
def ior (a b : Int) : Int := s32 (u32 a ||| u32 b)

/-- The errno `EIO`. -/
def EIO : Int := 5

/-! ## Constants of the driver -/

def IMX273_TABLE_WAIT_MS : Nat := 0
def IMX273_TABLE_END : Nat := 1

def IMX273_DIGITAL_GAIN_MIN : Int := 0
def IMX273_DIGITAL_GAIN_MAX : Int := 480
def IMX273_DIGITAL_GAIN_DEFAULT : Int := 20

def IMX273_DIGITAL_EXPOSURE_MIN : Int := 29
def IMX273_DIGITAL_EXPOSURE_MAX : Int := 15110711
def IMX273_DIGITAL_EXPOSURE_DEFAULT : Int := 10000

def H1PERIOD_296 : Int := 242726
def NRLINES_296 : Int := 1118
def TOFFSET_296 : Int := 233636
def VMAX_296 : Int := 1118
def EXPOSURE_TIME_MIN_296 : Int := 29
def EXPOSURE_TIME_MIN2_296 : Int := 16504
def EXPOSURE_TIME_MAX_296 : Int := 15534389

/-- The errno `ENODEV`. -/
def ENODEV : Int := 19

/-- The errno `EINVAL`. -/
def EINVAL : Int := 22

/-- The enumerator `IMX273_MODE_1440X1080`. -/
def IMX273_MODE_1440X1080 : Int := 0

/-- The enumerator `IMX273_MODE_START_STREAM`. -/
def IMX273_MODE_START_STREAM : Int := 1

/-- The enumerator `IMX273_MODE_STOP_STREAM`. -/
def IMX273_MODE_STOP_STREAM : Int := 2

/-- The kernel constant `V4L2_PIX_FMT_GREY`, `v4l2_fourcc('G','R','E','Y')`. -/
def V4L2_PIX_FMT_GREY : Int := 0x59455247

/-- The kernel constant `V4L2_PIX_FMT_SRGGB8`, `v4l2_fourcc('R','G','G','B')`. -/
def V4L2_PIX_FMT_SRGGB8 : Int := 0x42474752

/-- The kernel constant `V4L2_PIX_FMT_Y10`, `v4l2_fourcc('Y','1','0',' ')`. -/
def V4L2_PIX_FMT_Y10 : Int := 0x20303159

/-- The kernel constant `V4L2_PIX_FMT_SRGGB10`, `v4l2_fourcc('R','G','1','0')`. -/
def V4L2_PIX_FMT_SRGGB10 : Int := 0x30314752

/-- The kernel constant `V4L2_PIX_FMT_Y12`, `v4l2_fourcc('Y','1','2',' ')`. -/
def V4L2_PIX_FMT_Y12 : Int := 0x20323159

/-- The kernel constant `V4L2_PIX_FMT_SRGGB12`, `v4l2_fourcc('R','G','1','2')`. -/
def V4L2_PIX_FMT_SRGGB12 : Int := 0x32314752

/-- The size `sizeof(struct vc_rom_table)`: 12 + 32 + 2 + 8 + 16 + 2 + 2 + 56
+ 2 + 2 + 16 + 16 bytes; every `u16` member falls on an even offset, so the
structure has no padding. -/
def ROM_TABLE_SIZE : Nat := 166

/-- The offset of `sen_type` in `struct vc_rom_table` (12 + 32 + 2 + 8). -/
def ROM_SEN_TYPE : Nat := 54

/-- The offset of `mod_id` in `struct vc_rom_table` (54 + 16). -/
def ROM_MOD_ID : Nat := 70

/-- The offset of `regs` in `struct vc_rom_table` (70 + 2 + 2), the `0x4A` of
the register listing in `imx273_board_setup`. -/
def ROM_REGS : Nat := 74

/-- The table `imx273_start` (stream on), up to its end marker. -/
def imx273_start : List (Nat × Nat) := [(0x7000, 0x01), (IMX273_TABLE_END, 0x00)]

/-- The table `imx273_stop` (stream off), up to its end marker. -/
def imx273_stop : List (Nat × Nat) := [(0x7000, 0x00), (IMX273_TABLE_END, 0x00)]

/-- The table `imx273_mode_1440X1080` (empty: `TEST_1408` is 0). -/
def imx273_mode_1440X1080 : List (Nat × Nat) := [(IMX273_TABLE_END, 0x00)]

/-! ## Semantic register roles (`enum vc_rom_table_sreg_names`) -/

def MODEL_ID_HIGH : Nat := 0
def MODEL_ID_LOW : Nat := 1
def CHIP_REV : Nat := 2
def IDLE : Nat := 3
def H_START_HIGH : Nat := 4
def H_START_LOW : Nat := 5
def V_START_HIGH : Nat := 6
def V_START_LOW : Nat := 7
def H_SIZE_HIGH : Nat := 8
def H_SIZE_LOW : Nat := 9
def V_SIZE_HIGH : Nat := 10
def V_SIZE_LOW : Nat := 11
def H_OUTPUT_HIGH : Nat := 12
def H_OUTPUT_LOW : Nat := 13
def V_OUTPUT_HIGH : Nat := 14
def V_OUTPUT_LOW : Nat := 15
def EXPOSURE_HIGH : Nat := 16
def EXPOSURE_MIDDLE : Nat := 17
def EXPOSURE_LOW : Nat := 18
def GAIN_HIGH : Nat := 19
def GAIN_LOW : Nat := 20
def RESERVED1 : Nat := 21
def RESERVED2 : Nat := 22
def RESERVED3 : Nat := 23
def RESERVED4 : Nat := 24
def RESERVED5 : Nat := 25
def RESERVED6 : Nat := 26
def RESERVED7 : Nat := 27

/-! ## Device state -/

/-- The enumeration `enum imx_model`. -/
inductive imx_model where
  | IMX_MODEL_NONE
  | IMX273_MODEL_MONOCHROME
  | IMX273_MODEL_COLOR
  deriving DecidableEq, Repr

/-- The fields of `struct imx273` used by the control paths.  `rom` records
whether the pointer `priv->rom` is non-NULL; `sen_type`, `mod_id` and `regs`
are the members of `rom_table` that the driver reads back (the byte array
`rom_table.sen_type`, the `u16` `rom_table.mod_id`, the byte array
`rom_table.regs`); the other members of `rom_table` are only printed. -/
structure imx273 where
  frame_rate : Nat
  digital_gain : Nat
  exposure_time : Nat
  streaming : Bool
  rom : Bool
  sen_type : List Nat
  mod_id : Nat
  regs : List Nat
  cam_mode : Int
  model : imx_model
  sensor_ext_trig : Int
  flash_output : Int
  sen_clk : Int
  sensor_mode : Int
  num_lanes : Int
  deriving DecidableEq, Repr

/-- The two I2C clients of the driver: the sensor (`priv->i2c_client`) and the
FPGA bridge (`priv->rom`). -/
inductive Dev where
  | sensor
  | rom
  deriving DecidableEq, Repr

/-- One transfer on the control bus. -/
inductive BusOp where
  | write (dev : Dev) (addr data : Nat)
  | read (dev : Dev) (addr : Nat)
  | regmap_write (addr data : Nat)
  deriving DecidableEq, Repr

/-- Outcome of one bus transfer: the value returned by `i2c_transfer` (or by
`regmap_write`), and the content of `buf[0]` after a read. -/
structure Xfer where
  ret : Int
  buf0 : Nat
  deriving DecidableEq, Repr

/-- The bus environment: outcome of the `k`-th transfer. -/
abbrev Env := Nat → Xfer

/-- The driver state: the private data, the file-scope variables
`sensor_mode` and `ext_trig_mode`, the function-static retry counter `try` of
`vc_mipi_reset`, and the log of bus transfers issued so far. -/
structure Sys where
  priv : imx273
  sensor_mode : Int
  ext_trig_mode : Int
  try_ : Int
  log : List BusOp
  deriving DecidableEq, Repr

/-- Assignment to `priv->digital_gain`. -/
def set_digital_gain (s : Sys) (g : Nat) : Sys :=
  { s with priv := { s.priv with digital_gain := g } }

/-- Assignment to `priv->exposure_time`. -/
def set_exposure_time (s : Sys) (et : Nat) : Sys :=
  { s with priv := { s.priv with exposure_time := et } }

/-- Assignment to `priv->streaming`. -/
def set_streaming (s : Sys) (b : Bool) : Sys :=
  { s with priv := { s.priv with streaming := b } }

/-- Assignment to the file-scope variable `sensor_mode`. -/
def set_sensor_mode (s : Sys) (m : Int) : Sys :=
  { s with sensor_mode := m }

/-- Assignment to `priv->sensor_ext_trig`. -/
def set_sensor_ext_trig (s : Sys) (t : Int) : Sys :=
  { s with priv := { s.priv with sensor_ext_trig := t } }

/-- Assignment to `priv->sensor_mode`. -/
def set_priv_sensor_mode (s : Sys) (m : Int) : Sys :=
  { s with priv := { s.priv with sensor_mode := m } }

/-- Assignment to `priv->cam_mode`. -/
def set_cam_mode (s : Sys) (m : Int) : Sys :=
  { s with priv := { s.priv with cam_mode := m } }

/-- Assignment to the static counter `try` of `vc_mipi_reset`. -/
def set_try (s : Sys) (t : Int) : Sys :=
  { s with try_ := t }

/-- The `u16` read through `*((u16 *)(&regs[i]))` on the little-endian host. -/
def le16 (regs : List Nat) (i : Nat) : Nat :=
  regs.getD i 0 % 256 + 256 * (regs.getD (i + 1) 0 % 256)

/-- The macro `sen_reg(priv, addr)`: the `u16` stored at
`rom_table.regs[(addr)*2]`. -/
def sen_reg (priv : imx273) (addr : Nat) : Nat :=
  le16 priv.regs (addr * 2)

/-! ## Register transport -/

/-- The function `reg_write(client, addr, data)`: one 3-byte transfer; 0 when
`i2c_transfer` returns 1, `- EIO` otherwise. -/
def reg_write (env : Env) (s : Sys) (dev : Dev) (addr data : Nat) : Sys × Int :=
  let ret := (env s.log.length).ret
  ({ s with log := s.log ++ [BusOp.write dev (addr % 65536) (data % 256)] },
   if ret = 1 then 0 else - EIO)

/-- The value `reg_read` returns for a transfer outcome: the negative value
returned by `i2c_transfer` on failure, the byte `buf[0]` otherwise. -/
def read_result (x : Xfer) : Int :=
  if x.ret < 0 then x.ret else ((x.buf0 % 256 : Nat) : Int)

/-- The function `reg_read(client, addr)`. -/
def reg_read (env : Env) (s : Sys) (dev : Dev) (addr : Nat) : Sys × Int :=
  ({ s with log := s.log ++ [BusOp.read dev (addr % 65536)] },
   read_result (env s.log.length))

/-- The kernel call `regmap_write(s_data->regmap, addr, val)`: 0 on success, a
negative errno otherwise. -/
def regmap_write (env : Env) (s : Sys) (addr data : Nat) : Sys × Int :=
  let ret := (env s.log.length).ret
  ({ s with log := s.log ++ [BusOp.regmap_write (addr % 65536) (data % 256)] }, ret)

/-- The function `imx273_write_table`, i.e. `regmap_util_write_table_8` with
wait marker `IMX273_TABLE_WAIT_MS` and end marker `IMX273_TABLE_END`: entries
are written in order, the first failing write aborts the table. -/
def imx273_write_table (env : Env) : Sys → List (Nat × Nat) → Sys × Int
  | s, [] => (s, 0)
  | s, e :: rest =>
    if e.1 = IMX273_TABLE_END then (s, 0)
    else if e.1 = IMX273_TABLE_WAIT_MS then imx273_write_table env s rest
    else
      let r := regmap_write env s e.1 e.2
      if r.2 ≠ 0 then (r.1, r.2) else imx273_write_table env r.1 rest

/-! ## Gain -/

/-- The function `imx273_set_gain(tc_dev, val)`.  `priv->digital_gain` is a
`u32`: the `s64` argument is truncated on assignment and both comparisons are
unsigned. -/
def imx273_set_gain (env : Env) (s : Sys) (val : Int) : Sys × Int :=
  let g0 := u32 val
  let g :=
    if g0 < u32 IMX273_DIGITAL_GAIN_MIN then u32 IMX273_DIGITAL_GAIN_MIN
    else if g0 > u32 IMX273_DIGITAL_GAIN_MAX then u32 IMX273_DIGITAL_GAIN_MAX
    else g0
  let s0 := set_digital_gain s g
  let r1 :=
    if sen_reg s0.priv GAIN_HIGH ≠ 0 then
      reg_write env s0 Dev.sensor (sen_reg s0.priv GAIN_HIGH) ((g >>> 8) &&& 0xff)
    else (s0, 0)
  let r2 :=
    if sen_reg r1.1.priv GAIN_LOW ≠ 0 then
      let w := reg_write env r1.1 Dev.sensor (sen_reg r1.1.priv GAIN_LOW) (g &&& 0xff)
      (w.1, ior r1.2 w.2)
    else r1
  r2


/-! ## Exposure -/

/-- The register base selected by `switch(priv->model)` in
`imx_exposure_296_297` (`PLATFORM_QCOM` is not defined). -/
def exposure_base (m : imx_model) : Nat :=
  match m with
  | imx_model.IMX273_MODEL_MONOCHROME => 0x0200
  | imx_model.IMX273_MODEL_COLOR => 0x0200
  | _ => 0x3000

/-- The function-static `vmax` of `imx_exposure_296_297`, reset to 0 and
rebuilt from the results `reg1`, `reg2`, `reg3` of the three `reg_read`
calls.  A read whose result is 0 leaves `vmax` untouched; `reg & 0xff` is
taken on the bit pattern of the `int` result, also when the read failed.
Every value of `vmax` fits 24 bits, so it is held as a `Nat`. -/
def vmax_of (reg1 reg2 reg3 : Int) : Nat :=
  let vmax : Nat := 0
  let vmax := if reg1 ≠ 0 then u32 reg1 &&& 0xff else vmax
  let vmax := if reg2 ≠ 0 then (vmax <<< 8) ||| (u32 reg2 &&& 0xff) else vmax
  let vmax := if reg3 ≠ 0 then (vmax <<< 8) ||| (u32 reg3 &&& 0xff) else vmax
  vmax

/-- The read-back of `vmax`: the reads of `base+0x12` (HIGH), `base+0x11`
(MIDDLE), `base+0x10` (LOW), combined by `vmax_of`. -/
def read_vmax (env : Env) (s : Sys) (base : Nat) : Sys × Nat :=
  let r1 := reg_read env s Dev.sensor (base + 0x12)
  let r2 := reg_read env r1.1 Dev.sensor (base + 0x11)
  let r3 := reg_read env r2.1 Dev.sensor (base + 0x10)
  (r3.1, vmax_of r1.2 r2.2 r3.2)

/-- The shutter value of the short-exposure branch:
`exposure = vMax - ((u32)exposure_time * 16384 - tOffset) / h1Period`, then
`exposure -= vMax - (vMax * multiplier) / 1000`, then the floor of 14; all in
`u32` arithmetic. -/
def short_shutter (et vMax multiplier : Nat) (tOffset h1Period : Int) : Nat :=
  let exposure := sub32 vMax (sub32 (mul32 et 16384) (u32 tOffset) / u32 h1Period)
  let exposure := sub32 exposure (sub32 vMax (mul32 vMax multiplier / 1000))
  if exposure < 14 then 14 else exposure

/-- The register writes of the short-exposure branch: frame length `vMax` to
`base+0x12/0x11/0x10`, then the shutter to the present exposure roles. -/
def short_branch (env : Env) (s : Sys) (base vMax exposure : Nat) : Sys × Int :=
  let w1 := reg_write env s Dev.sensor (base + 0x12) ((vMax >>> 16) &&& 0x07)
  let w2 := reg_write env w1.1 Dev.sensor (base + 0x11) ((vMax >>> 8) &&& 0xff)
  let r2 := (w2.1, ior w1.2 w2.2)
  let w3 := reg_write env r2.1 Dev.sensor (base + 0x10) (vMax &&& 0xff)
  let r3 := (w3.1, ior r2.2 w3.2)
  let r4 :=
    if sen_reg r3.1.priv EXPOSURE_HIGH ≠ 0 then
      let w := reg_write env r3.1 Dev.sensor (sen_reg r3.1.priv EXPOSURE_HIGH)
        ((exposure >>> 16) &&& 0x07)
      (w.1, ior r3.2 w.2)
    else r3
  let r5 :=
    if sen_reg r4.1.priv EXPOSURE_MIDDLE ≠ 0 then
      let w := reg_write env r4.1 Dev.sensor (sen_reg r4.1.priv EXPOSURE_MIDDLE)
        ((exposure >>> 8) &&& 0xff)
      (w.1, ior r4.2 w.2)
    else r4
  let r6 :=
    if sen_reg r5.1.priv EXPOSURE_LOW ≠ 0 then
      let w := reg_write env r5.1 Dev.sensor (sen_reg r5.1.priv EXPOSURE_LOW)
        (exposure &&& 0xff)
      (w.1, ior r5.2 w.2)
    else r5
  r6

/-- The frame-length value of the long-exposure branch:
`divresult = (u64)exposure_time * 16384 - tOffset`, `do_div(divresult, h1Period)`,
`exposure = 15 + ((u32)divresult * multiplier) / 1000` (the last line in `u32`). -/
def long_vmax (et multiplier : Nat) (tOffset h1Period : Int) : Nat :=
  let divresult := sub64 (et * 16384 % 18446744073709551616) (u64 tOffset)
  let divisor := u32 h1Period
  let divresult := divresult / divisor
  add32 15 (mul32 (divresult % 4294967296) multiplier / 1000)

/-- The register writes of the long-exposure branch: the present exposure
roles are set to 0, 0, 0x0e, then `exposure` goes to the frame-length
registers `base+0x12/0x11/0x10`. -/
def long_branch (env : Env) (s : Sys) (base exposure : Nat) : Sys × Int :=
  let r1 :=
    if sen_reg s.priv EXPOSURE_HIGH ≠ 0 then
      reg_write env s Dev.sensor (sen_reg s.priv EXPOSURE_HIGH) 0x00
    else (s, 0)
  let r2 :=
    if sen_reg r1.1.priv EXPOSURE_MIDDLE ≠ 0 then
      let w := reg_write env r1.1 Dev.sensor (sen_reg r1.1.priv EXPOSURE_MIDDLE) 0x00
      (w.1, ior r1.2 w.2)
    else r1
  let r3 :=
    if sen_reg r2.1.priv EXPOSURE_LOW ≠ 0 then
      let w := reg_write env r2.1 Dev.sensor (sen_reg r2.1.priv EXPOSURE_LOW) 0x0e
      (w.1, ior r2.2 w.2)
    else r2
  let w4 := reg_write env r3.1 Dev.sensor (base + 0x12) ((exposure >>> 16) &&& 0x07)
  let r4 := (w4.1, ior r3.2 w4.2)
  let w5 := reg_write env r4.1 Dev.sensor (base + 0x11) ((exposure >>> 8) &&& 0xff)
  let r5 := (w5.1, ior r4.2 w5.2)
  let w6 := reg_write env r5.1 Dev.sensor (base + 0x10) (exposure &&& 0xff)
  let r6 := (w6.1, ior r5.2 w6.2)
  r6

/-- The function `imx_exposure_296_297`.  The parameter `vMax` is overwritten
by the value read back from the frame-length registers (`vMax = vmax; // TEST`),
and `nrLines` is unused.  The comparisons of the `u32` field
`priv->exposure_time` with the `s32` parameters are unsigned. -/
def imx_exposure_296_297 (env : Env) (s : Sys)
    (expMin0 expMin1 expMax _nrLines tOffset h1Period _vMax : Int) : Sys × Int :=
  let multiplier : Nat := 1000
  let base : Nat := exposure_base s.priv.model
  let rv := read_vmax env s base
  let vMax := rv.2
  let s1 := rv.1
  let et := s1.priv.exposure_time
  let et := if et < u32 expMin0 then u32 expMin0 else et
  let et := if et > u32 expMax then u32 expMax else et
  let s2 := set_exposure_time s1 et
  if et < u32 expMin1 then
    short_branch env s2 base vMax (short_shutter et vMax multiplier tOffset h1Period)
  else
    long_branch env s2 base (long_vmax et multiplier tOffset h1Period)

/-- The macro `imx_exposure_296(priv)`. -/
def imx_exposure_296 (env : Env) (s : Sys) : Sys × Int :=
  imx_exposure_296_297 env s EXPOSURE_TIME_MIN_296 EXPOSURE_TIME_MIN2_296
    EXPOSURE_TIME_MAX_296 NRLINES_296 TOFFSET_296 H1PERIOD_296 VMAX_296

/-- The 32-bit shutter count of trigger mode:
`(u64)(exposure_time * (sen_clk / 1000000))`; the product is formed in `u32`
(`u32 * int`), the division is C `int` division. -/
def trig_exposure (exposure_time : Nat) (sen_clk : Int) : Nat :=
  mul32 exposure_time (u32 (Int.tdiv sen_clk 1000000))

/-- The four shutter-byte writes to the bridge, `0x0109` (LSB) to `0x010c`
(MSB), with the results of the writes combined by `comb` (`|=` or `+=`). -/
def write_shutter (env : Env) (s : Sys) (comb : Int → Int → Int) (ret : Int)
    (exposure : Nat) : Sys × Int :=
  let w1 := reg_write env s Dev.rom 0x0109 (exposure &&& 0xff)
  let r1 := (w1.1, comb ret w1.2)
  let w2 := reg_write env r1.1 Dev.rom 0x010a ((exposure >>> 8) &&& 0xff)
  let r2 := (w2.1, comb r1.2 w2.2)
  let w3 := reg_write env r2.1 Dev.rom 0x010b ((exposure >>> 16) &&& 0xff)
  let r3 := (w3.1, comb r2.2 w3.2)
  let w4 := reg_write env r3.1 Dev.rom 0x010c ((exposure >>> 24) &&& 0xff)
  let r4 := (w4.1, comb r3.2 w4.2)
  r4

/-- The function `imx273_set_exposure(tc_dev, val)`.  In the trigger branch
the results of the four writes are collected in a block-local `int ret` that
shadows the function's `ret`; the function returns the outer one, still 0. -/
def imx273_set_exposure (env : Env) (s : Sys) (val : Int) : Sys × Int :=
  let ret : Int := 0
  let et := u32 val
  let et := if et < u32 IMX273_DIGITAL_EXPOSURE_MIN then u32 IMX273_DIGITAL_EXPOSURE_MIN else et
  let et := if et > u32 IMX273_DIGITAL_EXPOSURE_MAX then u32 IMX273_DIGITAL_EXPOSURE_MAX else et
  let s0 := set_exposure_time s et
  if s0.priv.sensor_ext_trig ≠ 0 then
    let exposure := trig_exposure s0.priv.exposure_time s0.priv.sen_clk
    let inner := write_shutter env s0 ior 0 exposure
    (inner.1, ret)
  else
    let r := imx_exposure_296 env s0
    if r.2 ≠ 0 then (r.1, r.2) else (r.1, r.2)

/-- The function `imx273_set_frame_rate(tc_dev, val)`: its body is commented
out; it returns 0. -/
def imx273_set_frame_rate (_env : Env) (s : Sys) (_val : Int) : Sys × Int :=
  (s, 0)

/-! ## Bridge reset -/

/-- One pass of the body of the `while(1)` loop of `vc_mipi_reset`: read the
status register `0x0101`; leave the loop when bit 7 is set; record `- EIO` when
bit 0 is set; leave the loop when `try++ > 4`.  Returns the new state, the new
`err`, and whether the loop is left.  The tests `reg & 0x80` and `reg & 0x01`
act on the bit pattern of the `int` returned by `reg_read`. -/
def poll_body (env : Env) (s : Sys) (err : Int) : Sys × Int × Bool :=
  let r := reg_read env s Dev.rom 0x0101
  let reg := r.2
  if u32 reg &&& 0x80 ≠ 0 then (r.1, err, true)
  else
    let err1 := if u32 reg &&& 0x01 ≠ 0 then - EIO else err
    let s2 := set_try r.1 (r.1.try_ + 1)
    (s2, err1, decide (r.1.try_ > 4))

/-- The `while(1)` loop of `vc_mipi_reset`.  The first argument is the number
of passes that may still follow the current one; `vc_mipi_reset` supplies
`5 - try`, and with that value the function satisfies the defining equation of
the loop (`status_poll_loop`). -/
def status_poll (env : Env) : Nat → Sys → Int → Sys × Int
  | 0, s, err =>
    let b := poll_body env s err
    (b.1, b.2.1)
  | n + 1, s, err =>
    let b := poll_body env s err
    if b.2.2 then (b.1, b.2.1) else status_poll env n b.1 b.2.1

/-- The function `vc_mipi_reset(tc_dev, sen_mode)`. -/
def vc_mipi_reset (env : Env) (s : Sys) (sen_mode : Int) : Sys × Int :=
  let err : Int := 0
  if s.priv.rom = false then (s, - EIO)
  else
    let w1 := reg_write env s Dev.rom 0x0100 2
    if w1.2 ≠ 0 then (w1.1, - EIO)
    else if sen_mode < 0 then
      let r := reg_read env w1.1 Dev.rom 0x0101
      (r.1, 0)
    else
      let w2 := reg_write env w1.1 Dev.rom 0x0102 (u8 sen_mode)
      if w2.2 ≠ 0 then (w2.1, - EIO)
      else
        let w3 := reg_write env w2.1 Dev.rom 0x0100 0
        if w3.2 ≠ 0 then (w3.1, - EIO)
        else
          let p := status_poll env (5 - w3.1.try_).toNat w3.1 err
          (set_try p.1 1, p.2)

/-! ## Streaming start -/

/-- The tail of `imx273_start_streaming`: the stream-on table write; the
streaming flag is set when it succeeds. -/
def stream_on (env : Env) (s : Sys) : Sys × Int :=
  let t := imx273_write_table env s imx273_start
  if t.2 ≠ 0 then (t.1, t.2)
  else (set_streaming t.1 true, t.2)

/-- The block "Set trigger mode: on/off" of `imx273_start_streaming`: the
writes to `0x0108` and `0x0103` and, when the trigger is enabled, the four
shutter bytes.  Returns the block-local `ret`, the sum (`+=`) of the results
of the writes. -/
def trigger_config (env : Env) (s : Sys) : Sys × Int :=
  if s.priv.sensor_ext_trig ≠ 0 then
    let exposure := trig_exposure s.priv.exposure_time s.priv.sen_clk
    let w1 := reg_write env s Dev.rom 0x0108 (u8 s.priv.sensor_ext_trig)
    let r1 := (w1.1, 0 + w1.2)
    let w2 := reg_write env r1.1 Dev.rom 0x0103 (u8 r1.1.priv.flash_output)
    let r2 := (w2.1, r1.2 + w2.2)
    write_shutter env r2.1 (fun a b => a + b) r2.2 exposure
  else
    let w1 := reg_write env s Dev.rom 0x0108 0
    let w2 := reg_write env w1.1 Dev.rom 0x0103 (u8 w1.1.priv.flash_output)
    (w2.1, w1.2 + w2.2)

/-- The function `imx273_start_streaming(tc_dev)`.  When the sum `ret` of the
trigger-configuration block is non-zero the function jumps to `exit` (in the
trigger-off branch, or right after the block) and returns `err`, which is
still 0. -/
def imx273_start_streaming (env : Env) (s : Sys) : Sys × Int :=
  let err : Int := 0
  let s1 := (imx273_set_gain env s (s.priv.digital_gain : Int)).1
  let s2 := (imx273_set_exposure env s1 (s1.priv.exposure_time : Int)).1
  let s3 := (imx273_set_frame_rate env s2 (s2.priv.frame_rate : Int)).1
  let c := trigger_config env s3
  if c.2 ≠ 0 then (c.1, err) else stream_on env c.1

/-! ## Mode selection -/

/-- The table `imx273_mode_table[cam_mode]`. -/
def imx273_mode_table (cam_mode : Int) : List (Nat × Nat) :=
  if cam_mode = 0 then imx273_mode_1440X1080
  else if cam_mode = 1 then imx273_start
  else imx273_stop

/-- The value of the file-scope `sensor_mode` computed by `imx273_set_mode`:
the `if / else if` chain on `pix_fmt` (no final `else`: an unlisted format
keeps the previous value `old`), `+= 6` for four lanes, `+= 3` for the
trigger, taken from `ext_trig_mode` when it is `>= 0` (static, from the device
tree) and from `s_data->sensor_mode_id` otherwise (`IMX273_TRIG_MODE` is 0). -/
def compute_sensor_mode (old pix_fmt num_lanes ext_trig_mode sensor_mode_id : Int) : Int :=
  let sensor_mode :=
    if pix_fmt = V4L2_PIX_FMT_GREY ∨ pix_fmt = V4L2_PIX_FMT_SRGGB8 then 0
    else if pix_fmt = V4L2_PIX_FMT_Y10 ∨ pix_fmt = V4L2_PIX_FMT_SRGGB10 then 1
    else if pix_fmt = V4L2_PIX_FMT_Y12 ∨ pix_fmt = V4L2_PIX_FMT_SRGGB12 then 2
    else old
  let sensor_mode := if num_lanes = 4 then sensor_mode + 6 else sensor_mode
  if ext_trig_mode ≥ 0 then
    if ext_trig_mode > 0 then sensor_mode + 3 else sensor_mode
  else
    if sensor_mode_id ≠ 0 then sensor_mode + 3 else sensor_mode

/-- The value of `priv->sensor_ext_trig` after the trigger blocks of
`imx273_set_mode`: `ext_trig_mode` when it is `>= 0`; otherwise 0, 1, 4 for
`sensor_mode_id` 0, 1, 2 and the previous value `old` for any other id. -/
def compute_ext_trig (old ext_trig_mode sensor_mode_id : Int) : Int :=
  if ext_trig_mode ≥ 0 then ext_trig_mode
  else if sensor_mode_id = 0 then 0
  else if sensor_mode_id = 1 then 1
  else if sensor_mode_id = 2 then 4
  else old

/-- The function `imx273_set_mode(tc_dev)`; `pix_fmt` is
`s_data->colorfmt->pix_fmt` and `sensor_mode_id` is `s_data->sensor_mode_id`.
The result of `vc_mipi_reset` is only traced; `err` is then overwritten by
the result of `imx273_write_table`. -/
def imx273_set_mode (env : Env) (s : Sys) (pix_fmt sensor_mode_id : Int) : Sys × Int :=
  let sensor_mode :=
    compute_sensor_mode s.sensor_mode pix_fmt s.priv.num_lanes s.ext_trig_mode sensor_mode_id
  let s1 := set_sensor_mode s sensor_mode
  let s2 := set_sensor_ext_trig s1
    (compute_ext_trig s1.priv.sensor_ext_trig s1.ext_trig_mode sensor_mode_id)
  let r :=
    if s2.priv.sensor_mode ≠ sensor_mode then
      vc_mipi_reset env (set_priv_sensor_mode s2 sensor_mode) sensor_mode
    else (s2, 0)
  let s3 := set_cam_mode r.1 IMX273_MODE_1440X1080
  let t := imx273_write_table env s3 (imx273_mode_table s3.priv.cam_mode)
  (t.1, t.2)

/-! ## Streaming stop -/

/-- The function `vc_mipi_common_trigmode_write(rom, sensor_ext_trig,
exposure_time, io_config, enable_extrig, sen_clk)`; every parameter is a
`u32`, the product `exposure_time * (sen_clk/1000000)` is formed in `u32`, and
the results of the writes are combined with `|=`. -/
def vc_mipi_common_trigmode_write (env : Env) (s : Sys)
    (sensor_ext_trig exposure_time io_config enable_extrig sen_clk : Nat) : Sys × Int :=
  if sensor_ext_trig ≠ 0 then
    let exposure := mul32 exposure_time (sen_clk / 1000000)
    let w1 := reg_write env s Dev.rom 0x0108 enable_extrig
    let w2 := reg_write env w1.1 Dev.rom 0x0103 io_config
    write_shutter env w2.1 ior (ior w1.2 w2.2) exposure
  else
    let w1 := reg_write env s Dev.rom 0x0108 0
    let w2 := reg_write env w1.1 Dev.rom 0x0103 io_config
    (w2.1, ior w1.2 w2.2)

/-- The function `imx273_stop_streaming(tc_dev)` (`STOP_STREAMING_SENSOR_RESET`
is 1): the teardown reset and the reset with the file-scope `sensor_mode`,
each returning its error at once; the trigger disable, whose result is only
traced; then the stream-off table write, whose result is returned; the
streaming flag is cleared when that write succeeds. -/
def imx273_stop_streaming (env : Env) (s : Sys) : Sys × Int :=
  let r1 := vc_mipi_reset env s (-1)
  if r1.2 ≠ 0 then (r1.1, r1.2)
  else
    let r2 := vc_mipi_reset env r1.1 r1.1.sensor_mode
    if r2.2 ≠ 0 then (r2.1, r2.2)
    else
      let t := vc_mipi_common_trigmode_write env r2.1 0 0 0 0 0
      let w := imx273_write_table env t.1 (imx273_mode_table IMX273_MODE_STOP_STREAM)
      if w.2 ≠ 0 then (w.1, w.2)
      else (set_streaming w.1 false, w.2)

/-! ## Attach: descriptor read and sensor classification -/

/-- The inputs of `imx273_board_setup` that come from the host subsystem:
whether `pdata->mclk_name` is set and the result of
`camera_common_mclk_enable`, the result of `imx273_power_on`, the lane count
`mode->signal_properties.num_lanes`, the result of
`i2c_check_functionality`, and whether `imx273_probe_vc_rom` found the
bridge. -/
structure board_inputs where
  mclk_name : Bool
  mclk_err : Int
  power_err : Int
  num_lanes : Int
  smbus : Bool
  rom_found : Bool
  deriving DecidableEq, Repr

/-- The loop `for (addr=0; addr<sizeof(priv->rom_table); addr++)` of
`imx273_board_setup`, with `n` bytes still to read: byte `addr` of the
descriptor is read from the bridge register `addr+0x1000`; a negative result
aborts (`none`); otherwise `(char)reg` is appended to the bytes stored so
far. -/
def rom_read_loop (env : Env) : Nat → Nat → Sys → List Nat → Sys × Option (List Nat)
  | 0, _, s, acc => (s, some acc)
  | n + 1, addr, s, acc =>
    let r := reg_read env s Dev.rom (addr + 0x1000)
    if r.2 < 0 then (r.1, none)
    else rom_read_loop env n (addr + 1) r.1 (acc ++ [u8 r.2])

/-- The library function `strnlen(str, n)` on a byte array: the number of
bytes before the first zero byte, at most `n`. -/
def strnlen (str : List Nat) (n : Nat) : Nat :=
  ((str.take n).takeWhile (fun c => decide (c ≠ 0))).length

/-- The block "Check model" of `imx273_board_setup`: `IMX_MODEL_NONE` unless
`strnlen(sen_type, 16)` is positive and `mod_id == 0x0273`; then colour when
the last character of `sen_type` is `'C'`, monochrome otherwise. -/
def check_model (sen_type : List Nat) (mod_id : Nat) : imx_model :=
  let len := strnlen sen_type 16
  if len > 0 ∧ len < 17 then
    if mod_id = 0x0273 then
      if sen_type.getD (len - 1) 0 = 0x43 then imx_model.IMX273_MODEL_COLOR
      else imx_model.IMX273_MODEL_MONOCHROME
    else imx_model.IMX_MODEL_NONE
  else imx_model.IMX_MODEL_NONE

/-- Storing the descriptor bytes in `priv->rom_table`: the members `sen_type`,
`mod_id` (little endian `u16`) and `regs` at their offsets.  The other members
(`magic`, `manuf`, `manuf_id`, `sen_manuf`, `mod_rev`, `nr_modes`,
`bytes_per_mode`, `mode1`, `mode2`) are only printed by the driver and are not
kept in the state. -/
def store_rom_table (s : Sys) (bytes : List Nat) : Sys :=
  { s with priv := { s.priv with
      sen_type := (bytes.drop ROM_SEN_TYPE).take 16,
      mod_id := le16 bytes ROM_MOD_ID,
      regs := (bytes.drop ROM_REGS).take 56 } }

/-- Assignment to `priv->model`. -/
def set_model (s : Sys) (m : imx_model) : Sys :=
  { s with priv := { s.priv with model := m } }

/-- Assignment to `priv->num_lanes`. -/
def set_num_lanes (s : Sys) (n : Int) : Sys :=
  { s with priv := { s.priv with num_lanes := n } }

/-- Assignment to `priv->rom` (the result of `imx273_probe_vc_rom`). -/
def set_rom (s : Sys) (b : Bool) : Sys :=
  { s with priv := { s.priv with rom := b } }

/-- The part of `imx273_board_setup` that follows the descriptor read, on the
bytes read: the descriptor is stored, the model is checked (`-ENODEV` when it
stays `IMX_MODEL_NONE`), the mode code gets the trigger offset, and the bridge
is reset with it.  `imx273_video_probe` has an empty body and returns 0. -/
def board_setup_check (env : Env) (s : Sys) (bytes : List Nat) : Sys × Int :=
  let s1 := store_rom_table s bytes
  let s2 := set_model s1 (check_model s1.priv.sen_type s1.priv.mod_id)
  if s2.priv.model = imx_model.IMX_MODEL_NONE then (s2, - ENODEV)
  else
    let s3 := if s2.ext_trig_mode ≥ 1 then set_sensor_mode s2 (s2.sensor_mode + 3) else s2
    let s4 := set_priv_sensor_mode s3 s3.sensor_mode
    let r := vc_mipi_reset env s4 s4.sensor_mode
    if r.2 ≠ 0 then (r.1, r.2) else (r.1, 0)

/-- The part of `imx273_board_setup` that follows a successful bridge probe:
the descriptor read (`- EIO` when a byte cannot be read), then
`board_setup_check` on the bytes read. -/
def board_setup_rom (env : Env) (s : Sys) : Sys × Int :=
  let rd := rom_read_loop env ROM_TABLE_SIZE 0 s []
  match rd.2 with
  | none => (rd.1, - EIO)
  | some bytes => board_setup_check env rd.1 bytes

/-- The function `imx273_board_setup(priv)`. -/
def imx273_board_setup (env : Env) (s : Sys) (inp : board_inputs) : Sys × Int :=
  if inp.mclk_name = true ∧ inp.mclk_err ≠ 0 then (s, inp.mclk_err)
  else if inp.power_err ≠ 0 then (s, inp.power_err)
  else
    let s1 := set_num_lanes s inp.num_lanes
    if s1.priv.num_lanes ≠ 2 ∧ s1.priv.num_lanes ≠ 4 then (s1, - EINVAL)
    else
      let s2 := set_sensor_mode s1 (if s1.priv.num_lanes = 2 then 1 else 7)
      if inp.smbus = false then (s2, - EIO)
      else
        let s3 := set_rom s2 inp.rom_found
        if s3.priv.rom = true then board_setup_rom env s3
        else (s3, - EIO)

/-! ## Sample device and bus environments -/

/-- The `regs` table of the descriptor listed in the comment of
`imx273_board_setup` (exposure roles `0x028f/0x028e/0x028d`, gain roles
`0x0405/0x0404`). -/
def regs0 : List Nat :=
  [0x08,0x70, 0x07,0x70, 0x09,0x70, 0x00,0x70, 0x14,0x60, 0x13,0x60, 0x0F,0x60, 0x0E,0x60,
   0,0, 0,0, 0,0, 0,0, 0x16,0x60, 0x15,0x60, 0x11,0x60, 0x10,0x60,
   0x8F,0x02, 0x8E,0x02, 0x8D,0x02, 0x05,0x04, 0x04,0x04,
   0,0, 0,0, 0,0, 0,0, 0,0, 0,0, 0,0]

/-- A device as set up at attach: defaults of `imx273_probe`, monochrome
IMX273 on two lanes, free-run mode, 54 MHz bridge clock. -/
def priv0 : imx273 :=
  { frame_rate := 30000000, digital_gain := 20, exposure_time := 10000, streaming := false,
    rom := true, sen_type := [0x49, 0x4D, 0x58, 0x32, 0x37, 0x33, 0, 0, 0, 0, 0, 0, 0, 0, 0, 0],
    mod_id := 0x0273, regs := regs0, cam_mode := 0, model := imx_model.IMX273_MODEL_MONOCHROME,
    sensor_ext_trig := 0, flash_output := 0, sen_clk := 54000000, sensor_mode := 1,
    num_lanes := 2 }

/-- The initial state: `sensor_mode = 1`, `ext_trig_mode = -1`, `try = 1`,
empty log. -/
def sys0 : Sys := { priv := priv0, sensor_mode := 1, ext_trig_mode := -1, try_ := 1, log := [] }

/-- The state `sys0` switched to external-trigger mode. -/
def sysTrig : Sys := { sys0 with priv := { priv0 with sensor_ext_trig := 1 } }

/-- A bus on which every transfer returns 1 (a write succeeds) and every read
delivers the byte 0. -/
def envOk : Env := fun _ => { ret := 1, buf0 := 0 }

/-- A bus on which the first three transfers (the writes of a reset) return
1 and every later transfer is a successful read (`i2c_transfer` returns 2)
of the byte 0. -/
def envIdle : Env := fun k => if k < 3 then { ret := 1, buf0 := 0 } else { ret := 2, buf0 := 0 }

/-- A bus on which the three frame-length reads that open a free-run exposure
update deliver `0x00`, `0x04`, `0x5E` (frame length 1118) and every later
transfer, a write, returns 1. -/
def envVmax : Env := fun k =>
  if k = 0 then { ret := 2, buf0 := 0x00 }
  else if k = 1 then { ret := 2, buf0 := 0x04 }
  else if k = 2 then { ret := 2, buf0 := 0x5E }
  else { ret := 1, buf0 := 0 }

/-- A bus on which the three frame-length reads deliver the byte 0 and every
later transfer, a write, returns 1. -/
def envZero : Env := fun k => if k < 3 then { ret := 2, buf0 := 0 } else { ret := 1, buf0 := 0 }

/-- A bus on which the three writes of a reset succeed and every read of the
status register then fails: `i2c_transfer` returns `-EIO`. -/
def envReadFail : Env := fun k => if k < 3 then { ret := 1, buf0 := 0 } else { ret := -5, buf0 := 0 }

/-- A bus on which the three writes of a reset succeed and the first status
read delivers `0x80` (ready). -/
def envReady : Env := fun k => if k < 3 then { ret := 1, buf0 := 0 } else { ret := 2, buf0 := 0x80 }

/-- A bus on which every transfer returns 0: every `reg_write` fails. -/
def envWriteFail : Env := fun _ => { ret := 0, buf0 := 0 }

/-- The device `sys0` wired with four lanes, as left by attach: mode code 7
in `sensor_mode` and in `priv->sensor_mode`. -/
def sys4 : Sys :=
  { sys0 with priv := { priv0 with num_lanes := 4, sensor_mode := 7 }, sensor_mode := 7 }

/-- The device `sys0` while streaming. -/
def sysStreaming : Sys := { sys0 with priv := { priv0 with streaming := true } }

/-- A pixel format that is none of the six listed in `imx273_set_mode`: the
kernel constant `V4L2_PIX_FMT_YUYV`, `v4l2_fourcc('Y','U','Y','V')`. -/
def V4L2_PIX_FMT_YUYV : Int := 0x56595559

/-- The device before attach: the private data is zero-filled, no bridge
client, no model. -/
def sysProbe : Sys :=
  { sys0 with priv := { priv0 with rom := false, sen_type := List.replicate 16 0, mod_id := 0,
                                   regs := List.replicate 56 0,
                                   model := imx_model.IMX_MODEL_NONE, sensor_mode := 0,
                                   num_lanes := 0 },
              sensor_mode := 0 }

/-- Host inputs of a successful attach on two lanes. -/
def inputs0 : board_inputs :=
  { mclk_name := true, mclk_err := 0, power_err := 0, num_lanes := 2, smbus := true,
    rom_found := true }

/-- A 166-byte descriptor image: the 12 magic bytes all equal to `magic`,
zero-filled manufacturer members, sensor type `"IMX273"` followed by the
character `last` (0 for none), module id `0x0273`, the `regs` table `regs0`,
zero-filled mode members. -/
def romImage (magic last : Nat) : List Nat :=
  List.replicate 12 magic ++ List.replicate 42 0
    ++ [0x49, 0x4D, 0x58, 0x32, 0x37, 0x33, last, 0, 0, 0, 0, 0, 0, 0, 0, 0]
    ++ [0x73, 0x02] ++ [0, 0] ++ regs0 ++ List.replicate 36 0

/-- A bus whose first 166 transfers are successful reads delivering the bytes
of `img`, whose next three transfers (the writes of the reset) return 1, and
whose later transfers are successful reads of `0x80` (ready). -/
def envRom (img : List Nat) : Env := fun k =>
  if k < 166 then { ret := 2, buf0 := img.getD k 0 }
  else if k < 169 then { ret := 1, buf0 := 0 }
  else { ret := 2, buf0 := 0x80 }

/-- The device `sys0` with a descriptor in which the role `GAIN_HIGH` is
absent (address 0) and the role `GAIN_LOW` is present (`0x0404`). -/
def sysNoGainHigh : Sys :=
  { sys0 with priv := { priv0 with regs := (regs0.set 38 0).set 39 0 } }

/-- A bus on which the three frame-length reads that open a free-run exposure
update deliver `0x00`, `0x04`, `0x00` (frame length 1024) and every later
transfer, a write, returns 1. -/
def envVmax1024 : Env := fun k =>
  if k = 0 then { ret := 2, buf0 := 0x00 }
  else if k = 1 then { ret := 2, buf0 := 0x04 }
  else if k = 2 then { ret := 2, buf0 := 0x00 }
  else { ret := 1, buf0 := 0 }

/-- A bus for a successful `imx273_stop_streaming` on an empty log: transfer 1
(the status read of the teardown reset) delivers `0x00`, transfer 5 (the
status poll) delivers `0x80` (ready), transfer 8 (the stream-off table write)
returns 0, and every other transfer, a `reg_write`, returns 1. -/
def envStop : Env := fun k =>
  if k = 1 then { ret := 2, buf0 := 0x00 }
  else if k = 5 then { ret := 2, buf0 := 0x80 }
  else if k = 8 then { ret := 0, buf0 := 0 }
  else { ret := 1, buf0 := 0 }

/-- A bus on which the status polls of a reset started on an empty log deliver
`0x01` (error, not ready) and then `0x80` (ready); the three writes before
them return 1. -/
def envErrorThenReady : Env := fun k =>
  if k < 3 then { ret := 1, buf0 := 0 }
  else if k = 3 then { ret := 2, buf0 := 0x01 }
  else { ret := 2, buf0 := 0x80 }

/-- A bus for `imx273_start_streaming` on the sample device `sys0`: the
frame-length reads (transfers 2, 3, 4) deliver `0x00`, `0x04`, `0x5E`, the
write to `0x0103` (transfer 12) fails (`i2c_transfer` returns 0), and every
other `reg_write` returns 1. -/
def envCfgFail : Env := fun k =>
  if k = 2 then { ret := 2, buf0 := 0x00 }
  else if k = 3 then { ret := 2, buf0 := 0x04 }
  else if k = 4 then { ret := 2, buf0 := 0x5E }
  else if k = 12 then { ret := 0, buf0 := 0 }
  else { ret := 1, buf0 := 0 }

/-! ## Spec-side definitions -/

/-- The spec's `clamp(x, lo, hi)` on signed integers. -/
def spec_clamp (x lo hi : Int) : Int :=
  if x < lo then lo else if x > hi then hi else x

/-- The value `(high << 16) | (mid << 8) | low` carried by three register bytes. -/
def join24 (high mid low : Nat) : Nat := ((high <<< 16) ||| (mid <<< 8)) ||| low

/-- The value `(b3 << 24) | (b2 << 16) | (b1 << 8) | b0` carried by four
register bytes. -/
def join32 (b3 b2 b1 b0 : Nat) : Nat := (((b3 <<< 24) ||| (b2 <<< 16)) ||| (b1 <<< 8)) ||| b0

/-- The spec's long-exposure formula
`15 + ((e×16384 − tOffset) / h1Period) × multiplier / 1000` with the IMX296
constants and multiplier 1000, on natural numbers. -/
def spec_long_formula (e : Nat) : Nat := 15 + ((e * 16384 - 233636) / 242726) * 1000 / 1000

/-- The spec's trigger-mode tick count
`ticks = exposure_us × (clock_hz / 1_000_000)`, on natural numbers. -/
def spec_ticks (exposure_us clock_hz : Nat) : Nat := exposure_us * (clock_hz / 1000000)

/-- The bit-depth index `d` of a recognised pixel format: 0 for the 8-bit
formats, 1 for the 10-bit formats, 2 for the 12-bit formats. -/
def depth_index (pix_fmt : Int) : Int :=
  if pix_fmt = V4L2_PIX_FMT_GREY ∨ pix_fmt = V4L2_PIX_FMT_SRGGB8 then 0
  else if pix_fmt = V4L2_PIX_FMT_Y10 ∨ pix_fmt = V4L2_PIX_FMT_SRGGB10 then 1
  else 2

/-- The six recognised pixel formats. -/
def recognised (pix_fmt : Int) : Prop :=
  pix_fmt = V4L2_PIX_FMT_GREY ∨ pix_fmt = V4L2_PIX_FMT_SRGGB8
    ∨ pix_fmt = V4L2_PIX_FMT_Y10 ∨ pix_fmt = V4L2_PIX_FMT_SRGGB10
    ∨ pix_fmt = V4L2_PIX_FMT_Y12 ∨ pix_fmt = V4L2_PIX_FMT_SRGGB12

/-- The spec's mode code `d + 6*[lanes = 4] + 3*[trigger on]`. -/
def spec_mode_code (d : Int) (four_lanes trigger : Bool) : Int :=
  d + 6 * (if four_lanes then 1 else 0) + 3 * (if trigger then 1 else 0)

/-- The trigger selection seen by `imx273_set_mode`: on when the device-tree
value `ext_trig_mode` is positive, or, when that value is negative (not set),
when the mode id of the host subsystem is non-zero. -/
def trigger_selected (ext_trig_mode sensor_mode_id : Int) : Bool :=
  if ext_trig_mode ≥ 0 then decide (ext_trig_mode > 0) else decide (sensor_mode_id ≠ 0)

/-! ## Bus traffic named in the statements -/

/-- The write to a semantic register role: a single `reg_write` to the
sensor when the role is present, nothing when its address is 0. -/
def role_write (p : imx273) (role data : Nat) : List BusOp :=
  if sen_reg p role ≠ 0 then [BusOp.write Dev.sensor (sen_reg p role) data] else []

/-- The three reads of the frame-length registers issued by
`imx_exposure_296_297`. -/
def vmax_reads (base : Nat) : List BusOp :=
  [BusOp.read Dev.sensor (base + 0x12), BusOp.read Dev.sensor (base + 0x11),
   BusOp.read Dev.sensor (base + 0x10)]

/-- The three writes of the value `v` to the frame-length registers
(`(v >> 16) & 0x07`, `(v >> 8) & 0xff`, `v & 0xff`). -/
def vmax_writes (base v : Nat) : List BusOp :=
  [BusOp.write Dev.sensor (base + 0x12) ((v >>> 16) &&& 0x07),
   BusOp.write Dev.sensor (base + 0x11) ((v >>> 8) &&& 0xff),
   BusOp.write Dev.sensor (base + 0x10) (v &&& 0xff)]

/-- The four shutter-byte writes to the bridge, LSB at `0x0109`, MSB at
`0x010C`. -/
def shutter_writes (t : Nat) : List BusOp :=
  [BusOp.write Dev.rom 0x0109 (t &&& 0xff),
   BusOp.write Dev.rom 0x010A ((t >>> 8) &&& 0xff),
   BusOp.write Dev.rom 0x010B ((t >>> 16) &&& 0xff),
   BusOp.write Dev.rom 0x010C ((t >>> 24) &&& 0xff)]

/-- The frame length rebuilt by `read_vmax` when its three reads are the
transfers number `n`, `n+1`, `n+2` of the bus environment. -/
def vmax_at (env : Env) (n : Nat) : Nat :=
  vmax_of (read_result (env n)) (read_result (env (n + 1))) (read_result (env (n + 2)))

/-- The writes of the short-exposure branch: frame length `vMax`, then the
shutter `sh` to the present exposure roles (HIGH, MIDDLE, LOW). -/
def short_writes (p : imx273) (base vMax sh : Nat) : List BusOp :=
  vmax_writes base vMax
    ++ role_write p EXPOSURE_HIGH ((sh >>> 16) &&& 0x07)
    ++ role_write p EXPOSURE_MIDDLE ((sh >>> 8) &&& 0xff)
    ++ role_write p EXPOSURE_LOW (sh &&& 0xff)

/-- The writes of the long-exposure branch: 0, 0, `0x0e` to the present
exposure roles, then the value `v` to the frame-length registers. -/
def long_writes (p : imx273) (base v : Nat) : List BusOp :=
  role_write p EXPOSURE_HIGH 0x00
    ++ role_write p EXPOSURE_MIDDLE 0x00
    ++ role_write p EXPOSURE_LOW 0x0e
    ++ vmax_writes base v

/-- The state of `imx273_set_mode` after the mode computation and before the
comparison with `priv->sensor_mode`: the new mode code in the file-scope
`sensor_mode`, the new trigger flag in `priv->sensor_ext_trig`. -/
def mode_state (s : Sys) (pix_fmt sensor_mode_id : Int) : Sys :=
  set_sensor_ext_trig
    (set_sensor_mode s
      (compute_sensor_mode s.sensor_mode pix_fmt s.priv.num_lanes s.ext_trig_mode
        sensor_mode_id))
    (compute_ext_trig s.priv.sensor_ext_trig s.ext_trig_mode sensor_mode_id)

/-- Whether a bus transfer touches one of the bridge registers used by the
reset: `0x0100` (reset), `0x0101` (status), `0x0102` (mode). -/
def touches_reset_regs (op : BusOp) : Bool :=
  match op with
  | BusOp.write Dev.rom a _ => decide (a = 0x0100 ∨ a = 0x0101 ∨ a = 0x0102)
  | BusOp.read Dev.rom a => decide (a = 0x0100 ∨ a = 0x0101 ∨ a = 0x0102)
  | _ => false

/-- Whether a bus transfer is a table write through the regmap (the
stream-on and stream-off commands are such writes, to `0x7000`). -/
def is_regmap_write (op : BusOp) : Bool :=
  match op with
  | BusOp.regmap_write _ _ => true
  | _ => false

/-- The descriptor byte stored by the read that is transfer number `k` of the
bus environment: `(char)reg`. -/
def rom_byte (env : Env) (k : Nat) : Nat := u8 (read_result (env k))

/-- The descriptor image delivered by the 166 transfers that start at transfer
number `n0`. -/
def rom_image (env : Env) (n0 : Nat) : List Nat :=
  (List.range' n0 ROM_TABLE_SIZE).map (rom_byte env)

/-- The 166 reads of the descriptor loop: byte `i` from bridge register
`0x1000 + i`. -/
def rom_reads : List BusOp :=
  (List.range' 0 ROM_TABLE_SIZE).map (fun a => BusOp.read Dev.rom (0x1000 + a))

/-- Every byte of the descriptor is readable: none of the 166 transfers that
start at transfer number `n0` returns a negative value. -/
def rom_readable (env : Env) (n0 : Nat) : Prop :=
  ∀ i, i < ROM_TABLE_SIZE → 0 ≤ (env (n0 + i)).ret

/-- Host inputs with which `imx273_board_setup` reaches the descriptor read:
clock and power come up, the lane count is 2 or 4, the adapter supports byte
transfers, and the bridge is found. -/
def valid_inputs (inp : board_inputs) : Prop :=
  (inp.mclk_name = true → inp.mclk_err = 0) ∧ inp.power_err = 0
    ∧ (inp.num_lanes = 2 ∨ inp.num_lanes = 4) ∧ inp.smbus = true ∧ inp.rom_found = true

/-- The state of `imx273_board_setup` when the descriptor read starts: lane
count stored, mode code 1 (two lanes) or 7 (four lanes), bridge present. -/
def probed_state (s : Sys) (inp : board_inputs) : Sys :=
  set_rom (set_sensor_mode (set_num_lanes s inp.num_lanes) (if inp.num_lanes = 2 then 1 else 7))
    true

/-- The member `sen_type` of a descriptor image. -/
def desc_sen_type (img : List Nat) : List Nat := (img.drop ROM_SEN_TYPE).take 16

/-- The member `mod_id` of a descriptor image. -/
def desc_mod_id (img : List Nat) : Nat := le16 img ROM_MOD_ID

/-- The state `s` with the bus transfers `ops` appended to its log. -/
def log_append (s : Sys) (ops : List BusOp) : Sys := { s with log := s.log ++ ops }

/-- The state of `imx273_start_streaming` after its three control calls
(`imx273_set_gain`, `imx273_set_exposure`, `imx273_set_frame_rate` with the
stored values) and before the trigger configuration. -/
def ctrl_state (env : Env) (s : Sys) : Sys :=
  (imx273_set_exposure env (imx273_set_gain env s (s.priv.digital_gain : Int)).1
    ((imx273_set_gain env s (s.priv.digital_gain : Int)).1.priv.exposure_time : Int)).1

/-- Whether a bus transfer is a write to one of the shutter registers
`0x0109..0x010C` of the bridge. -/
def is_shutter_write (op : BusOp) : Bool :=
  match op with
  | BusOp.write Dev.rom a _ => decide (0x0109 ≤ a ∧ a ≤ 0x010C)
  | _ => false

/-- Whether a value returned by the status read has bit 0 (error) set and
bit 7 (ready) clear. -/
def error_status (reg : Int) : Bool :=
  decide (u32 reg &&& 0x80 = 0 ∧ u32 reg &&& 0x01 ≠ 0)

/-- Whether one of the `k` status reads that are the transfers number
`n0, n0+1, ...` of the bus environment shows the error bit without the ready
bit. -/
def error_seen (env : Env) : Nat → Nat → Bool
  | _, 0 => false
  | n0, k + 1 => error_status (read_result (env n0)) || error_seen env (n0 + 1) k

/-- The state `s` with another stored frame rate. -/
def with_frame_rate (s : Sys) (f : Nat) : Sys :=
  { s with priv := { s.priv with frame_rate := f } }

/-- The part of the driver state outside the private data and the bus log:
the file-scope `sensor_mode` and `ext_trig_mode` and the static `try`. -/
def globals (s : Sys) : Int × Int × Int := (s.sensor_mode, s.ext_trig_mode, s.try_)

/-- Whether a bus transfer addresses the sensor (not the bridge, not the
regmap). -/
def on_sensor (op : BusOp) : Bool :=
  match op with
  | BusOp.write Dev.sensor _ _ => true
  | BusOp.read Dev.sensor _ => true
  | _ => false

/-- The mode code with which `imx273_board_setup` resets the bridge: 1 for two
lanes, 7 otherwise, plus 3 when `ext_trig_mode >= 1`. -/
def attach_mode_code (num_lanes ext_trig_mode : Int) : Int :=
  (if num_lanes = 2 then 1 else 7) + (if ext_trig_mode ≥ 1 then 3 else 0)

/-- The teardown reset that opens `imx273_stop_streaming`. -/
def stop_reset1 (env : Env) (s : Sys) : Sys × Int := vc_mipi_reset env s (-1)

/-- The reset with the current mode code that follows the teardown reset in
`imx273_stop_streaming`. -/
def stop_reset2 (env : Env) (s : Sys) : Sys × Int :=
  vc_mipi_reset env (stop_reset1 env s).1 (stop_reset1 env s).1.sensor_mode

/-- The stream-off table write of `imx273_stop_streaming`, issued after the
trigger disable. -/
def stop_table (env : Env) (s : Sys) : Sys × Int :=
  imx273_write_table env (vc_mipi_common_trigmode_write env (stop_reset2 env s).1 0 0 0 0 0).1
    (imx273_mode_table IMX273_MODE_STOP_STREAM)

/-- The exposure stored by `imx273_set_exposure` for a request already
truncated to `u32`: the clamp to `[29, 15110711]`. -/
def outer_clamp (et : Nat) : Nat :=
  if (if et < 29 then 29 else et) > 15110711 then 15110711 else (if et < 29 then 29 else et)

/-! ## Basic facts about the transport -/

theorem and_ff_mod (x : Nat) : (x &&& 0xff) % 256 = x &&& 0xff :=
  Nat.mod_eq_of_lt (Nat.lt_of_le_of_lt Nat.and_le_right (by decide))

theorem and_07_mod (x : Nat) : (x &&& 0x07) % 256 = x &&& 0x07 :=
  Nat.mod_eq_of_lt (Nat.lt_of_le_of_lt Nat.and_le_right (by decide))

theorem and_ff_eq_mod (x : Nat) : x &&& 0xff = x % 256 :=
  Nat.and_pow_two_sub_one_eq_mod x 8

theorem sen_reg_lt (p : imx273) (k : Nat) : sen_reg p k < 65536 := by
  unfold sen_reg le16
  omega

@[simp] theorem sen_reg_mod (p : imx273) (k : Nat) : sen_reg p k % 65536 = sen_reg p k :=
  Nat.mod_eq_of_lt (sen_reg_lt p k)

@[simp] theorem le16_mod (r : List Nat) (k : Nat) : le16 r k % 65536 = le16 r k :=
  Nat.mod_eq_of_lt (by unfold le16; omega)

@[simp] theorem set_digital_gain_log (s : Sys) (g : Nat) :
    (set_digital_gain s g).log = s.log := rfl

@[simp] theorem set_digital_gain_regs (s : Sys) (g : Nat) :
    (set_digital_gain s g).priv.regs = s.priv.regs := rfl

@[simp] theorem set_digital_gain_gain (s : Sys) (g : Nat) :
    (set_digital_gain s g).priv.digital_gain = g := rfl

@[simp] theorem set_digital_gain_exposure (s : Sys) (g : Nat) :
    (set_digital_gain s g).priv.exposure_time = s.priv.exposure_time := rfl

@[simp] theorem set_digital_gain_trig (s : Sys) (g : Nat) :
    (set_digital_gain s g).priv.sensor_ext_trig = s.priv.sensor_ext_trig := rfl

@[simp] theorem set_digital_gain_clk (s : Sys) (g : Nat) :
    (set_digital_gain s g).priv.sen_clk = s.priv.sen_clk := rfl

@[simp] theorem set_digital_gain_flash (s : Sys) (g : Nat) :
    (set_digital_gain s g).priv.flash_output = s.priv.flash_output := rfl

@[simp] theorem set_digital_gain_model (s : Sys) (g : Nat) :
    (set_digital_gain s g).priv.model = s.priv.model := rfl

@[simp] theorem set_exposure_time_log (s : Sys) (e : Nat) :
    (set_exposure_time s e).log = s.log := rfl

@[simp] theorem set_exposure_time_regs (s : Sys) (e : Nat) :
    (set_exposure_time s e).priv.regs = s.priv.regs := rfl

@[simp] theorem set_exposure_time_exposure (s : Sys) (e : Nat) :
    (set_exposure_time s e).priv.exposure_time = e := rfl

@[simp] theorem set_exposure_time_trig (s : Sys) (e : Nat) :
    (set_exposure_time s e).priv.sensor_ext_trig = s.priv.sensor_ext_trig := rfl

@[simp] theorem set_exposure_time_clk (s : Sys) (e : Nat) :
    (set_exposure_time s e).priv.sen_clk = s.priv.sen_clk := rfl

@[simp] theorem set_exposure_time_flash (s : Sys) (e : Nat) :
    (set_exposure_time s e).priv.flash_output = s.priv.flash_output := rfl

@[simp] theorem set_exposure_time_model (s : Sys) (e : Nat) :
    (set_exposure_time s e).priv.model = s.priv.model := rfl

@[simp] theorem set_exposure_time_try (s : Sys) (e : Nat) :
    (set_exposure_time s e).try_ = s.try_ := rfl

@[simp] theorem set_try_log (s : Sys) (t : Int) : (set_try s t).log = s.log := rfl

@[simp] theorem set_try_priv (s : Sys) (t : Int) : (set_try s t).priv = s.priv := rfl

@[simp] theorem set_try_try (s : Sys) (t : Int) : (set_try s t).try_ = t := rfl

@[simp] theorem set_streaming_log (s : Sys) (b : Bool) : (set_streaming s b).log = s.log := rfl

@[simp] theorem sen_reg_set_digital_gain (s : Sys) (g k : Nat) :
    sen_reg (set_digital_gain s g).priv k = sen_reg s.priv k := rfl

@[simp] theorem sen_reg_set_exposure_time (s : Sys) (e k : Nat) :
    sen_reg (set_exposure_time s e).priv k = sen_reg s.priv k := rfl

@[simp] theorem reg_write_log (env : Env) (s : Sys) (d : Dev) (a v : Nat) :
    (reg_write env s d a v).1.log = s.log ++ [BusOp.write d (a % 65536) (v % 256)] := rfl

@[simp] theorem reg_write_priv (env : Env) (s : Sys) (d : Dev) (a v : Nat) :
    (reg_write env s d a v).1.priv = s.priv := rfl

@[simp] theorem reg_write_try (env : Env) (s : Sys) (d : Dev) (a v : Nat) :
    (reg_write env s d a v).1.try_ = s.try_ := rfl

@[simp] theorem reg_read_log (env : Env) (s : Sys) (d : Dev) (a : Nat) :
    (reg_read env s d a).1.log = s.log ++ [BusOp.read d (a % 65536)] := rfl

@[simp] theorem reg_read_priv (env : Env) (s : Sys) (d : Dev) (a : Nat) :
    (reg_read env s d a).1.priv = s.priv := rfl

@[simp] theorem reg_read_try (env : Env) (s : Sys) (d : Dev) (a : Nat) :
    (reg_read env s d a).1.try_ = s.try_ := rfl

/-- The value `reg_write` returns is 0 or `- EIO`. -/
theorem reg_write_ret (env : Env) (s : Sys) (d : Dev) (a v : Nat) :
    (reg_write env s d a v).2 = 0 ∨ (reg_write env s d a v).2 = - EIO := by
  unfold reg_write
  by_cases h : (env s.log.length).ret = 1 <;> simp [h]

/-! ## Gain -/

/-- The gain stored by `imx273_set_gain` for the request `val`. -/
theorem set_gain_stored (env : Env) (s : Sys) (val : Int) :
    (imx273_set_gain env s val).1.priv.digital_gain
      = if u32 val > 480 then 480 else u32 val := by
  have h0 : u32 IMX273_DIGITAL_GAIN_MIN = 0 := by decide
  have h1 : u32 IMX273_DIGITAL_GAIN_MAX = 480 := by decide
  simp only [imx273_set_gain, h0, h1, Nat.not_lt_zero, if_false]
  split_ifs <;> simp

/-- The bus transfers of `imx273_set_gain`: the high byte to `GAIN_HIGH`, then
the low byte to `GAIN_LOW`, each only when its role is present. -/
theorem set_gain_log (env : Env) (s : Sys) (val : Int) :
    (imx273_set_gain env s val).1.log
      = s.log
        ++ (if sen_reg s.priv GAIN_HIGH ≠ 0 then
              [BusOp.write Dev.sensor (sen_reg s.priv GAIN_HIGH)
                (((if u32 val > 480 then 480 else u32 val) >>> 8) &&& 0xff)]
            else [])
        ++ (if sen_reg s.priv GAIN_LOW ≠ 0 then
              [BusOp.write Dev.sensor (sen_reg s.priv GAIN_LOW)
                ((if u32 val > 480 then 480 else u32 val) &&& 0xff)]
            else []) := by
  have h0 : u32 IMX273_DIGITAL_GAIN_MIN = 0 := by decide
  have h1 : u32 IMX273_DIGITAL_GAIN_MAX = 480 := by decide
  simp only [imx273_set_gain, h0, h1, Nat.not_lt_zero, if_false]
  by_cases hH : sen_reg s.priv GAIN_HIGH = 0 <;>
    by_cases hL : sen_reg s.priv GAIN_LOW = 0 <;>
    simp [hH, hL, and_ff_mod]

/-- C1 (failing input): for the request `g = -1`, with both gain roles present
(`0x0405`, `0x0404`), `imx273_set_gain` writes high byte 1 and low byte `0xE0`,
which recombine to 480, whereas `clamp(-1, 0, 480)` is 0: the request is
truncated to `u32` before the clamp and the lower comparison never fires. -/
theorem C1_set_gain_negative_request :
    (imx273_set_gain envOk sys0 (-1)).1.log
        = [BusOp.write Dev.sensor 0x0405 1, BusOp.write Dev.sensor 0x0404 0xE0]
      ∧ ((1 <<< 8) ||| 0xE0 : Nat) = 480
      ∧ (imx273_set_gain envOk sys0 (-1)).1.priv.digital_gain = 480
      ∧ spec_clamp (-1) IMX273_DIGITAL_GAIN_MIN IMX273_DIGITAL_GAIN_MAX = 0 := by
  decide

/-- Gain round-trip on the unsigned range: for a request `0 ≤ val < 2^32`, the
bytes `(g >> 8) & 0xff` and `g & 0xff` of the stored gain `g` recombine to
`clamp(val, 0, 480)`. -/
theorem set_gain_roundtrip_unsigned (env : Env) (s : Sys) (val : Int)
    (h0 : 0 ≤ val) (h1 : val < 4294967296) :
    (imx273_set_gain env s val).1.priv.digital_gain
        = (spec_clamp val IMX273_DIGITAL_GAIN_MIN IMX273_DIGITAL_GAIN_MAX).toNat
      ∧ ((((imx273_set_gain env s val).1.priv.digital_gain >>> 8) &&& 0xff) <<< 8)
          ||| ((imx273_set_gain env s val).1.priv.digital_gain &&& 0xff)
        = (spec_clamp val IMX273_DIGITAL_GAIN_MIN IMX273_DIGITAL_GAIN_MAX).toNat := by
  have hu : u32 val = val.toNat := by
    unfold u32
    omega
  have hg : (imx273_set_gain env s val).1.priv.digital_gain
      = (spec_clamp val IMX273_DIGITAL_GAIN_MIN IMX273_DIGITAL_GAIN_MAX).toNat := by
    rw [set_gain_stored, hu]
    unfold spec_clamp IMX273_DIGITAL_GAIN_MIN IMX273_DIGITAL_GAIN_MAX
    split_ifs <;> omega
  refine ⟨hg, ?_⟩
  rw [hg]
  have hle : (spec_clamp val IMX273_DIGITAL_GAIN_MIN IMX273_DIGITAL_GAIN_MAX).toNat ≤ 480 := by
    unfold spec_clamp IMX273_DIGITAL_GAIN_MIN IMX273_DIGITAL_GAIN_MAX
    split_ifs <;> omega
  generalize (spec_clamp val IMX273_DIGITAL_GAIN_MIN IMX273_DIGITAL_GAIN_MAX).toNat = g at hle
  have e1 : g &&& 0xff = g % 2 ^ 8 := Nat.and_pow_two_sub_one_eq_mod g 8
  have e2 : (g >>> 8) &&& 0xff = (g >>> 8) % 2 ^ 8 := Nat.and_pow_two_sub_one_eq_mod _ 8
  have e3 := Nat.mul_add_lt_is_or (i := 8) (b := g % 2 ^ 8) (Nat.mod_lt _ (by decide))
    ((g >>> 8) % 2 ^ 8)
  rw [e1, e2, Nat.shiftLeft_eq, Nat.mul_comm, ← e3, Nat.shiftRight_eq_div_pow]
  omega

/-! ## Exposure: structure of the two branches -/

theorem exposure_base_le (m : imx_model) : exposure_base m ≤ 0x3000 := by
  cases m <;> decide

theorem exposure_base_mod (m : imx_model) (k : Nat) (hk : k ≤ 0x12) :
    (exposure_base m + k) % 65536 = exposure_base m + k := by
  have := exposure_base_le m
  omega

theorem short_branch_priv (env : Env) (s : Sys) (base vMax sh : Nat) :
    (short_branch env s base vMax sh).1.priv = s.priv := by
  simp only [short_branch]
  split_ifs <;> simp

theorem short_branch_log (env : Env) (s : Sys) (base vMax sh : Nat) (hb : base ≤ 0x3000) :
    (short_branch env s base vMax sh).1.log
      = s.log ++ vmax_writes base vMax
        ++ role_write s.priv EXPOSURE_HIGH ((sh >>> 16) &&& 0x07)
        ++ role_write s.priv EXPOSURE_MIDDLE ((sh >>> 8) &&& 0xff)
        ++ role_write s.priv EXPOSURE_LOW (sh &&& 0xff) := by
  have e1 : (base + 0x12) % 65536 = base + 0x12 := by omega
  have e2 : (base + 0x11) % 65536 = base + 0x11 := by omega
  have e3 : (base + 0x10) % 65536 = base + 0x10 := by omega
  simp only [short_branch, role_write, vmax_writes]
  by_cases hH : sen_reg s.priv EXPOSURE_HIGH = 0 <;>
    by_cases hM : sen_reg s.priv EXPOSURE_MIDDLE = 0 <;>
    by_cases hL : sen_reg s.priv EXPOSURE_LOW = 0 <;>
    simp [hH, hM, hL, and_ff_mod, and_07_mod, e1, e2, e3]

theorem long_branch_priv (env : Env) (s : Sys) (base v : Nat) :
    (long_branch env s base v).1.priv = s.priv := by
  simp only [long_branch]
  split_ifs <;> simp

theorem long_branch_log (env : Env) (s : Sys) (base v : Nat) (hb : base ≤ 0x3000) :
    (long_branch env s base v).1.log
      = s.log
        ++ role_write s.priv EXPOSURE_HIGH 0x00
        ++ role_write s.priv EXPOSURE_MIDDLE 0x00
        ++ role_write s.priv EXPOSURE_LOW 0x0e
        ++ vmax_writes base v := by
  have e1 : (base + 0x12) % 65536 = base + 0x12 := by omega
  have e2 : (base + 0x11) % 65536 = base + 0x11 := by omega
  have e3 : (base + 0x10) % 65536 = base + 0x10 := by omega
  simp only [long_branch, role_write, vmax_writes]
  by_cases hH : sen_reg s.priv EXPOSURE_HIGH = 0 <;>
    by_cases hM : sen_reg s.priv EXPOSURE_MIDDLE = 0 <;>
    by_cases hL : sen_reg s.priv EXPOSURE_LOW = 0 <;>
    simp [hH, hM, hL, and_ff_mod, and_07_mod, e1, e2, e3]

theorem read_vmax_log (env : Env) (s : Sys) (base : Nat) (hb : base ≤ 0x3000) :
    (read_vmax env s base).1.log = s.log ++ vmax_reads base := by
  have e1 : (base + 0x12) % 65536 = base + 0x12 := by omega
  have e2 : (base + 0x11) % 65536 = base + 0x11 := by omega
  have e3 : (base + 0x10) % 65536 = base + 0x10 := by omega
  simp [read_vmax, vmax_reads, e1, e2, e3]

theorem read_vmax_priv (env : Env) (s : Sys) (base : Nat) :
    (read_vmax env s base).1.priv = s.priv := by
  simp [read_vmax]

theorem read_vmax_val (env : Env) (s : Sys) (base : Nat) :
    (read_vmax env s base).2
      = vmax_of (read_result (env s.log.length)) (read_result (env (s.log.length + 1)))
          (read_result (env (s.log.length + 2))) := by
  simp [read_vmax, reg_read]

theorem outer_clamp_range (x : Nat) : 29 ≤ outer_clamp x ∧ outer_clamp x ≤ 15110711 := by
  unfold outer_clamp
  split_ifs <;> omega


/-- In free-run mode `imx273_set_exposure` stores the clamped request, reads
back the frame length, and takes the short branch exactly when the clamped
exposure is below `expMin1 = 16504`. -/
theorem set_exposure_freerun (env : Env) (s : Sys) (val : Int)
    (h : s.priv.sensor_ext_trig = 0) :
    imx273_set_exposure env s val
      = if outer_clamp (u32 val) < 16504 then
          short_branch env
            (read_vmax env (set_exposure_time s (outer_clamp (u32 val)))
              (exposure_base s.priv.model)).1
            (exposure_base s.priv.model)
            (read_vmax env (set_exposure_time s (outer_clamp (u32 val)))
              (exposure_base s.priv.model)).2
            (short_shutter (outer_clamp (u32 val))
              (read_vmax env (set_exposure_time s (outer_clamp (u32 val)))
                (exposure_base s.priv.model)).2 1000 TOFFSET_296 H1PERIOD_296)
        else
          long_branch env
            (read_vmax env (set_exposure_time s (outer_clamp (u32 val)))
              (exposure_base s.priv.model)).1
            (exposure_base s.priv.model)
            (long_vmax (outer_clamp (u32 val)) 1000 TOFFSET_296 H1PERIOD_296) := by
  have hc := outer_clamp_range (u32 val)
  have e29 : u32 IMX273_DIGITAL_EXPOSURE_MIN = 29 := by decide
  have emax : u32 IMX273_DIGITAL_EXPOSURE_MAX = 15110711 := by decide
  have f29 : u32 EXPOSURE_TIME_MIN_296 = 29 := by decide
  have fmin2 : u32 EXPOSURE_TIME_MIN2_296 = 16504 := by decide
  have fmax : u32 EXPOSURE_TIME_MAX_296 = 15534389 := by decide
  have houter : (if (if u32 val < 29 then 29 else u32 val) > 15110711 then 15110711
      else (if u32 val < 29 then 29 else u32 val)) = outer_clamp (u32 val) := rfl
  have hset : set_exposure_time
      (read_vmax env (set_exposure_time s (outer_clamp (u32 val))) (exposure_base s.priv.model)).1
      (outer_clamp (u32 val))
      = (read_vmax env (set_exposure_time s (outer_clamp (u32 val)))
          (exposure_base s.priv.model)).1 := by
    have hp := read_vmax_priv env (set_exposure_time s (outer_clamp (u32 val)))
      (exposure_base s.priv.model)
    generalize (read_vmax env (set_exposure_time s (outer_clamp (u32 val)))
      (exposure_base s.priv.model)).1 = t at hp
    obtain ⟨tp, a, b, c, d⟩ := t
    simp only at hp
    subst hp
    rfl
  have h1 : ¬ outer_clamp (u32 val) < 29 := by omega
  have h2 : ¬ outer_clamp (u32 val) > 15534389 := by omega
  simp only [imx273_set_exposure, e29, emax, houter, set_exposure_time_trig, h, ne_eq,
    not_true_eq_false, if_false, imx_exposure_296, imx_exposure_296_297, f29, fmin2, fmax,
    read_vmax_priv, set_exposure_time_exposure, set_exposure_time_model, h1, h2, hset,
    ite_self, Prod.mk.eta]


theorem u32_natCast (n : Nat) : u32 (n : Int) = n % 4294967296 := by
  unfold u32
  omega

theorem outer_clamp_mid (x : Nat) (h1 : 29 ≤ x) (h2 : x ≤ 15110711) : outer_clamp x = x := by
  unfold outer_clamp
  split_ifs <;> omega

/-- The exposure stored by `imx273_set_exposure`, in either mode. -/
theorem set_exposure_stored (env : Env) (s : Sys) (val : Int) :
    (imx273_set_exposure env s val).1.priv.exposure_time = outer_clamp (u32 val) := by
  by_cases h : s.priv.sensor_ext_trig = 0
  · rw [set_exposure_freerun env s val h]
    split_ifs <;> simp [short_branch_priv, long_branch_priv, read_vmax_priv]
  · have e29 : u32 IMX273_DIGITAL_EXPOSURE_MIN = 29 := by decide
    have emax : u32 IMX273_DIGITAL_EXPOSURE_MAX = 15110711 := by decide
    have houter : (if (if u32 val < 29 then 29 else u32 val) > 15110711 then 15110711
        else (if u32 val < 29 then 29 else u32 val)) = outer_clamp (u32 val) := rfl
    simp [imx273_set_exposure, e29, emax, houter, h, write_shutter]

/-- The bus transfers of a free-run `imx273_set_exposure`: three reads of the
frame-length registers, then the writes of the branch selected by the clamped
exposure. -/
theorem set_exposure_freerun_log (env : Env) (s : Sys) (val : Int)
    (h : s.priv.sensor_ext_trig = 0) :
    (imx273_set_exposure env s val).1.log
      = s.log ++ vmax_reads (exposure_base s.priv.model)
        ++ (if outer_clamp (u32 val) < 16504 then
              short_writes s.priv (exposure_base s.priv.model) (vmax_at env s.log.length)
                (short_shutter (outer_clamp (u32 val)) (vmax_at env s.log.length) 1000
                  TOFFSET_296 H1PERIOD_296)
            else
              long_writes s.priv (exposure_base s.priv.model)
                (long_vmax (outer_clamp (u32 val)) 1000 TOFFSET_296 H1PERIOD_296)) := by
  have hb := exposure_base_le s.priv.model
  rw [set_exposure_freerun env s val h]
  split_ifs
  · rw [short_branch_log _ _ _ _ _ hb, read_vmax_log _ _ _ hb, read_vmax_val, read_vmax_priv]
    simp [short_writes, vmax_at, role_write, List.append_assoc]
  · rw [long_branch_log _ _ _ _ hb, read_vmax_log _ _ _ hb, read_vmax_priv]
    simp [long_writes, role_write, List.append_assoc]

/-- On the range of the outer clamp the long-exposure value computed by the
code is the spec's formula. -/
theorem long_vmax_eq (et : Nat) (h1 : 29 ≤ et) (h2 : et ≤ 15534389) :
    long_vmax et 1000 TOFFSET_296 H1PERIOD_296 = spec_long_formula et := by
  have t : u64 TOFFSET_296 = 233636 := by decide
  have p : u32 H1PERIOD_296 = 242726 := by decide
  have hx : et * 16384 % 18446744073709551616 = et * 16384 := Nat.mod_eq_of_lt (by omega)
  have hs : sub64 (et * 16384) 233636 = et * 16384 - 233636 := by
    unfold sub64
    omega
  have hd : (et * 16384 - 233636) / 242726 ≤ 1048570 := by
    calc (et * 16384 - 233636) / 242726
        ≤ (15534389 * 16384 - 233636) / 242726 := Nat.div_le_div_right (by omega)
      _ = 1048569 := by norm_num
      _ ≤ 1048570 := by omega
  simp only [long_vmax, spec_long_formula, t, p, hx, hs]
  generalize (et * 16384 - 233636) / 242726 = d at hd
  have hm : d % 4294967296 = d := Nat.mod_eq_of_lt (by omega)
  have hc : d * 1000 / 1000 = d := Nat.mul_div_cancel d (by decide)
  have hmul : mul32 d 1000 = d * 1000 := by
    unfold mul32
    exact Nat.mod_eq_of_lt (by omega)
  rw [hm, hmul, hc]
  unfold add32
  exact Nat.mod_eq_of_lt (by omega)

theorem join24_eq (h m l : Nat) (hm : m < 256) (hl : l < 256) :
    join24 h m l = h * 65536 + m * 256 + l := by
  unfold join24
  simp only [Nat.shiftLeft_eq]
  have e1 : h * 2 ^ 16 ||| m * 2 ^ 8 = h * 65536 + m * 256 := by
    have := Nat.mul_add_lt_is_or (i := 16) (b := m * 2 ^ 8) (by omega) h
    rw [Nat.mul_comm h, ← this]
    omega
  have e2 : (h * 65536 + m * 256) ||| l = h * 65536 + m * 256 + l := by
    have := Nat.mul_add_lt_is_or (i := 8) (b := l) (by omega) (h * 256 + m)
    have e : h * 65536 + m * 256 = 2 ^ 8 * (h * 256 + m) := by omega
    rw [e, ← this]
  rw [e1, e2]

theorem join32_eq (b3 b2 b1 b0 : Nat) (h2 : b2 < 256) (h1 : b1 < 256) (h0 : b0 < 256) :
    join32 b3 b2 b1 b0 = b3 * 16777216 + b2 * 65536 + b1 * 256 + b0 := by
  unfold join32
  simp only [Nat.shiftLeft_eq]
  have e1 : b3 * 2 ^ 24 ||| b2 * 2 ^ 16 = b3 * 16777216 + b2 * 65536 := by
    have := Nat.mul_add_lt_is_or (i := 24) (b := b2 * 2 ^ 16) (by omega) b3
    rw [Nat.mul_comm b3, ← this]
    omega
  have e2 : (b3 * 16777216 + b2 * 65536) ||| b1 * 2 ^ 8 = b3 * 16777216 + b2 * 65536 + b1 * 256 := by
    have := Nat.mul_add_lt_is_or (i := 16) (b := b1 * 2 ^ 8) (by omega) (b3 * 256 + b2)
    have e : b3 * 16777216 + b2 * 65536 = 2 ^ 16 * (b3 * 256 + b2) := by omega
    rw [e, ← this]
    omega
  have e3 : (b3 * 16777216 + b2 * 65536 + b1 * 256) ||| b0
      = b3 * 16777216 + b2 * 65536 + b1 * 256 + b0 := by
    have := Nat.mul_add_lt_is_or (i := 8) (b := b0) (by omega) (b3 * 65536 + b2 * 256 + b1)
    have e : b3 * 16777216 + b2 * 65536 + b1 * 256 = 2 ^ 8 * (b3 * 65536 + b2 * 256 + b1) := by omega
    rw [e, ← this]
  rw [e1, e2, e3]

theorem and_07_eq_mod (x : Nat) : x &&& 0x07 = x % 8 :=
  Nat.and_pow_two_sub_one_eq_mod x 3

theorem join24_bytes (v : Nat) :
    join24 ((v >>> 16) &&& 0x07) ((v >>> 8) &&& 0xff) (v &&& 0xff) = v % 524288 := by
  rw [join24_eq _ _ _ (by rw [and_ff_eq_mod]; omega) (by rw [and_ff_eq_mod]; omega)]
  simp only [and_07_eq_mod, and_ff_eq_mod, Nat.shiftRight_eq_div_pow]
  omega

theorem join32_bytes (v : Nat) :
    join32 ((v >>> 24) &&& 0xff) ((v >>> 16) &&& 0xff) ((v >>> 8) &&& 0xff) (v &&& 0xff)
      = v % 4294967296 := by
  rw [join32_eq _ _ _ _ (by rw [and_ff_eq_mod]; omega) (by rw [and_ff_eq_mod]; omega)
    (by rw [and_ff_eq_mod]; omega)]
  simp only [and_ff_eq_mod, Nat.shiftRight_eq_div_pow]
  omega

theorem short_shutter_ge (et vMax m : Nat) (t p : Int) : 14 ≤ short_shutter et vMax m t p := by
  simp only [short_shutter]
  split_ifs <;> omega

/-- With the frame length 1118 read back, the shutter of the short branch is
`max(14, 1118 - (e*16384 - 233636)/242726)` and no subtraction wraps. -/
theorem short_shutter_1118 (e : Nat) (h1 : 29 ≤ e) (h2 : e < 16504) :
    short_shutter e 1118 1000 TOFFSET_296 H1PERIOD_296
        = max 14 (1118 - (e * 16384 - 233636) / 242726)
      ∧ 233636 ≤ e * 16384
      ∧ (e * 16384 - 233636) / 242726 ≤ 1118 := by
  have t : u32 TOFFSET_296 = 233636 := by decide
  have p : u32 H1PERIOD_296 = 242726 := by decide
  have hm : mul32 e 16384 = e * 16384 := by
    unfold mul32
    exact Nat.mod_eq_of_lt (by omega)
  have hs : sub32 (e * 16384) 233636 = e * 16384 - 233636 := by
    unfold sub32
    omega
  have hd : (e * 16384 - 233636) / 242726 ≤ 1112 := by
    calc (e * 16384 - 233636) / 242726
        ≤ (16503 * 16384 - 233636) / 242726 := Nat.div_le_div_right (by omega)
      _ = 1112 := by norm_num
  have hz : sub32 1118 (mul32 1118 1000 / 1000) = 0 := by decide
  refine ⟨?_, by omega, by omega⟩
  simp only [short_shutter, t, p, hm, hs, hz]
  generalize (e * 16384 - 233636) / 242726 = d at hd
  unfold sub32
  have e1 : (1118 + 4294967296 - d % 4294967296) % 4294967296 = 1118 - d := by omega
  rw [e1]
  have e2 : (1118 - d + 4294967296 - 0 % 4294967296) % 4294967296 = 1118 - d := by omega
  rw [e2]
  rcases Nat.lt_or_ge (1118 - d) 14 with hlt | hge
  · rw [if_pos hlt, Nat.max_eq_left (Nat.le_of_lt hlt)]
  · rw [if_neg (Nat.not_lt.mpr hge), Nat.max_eq_right hge]

/-- In free-run mode, for every request `16504 ≤ e ≤ 15534389`,
`imx273_set_exposure` takes the long branch: it reads the frame-length
registers, writes 0, 0, `0x0e` to the present exposure roles and then the
bytes `(v >> 16) & 0x07`, `(v >> 8) & 0xff`, `v & 0xff` of
`v = 15 + ((e' * 16384 - 233636) / 242726) * 1000 / 1000` to the
frame-length registers, `e' = min(e, 15110711)` being the stored exposure.
The three bytes carry `v mod 2^19`, which is `v` itself, at `e`, whenever
`e ≤ 7767024`. -/
theorem set_exposure_long_registers (env : Env) (s : Sys) (e : Nat)
    (h : s.priv.sensor_ext_trig = 0) (h1 : 16504 ≤ e) (h2 : e ≤ 15534389) :
    (imx273_set_exposure env s (e : Int)).1.log
        = s.log ++ vmax_reads (exposure_base s.priv.model)
          ++ long_writes s.priv (exposure_base s.priv.model)
              (spec_long_formula (min e 15110711))
      ∧ join24 ((spec_long_formula (min e 15110711) >>> 16) &&& 0x07)
          ((spec_long_formula (min e 15110711) >>> 8) &&& 0xff)
          (spec_long_formula (min e 15110711) &&& 0xff)
          = spec_long_formula (min e 15110711) % 524288
      ∧ (e ≤ 7767024 → spec_long_formula (min e 15110711) % 524288 = spec_long_formula e) := by
  have hu : u32 (e : Int) = e := by
    rw [u32_natCast]
    exact Nat.mod_eq_of_lt (by omega)
  have hc : outer_clamp e = min e 15110711 := by
    unfold outer_clamp
    split_ifs <;> omega
  refine ⟨?_, join24_bytes _, ?_⟩
  · rw [set_exposure_freerun_log env s _ h, hu, hc]
    have hlt : ¬ min e 15110711 < 16504 := by omega
    rw [if_neg hlt, long_vmax_eq _ (by omega) (by omega)]
  · intro h3
    have hmin : min e 15110711 = e := by omega
    rw [hmin]
    apply Nat.mod_eq_of_lt
    have hd : (e * 16384 - 233636) / 242726 ≤ 524272 := by
      calc (e * 16384 - 233636) / 242726
          ≤ (7767024 * 16384 - 233636) / 242726 := Nat.div_le_div_right (by omega)
        _ = 524272 := by norm_num
    unfold spec_long_formula
    rw [Nat.mul_div_cancel _ (by decide)]
    omega

/-- C2 (failing input): for the request `e = 8000000` in free-run mode, which
lies in `[expMin1, expMax]` and is not changed by the clamp of
`imx273_set_exposure`, the long branch is taken and the formula of the claim
gives the frame length `540013 = 0x083D6D`.  The frame-length registers
receive `0x0212 <- 0x00`, `0x0211 <- 0x3D`, `0x0210 <- 0x6D`, which carry
`15725`: the high byte `0x08` is masked with `0x07` and bit 19 of the value is
lost. -/
theorem C2_high_byte_mask_drops_bit19 :
    sys0.priv.sensor_ext_trig = 0
      ∧ (16504 : Nat) ≤ 8000000 ∧ (8000000 : Nat) ≤ 15534389
      ∧ (imx273_set_exposure envVmax sys0 8000000).1.priv.exposure_time = 8000000
      ∧ spec_long_formula 8000000 = 540013
      ∧ (540013 >>> 16) = 0x08 ∧ ((540013 >>> 16) &&& 0x07) = 0x00
      ∧ (imx273_set_exposure envVmax sys0 8000000).1.log
          = vmax_reads 0x0200
            ++ [BusOp.write Dev.sensor 0x028f 0x00, BusOp.write Dev.sensor 0x028e 0x00,
                BusOp.write Dev.sensor 0x028d 0x0e, BusOp.write Dev.sensor 0x0212 0x00,
                BusOp.write Dev.sensor 0x0211 0x3D, BusOp.write Dev.sensor 0x0210 0x6D]
      ∧ join24 0x00 0x3D 0x6D = 15725
      ∧ join24 0x00 0x3D 0x6D ≠ spec_long_formula 8000000 := by
  decide

/-- C3: in free-run mode, for every request `29 ≤ e < 16504`,
`imx273_set_exposure` takes the short-exposure branch: it stores `e`, reads
back the frame length `vMax`, writes `vMax` to the frame-length registers and
then the shutter value to the present roles EXPOSURE_HIGH/MIDDLE/LOW, and
that shutter value is at least 14.  For every request, the branch is fixed by
the clamped (stored) exposure alone: short below 16504, long otherwise. -/
theorem C3_short_branch_selection (env : Env) (s : Sys) (h : s.priv.sensor_ext_trig = 0) :
    (∀ e : Nat, 29 ≤ e → e < 16504 →
        imx273_set_exposure env s (e : Int)
            = short_branch env
                (read_vmax env (set_exposure_time s e) (exposure_base s.priv.model)).1
                (exposure_base s.priv.model) (vmax_at env s.log.length)
                (short_shutter e (vmax_at env s.log.length) 1000 TOFFSET_296 H1PERIOD_296)
          ∧ (imx273_set_exposure env s (e : Int)).1.log
            = s.log ++ vmax_reads (exposure_base s.priv.model)
              ++ short_writes s.priv (exposure_base s.priv.model) (vmax_at env s.log.length)
                  (short_shutter e (vmax_at env s.log.length) 1000 TOFFSET_296 H1PERIOD_296)
          ∧ 14 ≤ short_shutter e (vmax_at env s.log.length) 1000 TOFFSET_296 H1PERIOD_296
          ∧ (imx273_set_exposure env s (e : Int)).1.priv.exposure_time = e)
      ∧ (∀ val : Int,
          (imx273_set_exposure env s val).1.log
            = s.log ++ vmax_reads (exposure_base s.priv.model)
              ++ (if (imx273_set_exposure env s val).1.priv.exposure_time < 16504 then
                    short_writes s.priv (exposure_base s.priv.model) (vmax_at env s.log.length)
                      (short_shutter (imx273_set_exposure env s val).1.priv.exposure_time
                        (vmax_at env s.log.length) 1000 TOFFSET_296 H1PERIOD_296)
                  else
                    long_writes s.priv (exposure_base s.priv.model)
                      (long_vmax (imx273_set_exposure env s val).1.priv.exposure_time 1000
                        TOFFSET_296 H1PERIOD_296))) := by
  constructor
  · intro e h1 h2
    have hu : u32 (e : Int) = e := by
      rw [u32_natCast]
      exact Nat.mod_eq_of_lt (by omega)
    have hc : outer_clamp e = e := outer_clamp_mid e h1 (by omega)
    refine ⟨?_, ?_, short_shutter_ge _ _ _ _ _, ?_⟩
    · rw [set_exposure_freerun env s _ h, hu, hc, if_pos h2, read_vmax_val]
      rfl
    · rw [set_exposure_freerun_log env s _ h, hu, hc, if_pos h2]
    · rw [set_exposure_stored, hu, hc]
  · intro val
    rw [set_exposure_stored]
    exact set_exposure_freerun_log env s val h

/-- C3 (witness): the request 10000 on the sample device takes the short
branch, with shutter at least 14. -/
theorem C3_short_branch_selection_witness :
    sys0.priv.sensor_ext_trig = 0 ∧ 29 ≤ 10000 ∧ 10000 < 16504
      ∧ (imx273_set_exposure envVmax sys0 ((10000 : Nat) : Int)).1.log
          = sys0.log ++ vmax_reads (exposure_base sys0.priv.model)
            ++ short_writes sys0.priv (exposure_base sys0.priv.model)
                (vmax_at envVmax sys0.log.length)
                (short_shutter 10000 (vmax_at envVmax sys0.log.length) 1000
                  TOFFSET_296 H1PERIOD_296)
      ∧ 14 ≤ short_shutter 10000 (vmax_at envVmax sys0.log.length) 1000
          TOFFSET_296 H1PERIOD_296 :=
  ⟨rfl, by decide, by decide,
    ((C3_short_branch_selection envVmax sys0 rfl).1 10000 (by decide) (by decide)).2.1,
    ((C3_short_branch_selection envVmax sys0 rfl).1 10000 (by decide) (by decide)).2.2.1⟩

/-- C4 (counterexample): when the frame-length registers read back as 0, the
request 10000 makes `imx273_set_exposure` program the frame-length registers
with 0, 0, 0 (not `0x00, 0x04, 0x5E`) and the shutter with
`0 - 674 mod 2^32 = 4294966622` (not 444): the parameter `vMax = 1118` is
overwritten by the value read back. -/
theorem C4_counterexample :
    sys0.priv.sensor_ext_trig = 0
      ∧ vmax_at envZero 0 = 0
      ∧ (imx273_set_exposure envZero sys0 10000).1.log
          = vmax_reads 0x0200
            ++ [BusOp.write Dev.sensor 0x0212 0x00, BusOp.write Dev.sensor 0x0211 0x00,
                BusOp.write Dev.sensor 0x0210 0x00, BusOp.write Dev.sensor 0x028f 0x07,
                BusOp.write Dev.sensor 0x028e 0xFD, BusOp.write Dev.sensor 0x028d 0x5E]
      ∧ short_shutter 10000 (vmax_at envZero 0) 1000 TOFFSET_296 H1PERIOD_296 = 4294966622 := by
  decide

/-- C4 (amended): in free-run mode, when the frame length read back from the
registers `base+0x12/0x11/0x10` is 1118, every request `e` in `[29, 16504)`
programs the frame-length registers with 1118 (bytes `0x00, 0x04, 0x5E`) and
the shutter with `max(14, 1118 - (e*16384 - 233636)/242726)`, which lies in
`[14, 1118]`; neither subtraction wraps; for `e = 10000` the shutter is 444. -/
theorem C4_short_exposure_values (env : Env) (s : Sys) (e : Nat)
    (h : s.priv.sensor_ext_trig = 0) (hv : vmax_at env s.log.length = 1118)
    (h1 : 29 ≤ e) (h2 : e < 16504) :
    (imx273_set_exposure env s (e : Int)).1.log
        = s.log ++ vmax_reads (exposure_base s.priv.model)
          ++ short_writes s.priv (exposure_base s.priv.model) 1118
              (max 14 (1118 - (e * 16384 - 233636) / 242726))
      ∧ vmax_writes (exposure_base s.priv.model) 1118
          = [BusOp.write Dev.sensor (exposure_base s.priv.model + 0x12) 0x00,
             BusOp.write Dev.sensor (exposure_base s.priv.model + 0x11) 0x04,
             BusOp.write Dev.sensor (exposure_base s.priv.model + 0x10) 0x5E]
      ∧ 14 ≤ max 14 (1118 - (e * 16384 - 233636) / 242726)
      ∧ max 14 (1118 - (e * 16384 - 233636) / 242726) ≤ 1118
      ∧ 233636 ≤ e * 16384
      ∧ (e * 16384 - 233636) / 242726 ≤ 1118
      ∧ (e = 10000 → max 14 (1118 - (e * 16384 - 233636) / 242726) = 444) := by
  have hs := short_shutter_1118 e h1 h2
  refine ⟨?_, ?_, Nat.le_max_left _ _, ?_, hs.2.1, hs.2.2, ?_⟩
  · have hu : u32 (e : Int) = e := by
      rw [u32_natCast]
      exact Nat.mod_eq_of_lt (by omega)
    rw [set_exposure_freerun_log env s _ h, hu, outer_clamp_mid e h1 (by omega), if_pos h2,
      hv, hs.1]
  · simp only [vmax_writes]
    have a1 : (1118 >>> 16) &&& 0x07 = 0x00 := by decide
    have a2 : (1118 >>> 8) &&& 0xff = 0x04 := by decide
    have a3 : 1118 &&& 0xff = 0x5E := by decide
    rw [a1, a2, a3]
  · exact Nat.max_le.mpr ⟨by omega, by omega⟩
  · intro he
    subst he
    decide

/-- C4 (witness): the amended statement for the request 10000 on the sample
device, with the frame-length registers reading back 1118. -/
theorem C4_short_exposure_values_witness :
    sys0.priv.sensor_ext_trig = 0 ∧ vmax_at envVmax sys0.log.length = 1118
      ∧ 29 ≤ 10000 ∧ 10000 < 16504
      ∧ (imx273_set_exposure envVmax sys0 ((10000 : Nat) : Int)).1.log
          = sys0.log ++ vmax_reads (exposure_base sys0.priv.model)
            ++ short_writes sys0.priv (exposure_base sys0.priv.model) 1118
                (max 14 (1118 - (10000 * 16384 - 233636) / 242726)) :=
  ⟨rfl, by decide, by decide, by decide,
    (C4_short_exposure_values envVmax sys0 10000 rfl (by decide) (by decide) (by decide)).1⟩


/-! ## Trigger mode -/

theorem write_shutter_log (env : Env) (s : Sys) (comb : Int → Int → Int) (ret : Int)
    (t : Nat) :
    (write_shutter env s comb ret t).1.log = s.log ++ shutter_writes t := by
  simp [write_shutter, shutter_writes, and_ff_mod]

theorem write_shutter_priv (env : Env) (s : Sys) (comb : Int → Int → Int) (ret : Int)
    (t : Nat) :
    (write_shutter env s comb ret t).1.priv = s.priv := by
  simp [write_shutter]

/-- In trigger mode `imx273_set_exposure` stores the clamped request, issues
the four shutter writes and returns the outer `ret`, which is 0. -/
theorem set_exposure_trig (env : Env) (s : Sys) (val : Int)
    (h : s.priv.sensor_ext_trig ≠ 0) :
    imx273_set_exposure env s val
      = ((write_shutter env (set_exposure_time s (outer_clamp (u32 val))) ior 0
            (trig_exposure (outer_clamp (u32 val)) s.priv.sen_clk)).1, 0) := by
  have e29 : u32 IMX273_DIGITAL_EXPOSURE_MIN = 29 := by decide
  have emax : u32 IMX273_DIGITAL_EXPOSURE_MAX = 15110711 := by decide
  have houter : (if (if u32 val < 29 then 29 else u32 val) > 15110711 then 15110711
      else (if u32 val < 29 then 29 else u32 val)) = outer_clamp (u32 val) := rfl
  simp only [imx273_set_exposure, e29, emax, houter, set_exposure_time_trig, ne_eq, h,
    not_false_eq_true, if_true, set_exposure_time_exposure, set_exposure_time_clk]

theorem set_exposure_trig_log (env : Env) (s : Sys) (val : Int)
    (h : s.priv.sensor_ext_trig ≠ 0) :
    (imx273_set_exposure env s val).1.log
      = s.log ++ shutter_writes (trig_exposure (outer_clamp (u32 val)) s.priv.sen_clk) := by
  rw [set_exposure_trig env s val h]
  simp [write_shutter_log]

/-- The result of `imx273_set_exposure` depends on the request only through
the clamped `u32` exposure. -/
theorem set_exposure_congr (env : Env) (s : Sys) (a b : Int)
    (hab : outer_clamp (u32 a) = outer_clamp (u32 b)) :
    imx273_set_exposure env s a = imx273_set_exposure env s b := by
  by_cases h : s.priv.sensor_ext_trig = 0
  · rw [set_exposure_freerun env s a h, set_exposure_freerun env s b h, hab]
  · rw [set_exposure_trig env s a h, set_exposure_trig env s b h, hab]

/-- The whole-MHz clock factor of the trigger encoding for a clock in the
range of a non-negative C `int`. -/
theorem u32_clock (c : Int) (h0 : 0 ≤ c) (h1 : c < 2147483648) :
    u32 (Int.tdiv c 1000000) = c.toNat / 1000000 := by
  rw [Int.tdiv_eq_ediv h0 (by decide)]
  unfold u32
  omega

/-- C5 (counterexample): the request `-1` lies outside `[29, 15534389]` and
`clamp(-1, 29, 15534389) = 29`, but `imx273_set_exposure(-1)` stores 15110711
while `imx273_set_exposure(29)` stores 29: the request is cast to `u32`
before it is clamped. -/
theorem C5_counterexample :
    spec_clamp (-1) EXPOSURE_TIME_MIN_296 EXPOSURE_TIME_MAX_296 = 29
      ∧ (imx273_set_exposure envVmax sys0 (-1)).1.priv.exposure_time = 15110711
      ∧ (imx273_set_exposure envVmax sys0
          (spec_clamp (-1) EXPOSURE_TIME_MIN_296 EXPOSURE_TIME_MAX_296)).1.priv.exposure_time = 29
      ∧ imx273_set_exposure envVmax sys0 (-1)
          ≠ imx273_set_exposure envVmax sys0
              (spec_clamp (-1) EXPOSURE_TIME_MIN_296 EXPOSURE_TIME_MAX_296) := by
  decide

/-- C5 (amended): for every request `e` in the `u32` range `0 ≤ e < 2^32` that
lies outside `[29, 15534389]`, in either mode, `imx273_set_exposure(e)` and
`imx273_set_exposure(clamp(e, 29, 15534389))` give the same result: the same
bus transfers, the same stored state and the same return value. -/
theorem C5_clamp_idempotence (env : Env) (s : Sys) (e : Int)
    (h0 : 0 ≤ e) (h1 : e < 4294967296) (hout : e < 29 ∨ 15534389 < e) :
    imx273_set_exposure env s e
      = imx273_set_exposure env s
          (spec_clamp e EXPOSURE_TIME_MIN_296 EXPOSURE_TIME_MAX_296) := by
  apply set_exposure_congr
  have hmin : EXPOSURE_TIME_MIN_296 = 29 := rfl
  have hmax : EXPOSURE_TIME_MAX_296 = 15534389 := rfl
  rw [hmin, hmax]
  rcases hout with hlo | hhi
  · have hc : spec_clamp e 29 15534389 = 29 := by
      unfold spec_clamp
      rw [if_pos hlo]
    have hu : u32 e < 29 := by
      unfold u32
      omega
    have h29 : u32 29 = 29 := by decide
    rw [hc, h29]
    unfold outer_clamp
    split_ifs <;> omega
  · have hc : spec_clamp e 29 15534389 = 15534389 := by
      unfold spec_clamp
      rw [if_neg (by omega), if_pos (by omega)]
    have hu : 15534389 < u32 e := by
      unfold u32
      omega
    have hm : u32 15534389 = 15534389 := by decide
    rw [hc, hm]
    unfold outer_clamp
    split_ifs <;> omega

/-- C5 (witness): the amended statement at the request 5 (below `expMin0`). -/
theorem C5_clamp_idempotence_witness :
    (0 : Int) ≤ 5 ∧ (5 : Int) < 4294967296 ∧ ((5 : Int) < 29 ∨ (15534389 : Int) < 5)
      ∧ imx273_set_exposure envVmax sys0 5
          = imx273_set_exposure envVmax sys0
              (spec_clamp 5 EXPOSURE_TIME_MIN_296 EXPOSURE_TIME_MAX_296) :=
  ⟨by decide, by decide, Or.inl (by decide),
    C5_clamp_idempotence envVmax sys0 5 (by decide) (by decide) (Or.inl (by decide))⟩


theorem outer_clamp_eq_spec (v : Int) (h0 : 0 ≤ v) (h1 : v < 4294967296) :
    outer_clamp (u32 v) = (spec_clamp v 29 15110711).toNat := by
  have hu : u32 v = v.toNat := by
    unfold u32
    omega
  rw [hu]
  unfold outer_clamp spec_clamp
  split_ifs <;> omega

theorem trig_exposure_eq (e : Nat) (c : Int) (h0 : 0 ≤ c) (h1 : c < 2147483648) :
    trig_exposure e c = spec_ticks e c.toNat % 4294967296 := by
  unfold trig_exposure mul32 spec_ticks
  rw [u32_clock c h0 h1]

/-- C6 (counterexample): in trigger mode at 54 MHz the requests `-1 ≤ 0` make
`imx273_set_exposure` write the tick counts 815978394 and 1566: the value is
not monotone in the signed request, and for `-1` it is the count of 15110711,
not of `clamp(-1, 29, 15110711) = 29`. -/
theorem C6_counterexample :
    sysTrig.priv.sensor_ext_trig ≠ 0
      ∧ (-1 : Int) ≤ 0
      ∧ (imx273_set_exposure envOk sysTrig (-1)).1.log = shutter_writes 815978394
      ∧ (imx273_set_exposure envOk sysTrig 0).1.log = shutter_writes 1566
      ∧ ¬ (815978394 ≤ 1566)
      ∧ spec_ticks (spec_clamp (-1) 29 15110711).toNat 54000000 = 1566 := by
  decide

/-- C6 (amended): in trigger mode, for requests in the `u32` range
`0 ≤ v < 2^32` and a clock `0 ≤ sen_clk < 2^31`, `imx273_set_exposure` stores
`exposure_us = clamp(v, 29, 15110711)` and writes to `0x0109..0x010C` the four
bytes of `ticks mod 2^32`, `ticks = exposure_us * (sen_clk / 1000000)`; `ticks`
is non-decreasing in the request; and when `sen_clk / 1000000 ≤ 284` there is
no wrap: `ticks < 2^32`, so the registers carry `ticks` itself. -/
theorem C6_trigger_ticks (env : Env) (s : Sys) (v1 v2 : Int)
    (h : s.priv.sensor_ext_trig ≠ 0)
    (hc0 : 0 ≤ s.priv.sen_clk) (hc1 : s.priv.sen_clk < 2147483648)
    (h0 : 0 ≤ v1) (h12 : v1 ≤ v2) (h2 : v2 < 4294967296) :
    (imx273_set_exposure env s v1).1.priv.exposure_time = (spec_clamp v1 29 15110711).toNat
      ∧ (imx273_set_exposure env s v1).1.log
          = s.log ++ shutter_writes
              (spec_ticks (spec_clamp v1 29 15110711).toNat s.priv.sen_clk.toNat % 4294967296)
      ∧ join32
          (((spec_ticks (spec_clamp v1 29 15110711).toNat s.priv.sen_clk.toNat % 4294967296)
            >>> 24) &&& 0xff)
          (((spec_ticks (spec_clamp v1 29 15110711).toNat s.priv.sen_clk.toNat % 4294967296)
            >>> 16) &&& 0xff)
          (((spec_ticks (spec_clamp v1 29 15110711).toNat s.priv.sen_clk.toNat % 4294967296)
            >>> 8) &&& 0xff)
          ((spec_ticks (spec_clamp v1 29 15110711).toNat s.priv.sen_clk.toNat % 4294967296)
            &&& 0xff)
          = spec_ticks (spec_clamp v1 29 15110711).toNat s.priv.sen_clk.toNat % 4294967296
      ∧ spec_ticks (spec_clamp v1 29 15110711).toNat s.priv.sen_clk.toNat
          ≤ spec_ticks (spec_clamp v2 29 15110711).toNat s.priv.sen_clk.toNat
      ∧ (s.priv.sen_clk.toNat / 1000000 ≤ 284 →
          spec_ticks (spec_clamp v1 29 15110711).toNat s.priv.sen_clk.toNat % 4294967296
            = spec_ticks (spec_clamp v1 29 15110711).toNat s.priv.sen_clk.toNat) := by
  have hs1 := outer_clamp_eq_spec v1 h0 (by omega)
  have hr := outer_clamp_range (u32 v1)
  refine ⟨?_, ?_, ?_, ?_, ?_⟩
  · rw [set_exposure_stored, hs1]
  · rw [set_exposure_trig_log env s v1 h, hs1, trig_exposure_eq _ _ hc0 hc1]
  · rw [join32_bytes]
    exact Nat.mod_mod _ _
  · unfold spec_ticks
    apply Nat.mul_le_mul_right
    unfold spec_clamp
    split_ifs <;> omega
  · intro hm
    apply Nat.mod_eq_of_lt
    rw [← hs1]
    unfold spec_ticks
    calc outer_clamp (u32 v1) * (s.priv.sen_clk.toNat / 1000000)
        ≤ 15110711 * 284 := Nat.mul_le_mul hr.2 hm
      _ < 4294967296 := by decide

/-- C6 (witness): the amended statement for the requests 100 and 200 on the
sample device in trigger mode at 54 MHz. -/
theorem C6_trigger_ticks_witness :
    sysTrig.priv.sensor_ext_trig ≠ 0
      ∧ 0 ≤ sysTrig.priv.sen_clk ∧ sysTrig.priv.sen_clk < 2147483648
      ∧ (0 : Int) ≤ 100 ∧ (100 : Int) ≤ 200 ∧ (200 : Int) < 4294967296
      ∧ (imx273_set_exposure envOk sysTrig 100).1.log
          = sysTrig.log ++ shutter_writes
              (spec_ticks (spec_clamp 100 29 15110711).toNat sysTrig.priv.sen_clk.toNat
                % 4294967296) :=
  ⟨by decide, by decide, by decide, by decide, by decide, by decide,
    (C6_trigger_ticks envOk sysTrig 100 200 (by decide) (by decide) (by decide) (by decide)
      (by decide) (by decide)).2.1⟩


/-! ## Streaming start -/

theorem set_gain_priv (env : Env) (s : Sys) (val : Int) :
    (imx273_set_gain env s val).1.priv
      = (set_digital_gain s (if u32 val > 480 then 480 else u32 val)).priv := by
  have h0 : u32 IMX273_DIGITAL_GAIN_MIN = 0 := by decide
  have h1 : u32 IMX273_DIGITAL_GAIN_MAX = 480 := by decide
  simp only [imx273_set_gain, h0, h1, Nat.not_lt_zero, if_false]
  split_ifs <;> simp

theorem write_table_start_log (env : Env) (s : Sys) :
    (imx273_write_table env s imx273_start).1.log
      = s.log ++ [BusOp.regmap_write 0x7000 0x01] := by
  simp only [imx273_write_table, imx273_start, regmap_write, IMX273_TABLE_END,
    IMX273_TABLE_WAIT_MS]
  split_ifs <;> simp_all

theorem write_table_priv (env : Env) (t : List (Nat × Nat)) :
    ∀ s : Sys, (imx273_write_table env s t).1.priv = s.priv := by
  induction t with
  | nil => intro s; rfl
  | cons e rest ih =>
    intro s
    simp only [imx273_write_table]
    split_ifs
    · rfl
    · exact ih s
    · rfl
    · rw [ih]
      rfl

theorem stream_on_exposure (env : Env) (s : Sys) :
    (stream_on env s).1.priv.exposure_time = s.priv.exposure_time := by
  simp only [stream_on]
  split_ifs
  · simp [write_table_priv]
  · simp [set_streaming, write_table_priv]

theorem stream_on_log (env : Env) (s : Sys) :
    (stream_on env s).1.log = s.log ++ [BusOp.regmap_write 0x7000 0x01] := by
  simp only [stream_on]
  split_ifs <;> simp [write_table_start_log]

theorem u8_mod (x : Int) : u8 x % 256 = u8 x := by
  unfold u8
  omega

theorem trigger_config_trig_log (env : Env) (s : Sys) (h : s.priv.sensor_ext_trig ≠ 0) :
    (trigger_config env s).1.log
      = s.log
        ++ [BusOp.write Dev.rom 0x0108 (u8 s.priv.sensor_ext_trig),
            BusOp.write Dev.rom 0x0103 (u8 s.priv.flash_output)]
        ++ shutter_writes (trig_exposure s.priv.exposure_time s.priv.sen_clk) := by
  simp only [trigger_config, if_pos h, write_shutter_log, reg_write_log, reg_write_priv, u8_mod]
  simp

theorem trigger_config_priv (env : Env) (s : Sys) :
    (trigger_config env s).1.priv = s.priv := by
  simp only [trigger_config]
  split_ifs <;> simp [write_shutter_priv]

/-- C7: in trigger mode every `imx273_set_exposure` call issues exactly four
bus transfers, the writes to the bridge registers `0x0109`, `0x010A`,
`0x010B`, `0x010C` in that order, byte `i` being `(ticks >> 8*i) & 0xFF` of
the tick count `ticks` formed from the stored exposure; nothing comes between
or after them, so the MSB write to `0x010C` is the last one.  In
`imx273_start_streaming` the shutter bytes are written in the same order:
after the gain writes come the four writes of its `imx273_set_exposure` call,
then `0x0108`, `0x0103`, then the four shutter writes again, and at most the
stream-on write after them. -/
theorem C7_trigger_commit_order (env : Env) (s : Sys) (h : s.priv.sensor_ext_trig ≠ 0) :
    (∀ val : Int,
        (imx273_set_exposure env s val).1.log
          = s.log
            ++ [BusOp.write Dev.rom 0x0109
                  (trig_exposure (imx273_set_exposure env s val).1.priv.exposure_time
                    s.priv.sen_clk &&& 0xff),
                BusOp.write Dev.rom 0x010A
                  ((trig_exposure (imx273_set_exposure env s val).1.priv.exposure_time
                    s.priv.sen_clk >>> 8) &&& 0xff),
                BusOp.write Dev.rom 0x010B
                  ((trig_exposure (imx273_set_exposure env s val).1.priv.exposure_time
                    s.priv.sen_clk >>> 16) &&& 0xff),
                BusOp.write Dev.rom 0x010C
                  ((trig_exposure (imx273_set_exposure env s val).1.priv.exposure_time
                    s.priv.sen_clk >>> 24) &&& 0xff)])
      ∧ ∃ tail : List BusOp,
          (tail = [] ∨ tail = [BusOp.regmap_write 0x7000 0x01])
            ∧ (imx273_start_streaming env s).1.log
              = (imx273_set_gain env s (s.priv.digital_gain : Int)).1.log
                ++ shutter_writes
                    (trig_exposure (imx273_start_streaming env s).1.priv.exposure_time
                      s.priv.sen_clk)
                ++ [BusOp.write Dev.rom 0x0108 (u8 s.priv.sensor_ext_trig),
                    BusOp.write Dev.rom 0x0103 (u8 s.priv.flash_output)]
                ++ shutter_writes
                    (trig_exposure (imx273_start_streaming env s).1.priv.exposure_time
                      s.priv.sen_clk)
                ++ tail := by
  constructor
  · intro val
    rw [set_exposure_stored, set_exposure_trig_log env s val h]
    rfl
  · have hp1 := set_gain_priv env s (s.priv.digital_gain : Int)
    have hss : imx273_start_streaming env s
        = (if (trigger_config env (imx273_set_exposure env
                (imx273_set_gain env s (s.priv.digital_gain : Int)).1
                ((imx273_set_gain env s (s.priv.digital_gain : Int)).1.priv.exposure_time
                  : Int)).1).2 ≠ 0 then
            ((trigger_config env (imx273_set_exposure env
                (imx273_set_gain env s (s.priv.digital_gain : Int)).1
                ((imx273_set_gain env s (s.priv.digital_gain : Int)).1.priv.exposure_time
                  : Int)).1).1, 0)
          else
            stream_on env (trigger_config env (imx273_set_exposure env
                (imx273_set_gain env s (s.priv.digital_gain : Int)).1
                ((imx273_set_gain env s (s.priv.digital_gain : Int)).1.priv.exposure_time
                  : Int)).1).1) := rfl
    rw [hss]
    generalize (imx273_set_gain env s (s.priv.digital_gain : Int)).1 = s1 at hp1 ⊢
    have ht1 : s1.priv.sensor_ext_trig ≠ 0 := by
      rw [hp1]
      exact h
    have hc1 : s1.priv.sen_clk = s.priv.sen_clk := by rw [hp1]; rfl
    have hf1 : s1.priv.flash_output = s.priv.flash_output := by rw [hp1]; rfl
    have hx1 : s1.priv.sensor_ext_trig = s.priv.sensor_ext_trig := by rw [hp1]; rfl
    have hl2 := set_exposure_trig_log env s1 (s1.priv.exposure_time : Int) ht1
    have he2 := set_exposure_stored env s1 (s1.priv.exposure_time : Int)
    have hp2 : (imx273_set_exposure env s1 (s1.priv.exposure_time : Int)).1.priv
        = (set_exposure_time s1 (outer_clamp (u32 (s1.priv.exposure_time : Int)))).priv := by
      rw [set_exposure_trig env s1 _ ht1]
      exact write_shutter_priv _ _ _ _ _
    generalize (imx273_set_exposure env s1 (s1.priv.exposure_time : Int)).1 = s2
      at hl2 he2 hp2 ⊢
    have ht2 : s2.priv.sensor_ext_trig ≠ 0 := by
      rw [hp2]
      exact ht1
    have hc2 : s2.priv.sen_clk = s.priv.sen_clk := by rw [hp2, ← hc1]; rfl
    have hf2 : s2.priv.flash_output = s.priv.flash_output := by rw [hp2, ← hf1]; rfl
    have hx2 : s2.priv.sensor_ext_trig = s.priv.sensor_ext_trig := by rw [hp2, ← hx1]; rfl
    have hlog := trigger_config_trig_log env s2 ht2
    have hpriv := trigger_config_priv env s2
    rw [hc2, hf2, hx2, hl2, hc1] at hlog
    by_cases hc : (trigger_config env s2).2 ≠ 0
    · refine ⟨[], Or.inl rfl, ?_⟩
      rw [if_pos hc]
      show (trigger_config env s2).1.log = _
      have hE : (trigger_config env s2).1.priv.exposure_time = s2.priv.exposure_time := by
        rw [hpriv]
      rw [hlog, hE, he2]
      simp [List.append_assoc]
    · refine ⟨[BusOp.regmap_write 0x7000 0x01], Or.inr rfl, ?_⟩
      rw [if_neg hc, stream_on_log, stream_on_exposure, hpriv, hlog, he2]


/-- C7 (witness): the request 10000 on the sample device in trigger mode. -/
theorem C7_trigger_commit_order_witness :
    sysTrig.priv.sensor_ext_trig ≠ 0
      ∧ (imx273_set_exposure envOk sysTrig 10000).1.log
          = sysTrig.log
            ++ [BusOp.write Dev.rom 0x0109
                  (trig_exposure (imx273_set_exposure envOk sysTrig 10000).1.priv.exposure_time
                    sysTrig.priv.sen_clk &&& 0xff),
                BusOp.write Dev.rom 0x010A
                  ((trig_exposure (imx273_set_exposure envOk sysTrig 10000).1.priv.exposure_time
                    sysTrig.priv.sen_clk >>> 8) &&& 0xff),
                BusOp.write Dev.rom 0x010B
                  ((trig_exposure (imx273_set_exposure envOk sysTrig 10000).1.priv.exposure_time
                    sysTrig.priv.sen_clk >>> 16) &&& 0xff),
                BusOp.write Dev.rom 0x010C
                  ((trig_exposure (imx273_set_exposure envOk sysTrig 10000).1.priv.exposure_time
                    sysTrig.priv.sen_clk >>> 24) &&& 0xff)] :=
  ⟨by decide, (C7_trigger_commit_order envOk sysTrig (by decide)).1 10000⟩

/-! ## Bridge reset -/

theorem poll_body_ready (env : Env) (s : Sys) (err : Int)
    (hb : u32 (read_result (env s.log.length)) &&& 0x80 ≠ 0) :
    poll_body env s err = ((reg_read env s Dev.rom 0x0101).1, err, true) := by
  simp only [poll_body, reg_read]
  rw [if_pos hb]

theorem poll_body_wait (env : Env) (s : Sys) (err : Int)
    (hb : ¬ u32 (read_result (env s.log.length)) &&& 0x80 ≠ 0) :
    poll_body env s err
      = (set_try (reg_read env s Dev.rom 0x0101).1 (s.try_ + 1),
         (if u32 (read_result (env s.log.length)) &&& 0x01 ≠ 0 then - EIO else err),
         decide (s.try_ > 4)) := by
  simp only [poll_body, reg_read]
  rw [if_neg hb]

/-- The function `status_poll`, started with `5 - try` further passes,
satisfies the defining equation of the `while(1)` loop of `vc_mipi_reset`:
one pass of the body, then either the loop is left or it starts again. -/
theorem status_poll_loop (env : Env) (s : Sys) (err : Int) :
    status_poll env (5 - s.try_).toNat s err
      = if (poll_body env s err).2.2 then ((poll_body env s err).1, (poll_body env s err).2.1)
        else status_poll env (5 - (poll_body env s err).1.try_).toNat
          (poll_body env s err).1 (poll_body env s err).2.1 := by
  rcases Nat.eq_zero_or_pos (5 - s.try_).toNat with h0 | hpos
  · have ht : s.try_ > 4 := by omega
    have hb : (poll_body env s err).2.2 = true := by
      by_cases h7 : u32 (read_result (env s.log.length)) &&& 0x80 ≠ 0
      · rw [poll_body_ready env s err h7]
      · rw [poll_body_wait env s err h7]
        simp [ht]
    rw [h0, if_pos hb]
    rfl
  · obtain ⟨n, hn⟩ : ∃ n, (5 - s.try_).toNat = n + 1 := ⟨(5 - s.try_).toNat - 1, by omega⟩
    rw [hn]
    simp only [status_poll]
    by_cases hb : (poll_body env s err).2.2 = true
    · rw [if_pos hb, if_pos hb]
    · rw [if_neg hb, if_neg hb]
      have ht : (poll_body env s err).1.try_ = s.try_ + 1 := by
        by_cases h7 : u32 (read_result (env s.log.length)) &&& 0x80 ≠ 0
        · rw [poll_body_ready env s err h7] at hb
          exact absurd rfl hb
        · rw [poll_body_wait env s err h7]
          rfl
      rw [ht]
      have : (5 - (s.try_ + 1)).toNat = n := by omega
      rw [this]

/-- The polls of the status loop: started with `try = 5 - n`, the loop makes
`k` reads of `0x0101` with `1 ≤ k ≤ n + 1`; no poll before the last has bit 7
set; the loop stops short of `n + 1` polls only on a poll with bit 7 set; and
when the first poll has bit 7 set it is the only one and `err` is returned
unchanged. -/
theorem status_poll_spec (env : Env) :
    ∀ (n : Nat) (s : Sys) (err : Int), s.try_ = 5 - (n : Int) →
      ∃ k : Nat, 1 ≤ k ∧ k ≤ n + 1
        ∧ (status_poll env n s err).1.log
            = s.log ++ List.replicate k (BusOp.read Dev.rom 0x0101)
        ∧ (∀ i : Nat, i + 1 < k →
            u32 (read_result (env (s.log.length + i))) &&& 0x80 = 0)
        ∧ (k < n + 1 →
            u32 (read_result (env (s.log.length + (k - 1)))) &&& 0x80 ≠ 0)
        ∧ (u32 (read_result (env s.log.length)) &&& 0x80 ≠ 0 →
            k = 1 ∧ (status_poll env n s err).2 = err) := by
  intro n
  induction n with
  | zero =>
    intro s err _
    refine ⟨1, le_refl 1, le_refl 1, ?_, ?_, ?_, ?_⟩
    · simp only [status_poll, poll_body]
      split_ifs <;> simp
    · intro i hi
      omega
    · intro hk
      omega
    · intro hb
      refine ⟨rfl, ?_⟩
      simp only [status_poll, poll_body, reg_read]
      rw [if_pos hb]
  | succ n ih =>
    intro s err ht
    by_cases hb : u32 (read_result (env s.log.length)) &&& 0x80 ≠ 0
    · have hbody := poll_body_ready env s err hb
      refine ⟨1, le_refl 1, by omega, ?_, ?_, ?_, ?_⟩
      · simp only [status_poll, hbody]
        simp
      · intro i hi
        omega
      · intro _
        exact hb
      · intro _
        refine ⟨rfl, ?_⟩
        simp only [status_poll, hbody]
        simp
    · have hbody := poll_body_wait env s err hb
      have hnot : ¬ s.try_ > 4 := by omega
      have hstep : status_poll env (n + 1) s err
          = status_poll env n (set_try (reg_read env s Dev.rom 0x0101).1 (s.try_ + 1))
              (if u32 (read_result (env s.log.length)) &&& 0x01 ≠ 0 then - EIO else err) := by
        simp only [status_poll, hbody, hnot, decide_False]
        simp
      obtain ⟨k, hk1, hk2, hlog, hpre, hlast, _⟩ :=
        ih (set_try (reg_read env s Dev.rom 0x0101).1 (s.try_ + 1))
          (if u32 (read_result (env s.log.length)) &&& 0x01 ≠ 0 then - EIO else err)
          (by simp only [set_try_try]; omega)
      have hlen : (set_try (reg_read env s Dev.rom 0x0101).1 (s.try_ + 1)).log.length
          = s.log.length + 1 := by simp
      refine ⟨k + 1, by omega, by omega, ?_, ?_, ?_, ?_⟩
      · rw [hstep, hlog]
        simp [List.replicate_succ]
      · intro i hi
        rcases Nat.eq_zero_or_pos i with h0 | hpos
        · subst h0
          simpa using hb
        · have := hpre (i - 1) (by omega)
          rw [hlen] at this
          have e : s.log.length + 1 + (i - 1) = s.log.length + i := by omega
          rw [e] at this
          exact this
      · intro hk
        have := hlast (by omega)
        rw [hlen] at this
        have e : s.log.length + 1 + (k - 1) = s.log.length + (k + 1 - 1) := by omega
        rw [e] at this
        exact this
      · intro hb2
        exact absurd hb2 hb


theorem reg_write_ok (env : Env) (s : Sys) (d : Dev) (a v : Nat)
    (h : (env s.log.length).ret = 1) : (reg_write env s d a v).2 = 0 := by
  simp [reg_write, h]

/-- The three writes that open a reset with a mode code: power-down, mode
select, power-up. -/
theorem reset_writes_log (env : Env) (s : Sys) (mode : Int) :
    (reg_write env (reg_write env (reg_write env s Dev.rom 0x0100 2).1 Dev.rom 0x0102
        (u8 mode)).1 Dev.rom 0x0100 0).1.log
      = s.log ++ [BusOp.write Dev.rom 0x0100 2, BusOp.write Dev.rom 0x0102 (u8 mode),
          BusOp.write Dev.rom 0x0100 0] := by
  simp [u8_mod]

/-- When the bridge is present, the mode code is non-negative and the three
writes succeed, `vc_mipi_reset` runs the status loop with the budget
`5 - try` and then resets `try` to 1. -/
theorem reset_reaches_poll (env : Env) (s : Sys) (mode : Int)
    (hrom : s.priv.rom = true) (hmode : 0 ≤ mode)
    (hw1 : (env s.log.length).ret = 1) (hw2 : (env (s.log.length + 1)).ret = 1)
    (hw3 : (env (s.log.length + 2)).ret = 1) :
    vc_mipi_reset env s mode
      = (set_try (status_poll env (5 - s.try_).toNat
            (reg_write env (reg_write env (reg_write env s Dev.rom 0x0100 2).1 Dev.rom 0x0102
              (u8 mode)).1 Dev.rom 0x0100 0).1 0).1 1,
         (status_poll env (5 - s.try_).toNat
            (reg_write env (reg_write env (reg_write env s Dev.rom 0x0100 2).1 Dev.rom 0x0102
              (u8 mode)).1 Dev.rom 0x0100 0).1 0).2) := by
  have r1 : (reg_write env s Dev.rom 0x0100 2).2 = 0 := reg_write_ok _ _ _ _ _ hw1
  have r2 : (reg_write env (reg_write env s Dev.rom 0x0100 2).1 Dev.rom 0x0102 (u8 mode)).2 = 0 :=
    reg_write_ok _ _ _ _ _ (by simpa using hw2)
  have r3 : (reg_write env (reg_write env (reg_write env s Dev.rom 0x0100 2).1 Dev.rom 0x0102
      (u8 mode)).1 Dev.rom 0x0100 0).2 = 0 :=
    reg_write_ok _ _ _ _ _ (by simpa using hw3)
  have hm : ¬ mode < 0 := by omega
  simp only [vc_mipi_reset, hrom, r1, r2, r3, hm, ne_eq, not_true_eq_false, if_false,
    reg_write_try]
  rfl

/-- C9: a reset with a mode code that starts with the full budget (`try = 1`)
leaves `try = 1` on every exit.  When the bridge is present and the three
writes succeed, it polls the status register `0x0101` `k` times with
`1 ≤ k ≤ 5`, and nothing else after the writes; no poll before the last has
bit 7 set, and it stops before the fifth poll only on a poll with bit 7 set;
when the first poll has bit 7 set it returns 0 after exactly one poll. -/
theorem C9_bounded_status_polling (env : Env) (s : Sys) (mode : Int) (htry : s.try_ = 1) :
    (vc_mipi_reset env s mode).1.try_ = 1
      ∧ (s.priv.rom = true → 0 ≤ mode → (env s.log.length).ret = 1 →
          (env (s.log.length + 1)).ret = 1 → (env (s.log.length + 2)).ret = 1 →
          ∃ k : Nat, 1 ≤ k ∧ k ≤ 5
            ∧ (vc_mipi_reset env s mode).1.log
                = s.log
                  ++ [BusOp.write Dev.rom 0x0100 2, BusOp.write Dev.rom 0x0102 (u8 mode),
                      BusOp.write Dev.rom 0x0100 0]
                  ++ List.replicate k (BusOp.read Dev.rom 0x0101)
            ∧ (∀ i : Nat, i + 1 < k →
                u32 (read_result (env (s.log.length + 3 + i))) &&& 0x80 = 0)
            ∧ (k < 5 → u32 (read_result (env (s.log.length + 3 + (k - 1)))) &&& 0x80 ≠ 0)
            ∧ (u32 (read_result (env (s.log.length + 3))) &&& 0x80 ≠ 0 →
                k = 1 ∧ (vc_mipi_reset env s mode).2 = 0)) := by
  constructor
  · simp only [vc_mipi_reset]
    split_ifs <;> simp [htry]
  · intro hrom hmode hw1 hw2 hw3
    rw [reset_reaches_poll env s mode hrom hmode hw1 hw2 hw3, htry]
    have hlog := reset_writes_log env s mode
    have hlen : (reg_write env (reg_write env (reg_write env s Dev.rom 0x0100 2).1 Dev.rom
        0x0102 (u8 mode)).1 Dev.rom 0x0100 0).1.log.length = s.log.length + 3 := by
      rw [hlog]
      simp
    obtain ⟨k, hk1, hk2, hl, hpre, hlast, hfirst⟩ :=
      status_poll_spec env 4 (reg_write env (reg_write env (reg_write env s Dev.rom 0x0100 2).1
        Dev.rom 0x0102 (u8 mode)).1 Dev.rom 0x0100 0).1 0 (by simp [htry])
    rw [hlen] at hpre hlast hfirst
    rw [hlog] at hl
    refine ⟨k, hk1, hk2, ?_, hpre, hlast, hfirst⟩
    simpa using hl

/-- C9 (witness): on the sample device, with the three writes succeeding and
the first status read delivering `0x80`, the reset polls between one and five
times and leaves `try = 1`. -/
theorem C9_bounded_status_polling_witness :
    sys0.try_ = 1 ∧ sys0.priv.rom = true ∧ (0 : Int) ≤ 1
      ∧ (envReady sys0.log.length).ret = 1 ∧ (envReady (sys0.log.length + 1)).ret = 1
      ∧ (envReady (sys0.log.length + 2)).ret = 1
      ∧ (vc_mipi_reset envReady sys0 1).1.try_ = 1
      ∧ ∃ k : Nat, 1 ≤ k ∧ k ≤ 5
          ∧ (vc_mipi_reset envReady sys0 1).1.log
              = sys0.log
                ++ [BusOp.write Dev.rom 0x0100 2, BusOp.write Dev.rom 0x0102 (u8 1),
                    BusOp.write Dev.rom 0x0100 0]
                ++ List.replicate k (BusOp.read Dev.rom 0x0101)
          ∧ (∀ i : Nat, i + 1 < k →
              u32 (read_result (envReady (sys0.log.length + 3 + i))) &&& 0x80 = 0)
          ∧ (k < 5 →
              u32 (read_result (envReady (sys0.log.length + 3 + (k - 1)))) &&& 0x80 ≠ 0)
          ∧ (u32 (read_result (envReady (sys0.log.length + 3))) &&& 0x80 ≠ 0 →
              k = 1 ∧ (vc_mipi_reset envReady sys0 1).2 = 0) :=
  ⟨rfl, rfl, by decide, rfl, rfl, rfl,
    (C9_bounded_status_polling envReady sys0 1 rfl).1,
    (C9_bounded_status_polling envReady sys0 1 rfl).2 rfl (by decide) rfl rfl rfl⟩

/-- A reset whose power-down, mode-select or power-up write fails returns
`-EIO`. -/
theorem reset_write_failure (env : Env) (s : Sys) (mode : Int)
    (hrom : s.priv.rom = true) (hmode : 0 ≤ mode)
    (h : (env s.log.length).ret ≠ 1 ∨ (env (s.log.length + 1)).ret ≠ 1
      ∨ (env (s.log.length + 2)).ret ≠ 1) :
    (vc_mipi_reset env s mode).2 = - EIO := by
  have hm : ¬ mode < 0 := by omega
  by_cases h1 : (env s.log.length).ret = 1
  · by_cases h2 : (env (s.log.length + 1)).ret = 1
    · have h3 : (env (s.log.length + 2)).ret ≠ 1 := by
        rcases h with h | h | h
        · exact absurd h1 h
        · exact absurd h2 h
        · exact h
      simp [vc_mipi_reset, reg_write, hrom, h1, h2, h3, hm, EIO]
    · simp [vc_mipi_reset, reg_write, hrom, h1, h2, hm, EIO]
  · simp [vc_mipi_reset, reg_write, hrom, h1, EIO]

/-- C8 (failing input): the three writes succeed and every poll reads the
status `0x00` (bit 7 never set, bit 0 never set).  `vc_mipi_reset` makes its
five polls and returns 0: the exhausted retry budget is not reported. -/
theorem C8_reset_timeout_returns_success :
    sys0.priv.rom = true ∧ sys0.try_ = 1
      ∧ (List.range 5).map (fun k => read_result (envIdle (3 + k))) = [0, 0, 0, 0, 0]
      ∧ (vc_mipi_reset envIdle sys0 1).1.log
          = [BusOp.write Dev.rom 0x0100 2, BusOp.write Dev.rom 0x0102 1,
             BusOp.write Dev.rom 0x0100 0]
            ++ List.replicate 5 (BusOp.read Dev.rom 0x0101)
      ∧ (vc_mipi_reset envIdle sys0 1).2 = 0 := by
  decide

/-- C10 (failing input): the three writes succeed and the read of the status
register fails, `reg_read` returning `-EIO = -5`.  The bit pattern of `-5`
has bit 7 set, so the loop is left at the first poll as if the bridge were
ready, and `vc_mipi_reset` returns 0. -/
theorem C10_reset_read_failure_returns_success :
    sys0.priv.rom = true
      ∧ read_result (envReadFail 3) = - EIO
      ∧ u32 (- EIO) &&& 0x80 ≠ 0
      ∧ (vc_mipi_reset envReadFail sys0 1).1.log
          = [BusOp.write Dev.rom 0x0100 2, BusOp.write Dev.rom 0x0102 1,
             BusOp.write Dev.rom 0x0100 0, BusOp.read Dev.rom 0x0101]
      ∧ (vc_mipi_reset envReadFail sys0 1).2 = 0 := by
  decide

/-! ## Bridge reset: frame and result -/

theorem poll_body_log (env : Env) (s : Sys) (err : Int) :
    (poll_body env s err).1.log = s.log ++ [BusOp.read Dev.rom 0x0101] := by
  by_cases h7 : u32 (read_result (env s.log.length)) &&& 0x80 ≠ 0
  · rw [poll_body_ready env s err h7]
    simp
  · rw [poll_body_wait env s err h7]
    simp

theorem poll_body_priv (env : Env) (s : Sys) (err : Int) :
    (poll_body env s err).1.priv = s.priv := by
  by_cases h7 : u32 (read_result (env s.log.length)) &&& 0x80 ≠ 0
  · rw [poll_body_ready env s err h7]
    simp
  · rw [poll_body_wait env s err h7]
    simp

theorem poll_body_ret (env : Env) (s : Sys) (err : Int) (h : err = 0 ∨ err = - EIO) :
    (poll_body env s err).2.1 = 0 ∨ (poll_body env s err).2.1 = - EIO := by
  by_cases h7 : u32 (read_result (env s.log.length)) &&& 0x80 ≠ 0
  · rw [poll_body_ready env s err h7]
    exact h
  · rw [poll_body_wait env s err h7]
    by_cases h1 : u32 (read_result (env s.log.length)) &&& 0x01 ≠ 0
    · right
      show (if u32 (read_result (env s.log.length)) &&& 0x01 ≠ 0 then - EIO else err) = - EIO
      rw [if_pos h1]
    · show (if u32 (read_result (env s.log.length)) &&& 0x01 ≠ 0 then - EIO else err) = 0
        ∨ (if u32 (read_result (env s.log.length)) &&& 0x01 ≠ 0 then - EIO else err) = - EIO
      rw [if_neg h1]
      exact h

/-- The status loop only reads the status register: with `n` further passes
allowed it appends between 1 and `n + 1` reads of `0x0101`. -/
theorem status_poll_log (env : Env) :
    ∀ (n : Nat) (s : Sys) (err : Int),
      ∃ k : Nat, 1 ≤ k ∧ k ≤ n + 1
        ∧ (status_poll env n s err).1.log
            = s.log ++ List.replicate k (BusOp.read Dev.rom 0x0101) := by
  intro n
  induction n with
  | zero =>
    intro s err
    refine ⟨1, le_refl 1, le_refl 1, ?_⟩
    simp only [status_poll, poll_body_log]
    rfl
  | succ n ih =>
    intro s err
    simp only [status_poll]
    by_cases hb : (poll_body env s err).2.2 = true
    · refine ⟨1, le_refl 1, by omega, ?_⟩
      rw [if_pos hb]
      simp only [poll_body_log]
      rfl
    · obtain ⟨k, hk1, hk2, hl⟩ := ih (poll_body env s err).1 (poll_body env s err).2.1
      refine ⟨k + 1, by omega, by omega, ?_⟩
      rw [if_neg hb, hl, poll_body_log]
      simp [List.replicate_succ]

theorem status_poll_priv (env : Env) :
    ∀ (n : Nat) (s : Sys) (err : Int), (status_poll env n s err).1.priv = s.priv := by
  intro n
  induction n with
  | zero =>
    intro s err
    simp only [status_poll, poll_body_priv]
  | succ n ih =>
    intro s err
    simp only [status_poll]
    split_ifs
    · exact poll_body_priv env s err
    · rw [ih, poll_body_priv]

theorem status_poll_ret (env : Env) :
    ∀ (n : Nat) (s : Sys) (err : Int), (err = 0 ∨ err = - EIO) →
      (status_poll env n s err).2 = 0 ∨ (status_poll env n s err).2 = - EIO := by
  intro n
  induction n with
  | zero =>
    intro s err h
    exact poll_body_ret env s err h
  | succ n ih =>
    intro s err h
    simp only [status_poll]
    split_ifs
    · exact poll_body_ret env s err h
    · exact ih _ _ (poll_body_ret env s err h)

/-- The function `vc_mipi_reset` changes nothing in the private data. -/
theorem reset_priv (env : Env) (s : Sys) (mode : Int) :
    (vc_mipi_reset env s mode).1.priv = s.priv := by
  simp only [vc_mipi_reset]
  split_ifs <;> simp [status_poll_priv]

/-- The function `vc_mipi_reset` returns 0 or `-EIO`. -/
theorem reset_ret (env : Env) (s : Sys) (mode : Int) :
    (vc_mipi_reset env s mode).2 = 0 ∨ (vc_mipi_reset env s mode).2 = - EIO := by
  simp only [vc_mipi_reset]
  split_ifs
  · right; rfl
  · right; rfl
  · left; rfl
  · right; rfl
  · right; rfl
  · exact status_poll_ret env _ _ 0 (Or.inl rfl)

/-- The bus transfers of a reset with a mode code whose three writes succeed:
power-down, mode select, power-up, then at least one status poll. -/
theorem reset_ok_log (env : Env) (s : Sys) (mode : Int)
    (hrom : s.priv.rom = true) (hmode : 0 ≤ mode)
    (hw1 : (env s.log.length).ret = 1) (hw2 : (env (s.log.length + 1)).ret = 1)
    (hw3 : (env (s.log.length + 2)).ret = 1) :
    ∃ k : Nat, 1 ≤ k
      ∧ (vc_mipi_reset env s mode).1.log
          = s.log
            ++ [BusOp.write Dev.rom 0x0100 2, BusOp.write Dev.rom 0x0102 (u8 mode),
                BusOp.write Dev.rom 0x0100 0]
            ++ List.replicate k (BusOp.read Dev.rom 0x0101) := by
  rw [reset_reaches_poll env s mode hrom hmode hw1 hw2 hw3]
  obtain ⟨k, hk1, _, hl⟩ := status_poll_log env (5 - s.try_).toNat
    (reg_write env (reg_write env (reg_write env s Dev.rom 0x0100 2).1 Dev.rom 0x0102
      (u8 mode)).1 Dev.rom 0x0100 0).1 0
  refine ⟨k, hk1, ?_⟩
  rw [reset_writes_log] at hl
  simpa using hl

/-- The bus transfers of a teardown reset (negative mode): the power-down
write and, when it succeeds, one read of the status register. -/
theorem reset_teardown (env : Env) (s : Sys) (mode : Int)
    (hrom : s.priv.rom = true) (hmode : mode < 0) :
    (vc_mipi_reset env s mode).1.log
        = s.log ++ [BusOp.write Dev.rom 0x0100 2]
          ++ (if (env s.log.length).ret = 1 then [BusOp.read Dev.rom 0x0101] else [])
      ∧ ((env s.log.length).ret = 1 → (vc_mipi_reset env s mode).2 = 0)
      ∧ ((env s.log.length).ret ≠ 1 → (vc_mipi_reset env s mode).2 = - EIO) := by
  by_cases h1 : (env s.log.length).ret = 1
  · simp [vc_mipi_reset, reg_write, reg_read, hrom, h1, hmode]
  · simp [vc_mipi_reset, reg_write, hrom, h1, EIO]

/-- The shape of the bus traffic of a reset with a mode code: a non-empty
initial part of the three writes, and status polls only after all three. -/
theorem reset_log_shape (env : Env) (s : Sys) (mode : Int)
    (hrom : s.priv.rom = true) (hmode : 0 ≤ mode) :
    ∃ j k : Nat, 1 ≤ j ∧ j ≤ 3 ∧ (k ≠ 0 → j = 3)
      ∧ (vc_mipi_reset env s mode).1.log
          = s.log
            ++ List.take j [BusOp.write Dev.rom 0x0100 2,
                BusOp.write Dev.rom 0x0102 (u8 mode), BusOp.write Dev.rom 0x0100 0]
            ++ List.replicate k (BusOp.read Dev.rom 0x0101) := by
  have hm : ¬ mode < 0 := by omega
  by_cases h1 : (env s.log.length).ret = 1
  · by_cases h2 : (env (s.log.length + 1)).ret = 1
    · by_cases h3 : (env (s.log.length + 2)).ret = 1
      · obtain ⟨k, _, hl⟩ := reset_ok_log env s mode hrom hmode h1 h2 h3
        exact ⟨3, k, by omega, by omega, fun _ => rfl, by simpa using hl⟩
      · refine ⟨3, 0, by omega, by omega, fun _ => rfl, ?_⟩
        simp [vc_mipi_reset, reg_write, hrom, h1, h2, h3, hm, u8_mod, EIO]
    · refine ⟨2, 0, by omega, by omega, fun h => absurd rfl h, ?_⟩
      simp [vc_mipi_reset, reg_write, hrom, h1, h2, hm, u8_mod, EIO]
  · refine ⟨1, 0, by omega, by omega, fun h => absurd rfl h, ?_⟩
    simp [vc_mipi_reset, reg_write, hrom, h1, EIO]

/-- C11: with the bridge present, a reset with a mode code issues the writes
`0x0100 <- 2`, `0x0102 <- mode`, `0x0100 <- 0` in that order (stopping at the
first write that fails) and polls `0x0101` only after all three; when the
three writes succeed at least one poll follows.  A reset with a negative mode
writes only `0x0100 <- 2`, never the mode register or the power-up command
(its only other transfer is a read of the status register), and returns 0
when that write succeeds. -/
theorem C11_reset_write_sequence (env : Env) (s : Sys) (mode : Int)
    (hrom : s.priv.rom = true) :
    (0 ≤ mode →
        ∃ j k : Nat, 1 ≤ j ∧ j ≤ 3 ∧ (k ≠ 0 → j = 3)
          ∧ (vc_mipi_reset env s mode).1.log
              = s.log
                ++ List.take j [BusOp.write Dev.rom 0x0100 2,
                    BusOp.write Dev.rom 0x0102 (u8 mode), BusOp.write Dev.rom 0x0100 0]
                ++ List.replicate k (BusOp.read Dev.rom 0x0101))
      ∧ (0 ≤ mode → (env s.log.length).ret = 1 → (env (s.log.length + 1)).ret = 1 →
          (env (s.log.length + 2)).ret = 1 →
          ∃ k : Nat, 1 ≤ k
            ∧ (vc_mipi_reset env s mode).1.log
                = s.log
                  ++ [BusOp.write Dev.rom 0x0100 2, BusOp.write Dev.rom 0x0102 (u8 mode),
                      BusOp.write Dev.rom 0x0100 0]
                  ++ List.replicate k (BusOp.read Dev.rom 0x0101))
      ∧ (0 ≤ mode → mode < 256 → u8 mode = mode.toNat)
      ∧ (mode < 0 →
          (vc_mipi_reset env s mode).1.log
              = s.log ++ [BusOp.write Dev.rom 0x0100 2]
                ++ (if (env s.log.length).ret = 1 then [BusOp.read Dev.rom 0x0101] else [])
            ∧ ((env s.log.length).ret = 1 → (vc_mipi_reset env s mode).2 = 0)) := by
  refine ⟨?_, ?_, ?_, ?_⟩
  · intro hmode
    exact reset_log_shape env s mode hrom hmode
  · intro hmode h1 h2 h3
    exact reset_ok_log env s mode hrom hmode h1 h2 h3
  · intro h0 h1
    unfold u8
    omega
  · intro hmode
    exact ⟨(reset_teardown env s mode hrom hmode).1, (reset_teardown env s mode hrom hmode).2.1⟩

/-- C11 (witness): on the sample device, mode code 1 with the three writes
succeeding and the first status read ready, and the teardown reset. -/
theorem C11_reset_write_sequence_witness :
    sys0.priv.rom = true ∧ (0 : Int) ≤ 1 ∧ (envReady sys0.log.length).ret = 1
      ∧ (envReady (sys0.log.length + 1)).ret = 1 ∧ (envReady (sys0.log.length + 2)).ret = 1
      ∧ (∃ k : Nat, 1 ≤ k
          ∧ (vc_mipi_reset envReady sys0 1).1.log
              = sys0.log
                ++ [BusOp.write Dev.rom 0x0100 2, BusOp.write Dev.rom 0x0102 (u8 1),
                    BusOp.write Dev.rom 0x0100 0]
                ++ List.replicate k (BusOp.read Dev.rom 0x0101))
      ∧ (-1 : Int) < 0
      ∧ (vc_mipi_reset envReady sys0 (-1)).1.log
          = sys0.log ++ [BusOp.write Dev.rom 0x0100 2]
            ++ (if (envReady sys0.log.length).ret = 1 then [BusOp.read Dev.rom 0x0101]
                else []) :=
  ⟨rfl, by decide, rfl, rfl, rfl,
    (C11_reset_write_sequence envReady sys0 1 rfl).2.1 (by decide) rfl rfl rfl,
    by decide,
    ((C11_reset_write_sequence envReady sys0 (-1) rfl).2.2.2 (by decide)).1⟩

/-! ## Mode selection -/

theorem poll_body_sensor_mode (env : Env) (s : Sys) (err : Int) :
    (poll_body env s err).1.sensor_mode = s.sensor_mode := by
  by_cases h7 : u32 (read_result (env s.log.length)) &&& 0x80 ≠ 0
  · rw [poll_body_ready env s err h7]
    rfl
  · rw [poll_body_wait env s err h7]
    rfl

theorem status_poll_sensor_mode (env : Env) :
    ∀ (n : Nat) (s : Sys) (err : Int),
      (status_poll env n s err).1.sensor_mode = s.sensor_mode := by
  intro n
  induction n with
  | zero =>
    intro s err
    simp only [status_poll, poll_body_sensor_mode]
  | succ n ih =>
    intro s err
    simp only [status_poll]
    split_ifs
    · exact poll_body_sensor_mode env s err
    · rw [ih, poll_body_sensor_mode]

/-- The function `vc_mipi_reset` does not change the file-scope `sensor_mode`. -/
theorem reset_sensor_mode (env : Env) (s : Sys) (mode : Int) :
    (vc_mipi_reset env s mode).1.sensor_mode = s.sensor_mode := by
  simp only [vc_mipi_reset]
  split_ifs
  · rfl
  · rfl
  · rfl
  · rfl
  · rfl
  · show (status_poll env _ _ _).1.sensor_mode = _
    rw [status_poll_sensor_mode]
    rfl

/-- The function `imx273_set_mode` unfolded: the format table is empty, so
the table write issues nothing and returns 0; the result of the reset is
dropped. -/
theorem set_mode_eq (env : Env) (s : Sys) (pix_fmt sensor_mode_id : Int) :
    imx273_set_mode env s pix_fmt sensor_mode_id
      = (set_cam_mode
          (if s.priv.sensor_mode ≠ (mode_state s pix_fmt sensor_mode_id).sensor_mode then
              (vc_mipi_reset env
                (set_priv_sensor_mode (mode_state s pix_fmt sensor_mode_id)
                  (mode_state s pix_fmt sensor_mode_id).sensor_mode)
                (mode_state s pix_fmt sensor_mode_id).sensor_mode).1
            else mode_state s pix_fmt sensor_mode_id)
          IMX273_MODE_1440X1080, 0) := by
  unfold imx273_set_mode
  by_cases h : s.priv.sensor_mode ≠ (mode_state s pix_fmt sensor_mode_id).sensor_mode
  · rw [if_pos h]
    have h2 : (set_sensor_ext_trig
        (set_sensor_mode s (compute_sensor_mode s.sensor_mode pix_fmt s.priv.num_lanes
          s.ext_trig_mode sensor_mode_id))
        (compute_ext_trig (set_sensor_mode s (compute_sensor_mode s.sensor_mode pix_fmt
          s.priv.num_lanes s.ext_trig_mode sensor_mode_id)).priv.sensor_ext_trig
          (set_sensor_mode s (compute_sensor_mode s.sensor_mode pix_fmt s.priv.num_lanes
            s.ext_trig_mode sensor_mode_id)).ext_trig_mode sensor_mode_id)).priv.sensor_mode
        ≠ compute_sensor_mode s.sensor_mode pix_fmt s.priv.num_lanes s.ext_trig_mode
            sensor_mode_id := h
    simp only [if_pos h2]
    rfl
  · rw [if_neg h]
    have h2 : ¬ (set_sensor_ext_trig
        (set_sensor_mode s (compute_sensor_mode s.sensor_mode pix_fmt s.priv.num_lanes
          s.ext_trig_mode sensor_mode_id))
        (compute_ext_trig (set_sensor_mode s (compute_sensor_mode s.sensor_mode pix_fmt
          s.priv.num_lanes s.ext_trig_mode sensor_mode_id)).priv.sensor_ext_trig
          (set_sensor_mode s (compute_sensor_mode s.sensor_mode pix_fmt s.priv.num_lanes
            s.ext_trig_mode sensor_mode_id)).ext_trig_mode sensor_mode_id)).priv.sensor_mode
        ≠ compute_sensor_mode s.sensor_mode pix_fmt s.priv.num_lanes s.ext_trig_mode
            sensor_mode_id := h
    simp only [if_neg h2]
    rfl

/-- For a recognised pixel format the computed mode code is the spec's
`d + 6*[lanes = 4] + 3*[trigger on]`, whatever the previous value was. -/
theorem compute_sensor_mode_recognised (old pix_fmt num_lanes ext_trig_mode sensor_mode_id : Int)
    (hpf : recognised pix_fmt) :
    compute_sensor_mode old pix_fmt num_lanes ext_trig_mode sensor_mode_id
      = spec_mode_code (depth_index pix_fmt) (decide (num_lanes = 4))
          (trigger_selected ext_trig_mode sensor_mode_id) := by
  have hd : (if pix_fmt = V4L2_PIX_FMT_GREY ∨ pix_fmt = V4L2_PIX_FMT_SRGGB8 then (0 : Int)
      else if pix_fmt = V4L2_PIX_FMT_Y10 ∨ pix_fmt = V4L2_PIX_FMT_SRGGB10 then 1
      else if pix_fmt = V4L2_PIX_FMT_Y12 ∨ pix_fmt = V4L2_PIX_FMT_SRGGB12 then 2
      else old) = depth_index pix_fmt := by
    unfold depth_index
    by_cases h8 : pix_fmt = V4L2_PIX_FMT_GREY ∨ pix_fmt = V4L2_PIX_FMT_SRGGB8
    · rw [if_pos h8, if_pos h8]
    · rw [if_neg h8, if_neg h8]
      by_cases h10 : pix_fmt = V4L2_PIX_FMT_Y10 ∨ pix_fmt = V4L2_PIX_FMT_SRGGB10
      · rw [if_pos h10, if_pos h10]
      · rw [if_neg h10, if_neg h10]
        have h12 : pix_fmt = V4L2_PIX_FMT_Y12 ∨ pix_fmt = V4L2_PIX_FMT_SRGGB12 := by
          rcases hpf with h | h | h | h | h | h
          · exact absurd (Or.inl h) h8
          · exact absurd (Or.inr h) h8
          · exact absurd (Or.inl h) h10
          · exact absurd (Or.inr h) h10
          · exact Or.inl h
          · exact Or.inr h
        rw [if_pos h12]
  simp only [compute_sensor_mode, hd, spec_mode_code, trigger_selected]
  by_cases hl : num_lanes = 4 <;> by_cases he : ext_trig_mode ≥ 0 <;>
    by_cases hp : ext_trig_mode > 0 <;> by_cases hi : sensor_mode_id ≠ 0 <;>
    simp [hl, he, hp, hi]

/-- The mode code stored in `priv->sensor_mode` by `imx273_set_mode` is the
computed one, whether or not a reset was needed. -/
theorem set_mode_stored (env : Env) (s : Sys) (pix_fmt sensor_mode_id : Int) :
    (imx273_set_mode env s pix_fmt sensor_mode_id).1.priv.sensor_mode
        = compute_sensor_mode s.sensor_mode pix_fmt s.priv.num_lanes s.ext_trig_mode
            sensor_mode_id
      ∧ (imx273_set_mode env s pix_fmt sensor_mode_id).1.sensor_mode
        = compute_sensor_mode s.sensor_mode pix_fmt s.priv.num_lanes s.ext_trig_mode
            sensor_mode_id := by
  rw [set_mode_eq]
  by_cases h : s.priv.sensor_mode ≠ (mode_state s pix_fmt sensor_mode_id).sensor_mode
  · rw [if_pos h]
    constructor
    · show (vc_mipi_reset env _ _).1.priv.sensor_mode = _
      rw [reset_priv]
      rfl
    · show (vc_mipi_reset env _ _).1.sensor_mode = _
      rw [reset_sensor_mode]
      rfl
  · rw [if_neg h]
    constructor
    · have h2 : s.priv.sensor_mode = (mode_state s pix_fmt sensor_mode_id).sensor_mode :=
        not_not.mp h
      show s.priv.sensor_mode = _
      rw [h2]
      rfl
    · rfl

/-- The function `imx273_set_mode` always returns 0. -/
theorem set_mode_ret (env : Env) (s : Sys) (pix_fmt sensor_mode_id : Int) :
    (imx273_set_mode env s pix_fmt sensor_mode_id).2 = 0 := by
  rw [set_mode_eq]

/-- The bus transfers of `imx273_set_mode`: those of the reset when the mode
code changes, none otherwise. -/
theorem set_mode_log (env : Env) (s : Sys) (pix_fmt sensor_mode_id : Int) :
    (imx273_set_mode env s pix_fmt sensor_mode_id).1.log
      = if s.priv.sensor_mode ≠ (mode_state s pix_fmt sensor_mode_id).sensor_mode then
          (vc_mipi_reset env
            (set_priv_sensor_mode (mode_state s pix_fmt sensor_mode_id)
              (mode_state s pix_fmt sensor_mode_id).sensor_mode)
            (mode_state s pix_fmt sensor_mode_id).sensor_mode).1.log
        else s.log := by
  rw [set_mode_eq]
  split_ifs <;> rfl

/-- C16: for each of the six recognised pixel formats and every lane count
(in particular 2 and 4), `imx273_set_mode` computes and stores (in `sensor_mode` and in
`priv->sensor_mode`) the mode code `d + 6*[lanes = 4] + 3*[trigger on]`,
`d = 0, 1, 2` for 8, 10, 12 bit; this is the documented table (`d` for
two-lane streaming, `d + 3` two-lane trigger, `d + 6` four-lane streaming,
`d + 9` four-lane trigger), it lies in `0..11`, and distinct triples (bit
depth, lanes, trigger) give distinct codes. -/
theorem C16_mode_code_encoding (env : Env) (s : Sys) (pix_fmt sensor_mode_id : Int)
    (hpf : recognised pix_fmt) :
    (imx273_set_mode env s pix_fmt sensor_mode_id).1.priv.sensor_mode
        = spec_mode_code (depth_index pix_fmt) (decide (s.priv.num_lanes = 4))
            (trigger_selected s.ext_trig_mode sensor_mode_id)
      ∧ (imx273_set_mode env s pix_fmt sensor_mode_id).1.sensor_mode
        = spec_mode_code (depth_index pix_fmt) (decide (s.priv.num_lanes = 4))
            (trigger_selected s.ext_trig_mode sensor_mode_id)
      ∧ (0 ≤ depth_index pix_fmt ∧ depth_index pix_fmt ≤ 2)
      ∧ ((pix_fmt = V4L2_PIX_FMT_GREY ∨ pix_fmt = V4L2_PIX_FMT_SRGGB8) → depth_index pix_fmt = 0)
      ∧ ((pix_fmt = V4L2_PIX_FMT_Y10 ∨ pix_fmt = V4L2_PIX_FMT_SRGGB10) → depth_index pix_fmt = 1)
      ∧ ((pix_fmt = V4L2_PIX_FMT_Y12 ∨ pix_fmt = V4L2_PIX_FMT_SRGGB12) → depth_index pix_fmt = 2)
      ∧ (∀ d : Int, spec_mode_code d false false = d ∧ spec_mode_code d false true = d + 3
          ∧ spec_mode_code d true false = d + 6 ∧ spec_mode_code d true true = d + 9)
      ∧ (0 ≤ (imx273_set_mode env s pix_fmt sensor_mode_id).1.priv.sensor_mode
          ∧ (imx273_set_mode env s pix_fmt sensor_mode_id).1.priv.sensor_mode ≤ 11)
      ∧ (∀ (d d' : Int) (l l' t t' : Bool), 0 ≤ d → d ≤ 2 → 0 ≤ d' → d' ≤ 2 →
          spec_mode_code d l t = spec_mode_code d' l' t' → d = d' ∧ l = l' ∧ t = t') := by
  have hc := compute_sensor_mode_recognised s.sensor_mode pix_fmt s.priv.num_lanes
    s.ext_trig_mode sensor_mode_id hpf
  have hst := set_mode_stored env s pix_fmt sensor_mode_id
  have hd : 0 ≤ depth_index pix_fmt ∧ depth_index pix_fmt ≤ 2 := by
    unfold depth_index
    split_ifs <;> omega
  have htab : ∀ d : Int, spec_mode_code d false false = d ∧ spec_mode_code d false true = d + 3
      ∧ spec_mode_code d true false = d + 6 ∧ spec_mode_code d true true = d + 9 := by
    intro d
    simp only [spec_mode_code]
    refine ⟨?_, ?_, ?_, ?_⟩ <;> simp
    omega
  refine ⟨by rw [hst.1, hc], by rw [hst.2, hc], hd, ?_, ?_, ?_, htab, ?_, ?_⟩
  · intro h
    unfold depth_index
    rw [if_pos h]
  · intro h
    have h8 : ¬ (pix_fmt = V4L2_PIX_FMT_GREY ∨ pix_fmt = V4L2_PIX_FMT_SRGGB8) := by
      rcases h with h | h <;> rw [h] <;> decide
    unfold depth_index
    rw [if_neg h8, if_pos h]
  · intro h
    have h8 : ¬ (pix_fmt = V4L2_PIX_FMT_GREY ∨ pix_fmt = V4L2_PIX_FMT_SRGGB8) := by
      rcases h with h | h <;> rw [h] <;> decide
    have h10 : ¬ (pix_fmt = V4L2_PIX_FMT_Y10 ∨ pix_fmt = V4L2_PIX_FMT_SRGGB10) := by
      rcases h with h | h <;> rw [h] <;> decide
    unfold depth_index
    rw [if_neg h8, if_neg h10]
  · rw [hst.1, hc]
    cases hb : decide (s.priv.num_lanes = 4) <;>
      cases ht : trigger_selected s.ext_trig_mode sensor_mode_id <;>
      simp only [spec_mode_code] <;> simp <;> omega
  · intro d d' l l' t t' h0 h2 h0' h2' he
    cases l <;> cases l' <;> cases t <;> cases t' <;>
      simp only [spec_mode_code] at he <;> simp at he <;>
      (refine ⟨?_, ?_, ?_⟩ <;> first | rfl | omega)

/-- C16 (witness): an 8-bit grey format on the four-lane sample device. -/
theorem C16_mode_code_encoding_witness :
    recognised V4L2_PIX_FMT_GREY
      ∧ (imx273_set_mode envReady sys4 V4L2_PIX_FMT_GREY 1).1.priv.sensor_mode
          = spec_mode_code (depth_index V4L2_PIX_FMT_GREY) (decide (sys4.priv.num_lanes = 4))
              (trigger_selected sys4.ext_trig_mode 1) :=
  ⟨Or.inl rfl, (C16_mode_code_encoding envReady sys4 V4L2_PIX_FMT_GREY 1 (Or.inl rfl)).1⟩

/-- C17 (failing input): on the four-lane device (mode code 7) a call of
`imx273_set_mode` with a pixel format that is none of the six listed ones
(`YUYV`) keeps the previous code and adds 6 again: the code 13 is stored in
`sensor_mode` and `priv->sensor_mode` and written to the bridge register
`0x0102`. -/
theorem C17_mode_code_leaves_range :
    ¬ recognised V4L2_PIX_FMT_YUYV
      ∧ sys4.sensor_mode = 7 ∧ sys4.priv.sensor_mode = 7 ∧ sys4.priv.num_lanes = 4
      ∧ (imx273_set_mode envReady sys4 V4L2_PIX_FMT_YUYV 0).1.priv.sensor_mode = 13
      ∧ (imx273_set_mode envReady sys4 V4L2_PIX_FMT_YUYV 0).1.sensor_mode = 13
      ∧ (imx273_set_mode envReady sys4 V4L2_PIX_FMT_YUYV 0).1.log
          = [BusOp.write Dev.rom 0x0100 2, BusOp.write Dev.rom 0x0102 13,
             BusOp.write Dev.rom 0x0100 0, BusOp.read Dev.rom 0x0101]
      ∧ ¬ ((13 : Int) ≤ 11) := by
  refine ⟨?_, rfl, rfl, rfl, ?_, ?_, ?_, by decide⟩
  · unfold recognised
    decide
  · decide
  · decide
  · decide

/-- C19 (failing input): on the sample device (stored mode code 1) a call of
`imx273_set_mode` for an 8-bit format computes the code 0, so the reset runs;
every write fails, the reset returns `-EIO`, and `imx273_set_mode` returns 0:
`err` is overwritten by the result of the format-table write. -/
theorem C19_reset_error_dropped :
    sys0.priv.sensor_mode ≠ (mode_state sys0 V4L2_PIX_FMT_GREY 0).sensor_mode
      ∧ (vc_mipi_reset envWriteFail
          (set_priv_sensor_mode (mode_state sys0 V4L2_PIX_FMT_GREY 0)
            (mode_state sys0 V4L2_PIX_FMT_GREY 0).sensor_mode)
          (mode_state sys0 V4L2_PIX_FMT_GREY 0).sensor_mode).2 = - EIO
      ∧ (imx273_set_mode envWriteFail sys0 V4L2_PIX_FMT_GREY 0).1.log
          = [BusOp.write Dev.rom 0x0100 2]
      ∧ (imx273_set_mode envWriteFail sys0 V4L2_PIX_FMT_GREY 0).2 = 0 := by
  decide

/-- With the bridge present every reset starts with the power-down write and
issues no table write. -/
theorem reset_first_write (env : Env) (s : Sys) (mode : Int) (hrom : s.priv.rom = true) :
    ∃ rest : List BusOp,
      (vc_mipi_reset env s mode).1.log = s.log ++ [BusOp.write Dev.rom 0x0100 2] ++ rest
        ∧ ∀ op ∈ rest, is_regmap_write op = false := by
  by_cases hmode : mode < 0
  · refine ⟨if (env s.log.length).ret = 1 then [BusOp.read Dev.rom 0x0101] else [],
      (reset_teardown env s mode hrom hmode).1, ?_⟩
    intro op hop
    split_ifs at hop
    · simp only [List.mem_singleton] at hop
      rw [hop]
      rfl
    · simp at hop
  · obtain ⟨j, k, hj1, hj3, _, hl⟩ := reset_log_shape env s mode hrom (by omega)
    refine ⟨List.take (j - 1) [BusOp.write Dev.rom 0x0102 (u8 mode),
        BusOp.write Dev.rom 0x0100 0] ++ List.replicate k (BusOp.read Dev.rom 0x0101), ?_, ?_⟩
    · rw [hl]
      have hj : j = 1 ∨ j = 2 ∨ j = 3 := by omega
      rcases hj with h | h | h <;> subst h <;> simp
    · intro op hop
      rw [List.mem_append] at hop
      rcases hop with hop | hop
      · have := List.mem_of_mem_take hop
        simp only [List.mem_cons, List.mem_singleton, List.not_mem_nil, or_false] at this
        rcases this with h | h <;> rw [h] <;> rfl
      · rw [List.eq_of_mem_replicate hop]
        rfl

theorem role_write_no_reset (p : imx273) (role data : Nat) :
    ∀ op ∈ role_write p role data, touches_reset_regs op = false := by
  intro op hop
  unfold role_write at hop
  split_ifs at hop
  · simp only [List.mem_singleton] at hop
    rw [hop]
    rfl
  · simp at hop

theorem vmax_writes_no_reset (base v : Nat) :
    ∀ op ∈ vmax_writes base v, touches_reset_regs op = false := by
  intro op hop
  simp only [vmax_writes, List.mem_cons, List.mem_singleton, List.not_mem_nil, or_false] at hop
  rcases hop with h | h | h <;> rw [h] <;> rfl

theorem vmax_reads_no_reset (base : Nat) :
    ∀ op ∈ vmax_reads base, touches_reset_regs op = false := by
  intro op hop
  simp only [vmax_reads, List.mem_cons, List.mem_singleton, List.not_mem_nil, or_false] at hop
  rcases hop with h | h | h <;> rw [h] <;> rfl

theorem shutter_writes_no_reset (t : Nat) :
    ∀ op ∈ shutter_writes t, touches_reset_regs op = false := by
  intro op hop
  simp only [shutter_writes, List.mem_cons, List.mem_singleton, List.not_mem_nil,
    or_false] at hop
  rcases hop with h | h | h | h <;> rw [h] <;> rfl

/-- The function `imx273_set_gain` touches none of the reset registers. -/
theorem set_gain_no_reset (env : Env) (s : Sys) (val : Int) :
    ∀ op ∈ (imx273_set_gain env s val).1.log.drop s.log.length,
      touches_reset_regs op = false := by
  intro op hop
  rw [set_gain_log, List.append_assoc, List.drop_left] at hop
  rw [List.mem_append] at hop
  rcases hop with hop | hop
  · exact role_write_no_reset s.priv GAIN_HIGH _ op hop
  · exact role_write_no_reset s.priv GAIN_LOW _ op hop

/-- The function `imx273_set_exposure` touches none of the reset registers. -/
theorem set_exposure_no_reset (env : Env) (s : Sys) (val : Int) :
    ∀ op ∈ (imx273_set_exposure env s val).1.log.drop s.log.length,
      touches_reset_regs op = false := by
  intro op hop
  by_cases h : s.priv.sensor_ext_trig = 0
  · rw [set_exposure_freerun_log env s val h, List.append_assoc, List.drop_left] at hop
    rw [List.mem_append] at hop
    rcases hop with hop | hop
    · exact vmax_reads_no_reset _ op hop
    · split_ifs at hop
      · simp only [short_writes, List.mem_append] at hop
        rcases hop with ((hop | hop) | hop) | hop
        · exact vmax_writes_no_reset _ _ op hop
        · exact role_write_no_reset _ _ _ op hop
        · exact role_write_no_reset _ _ _ op hop
        · exact role_write_no_reset _ _ _ op hop
      · simp only [long_writes, List.mem_append] at hop
        rcases hop with ((hop | hop) | hop) | hop
        · exact role_write_no_reset _ _ _ op hop
        · exact role_write_no_reset _ _ _ op hop
        · exact role_write_no_reset _ _ _ op hop
        · exact vmax_writes_no_reset _ _ op hop
  · rw [set_exposure_trig_log env s val h, List.drop_left] at hop
    exact shutter_writes_no_reset _ op hop

/-- C18: `imx273_set_mode` runs `vc_mipi_reset` exactly when the newly
computed mode code differs from `priv->sensor_mode`.  When it differs, the
result is the format-table write applied to the state left by the reset (the
table is written after the reset, never before), and with the bridge present
the bus traffic starts with the power-down write.  When it does not differ,
the result is the format-table write applied directly and no bus transfer is
issued.  `imx273_set_gain`, `imx273_set_exposure` and `imx273_set_frame_rate`
touch none of the reset registers `0x0100`, `0x0101`, `0x0102`. -/
theorem C18_reset_only_on_mode_change (env : Env) (s : Sys) (pix_fmt sensor_mode_id : Int) :
    (s.priv.sensor_mode ≠ (mode_state s pix_fmt sensor_mode_id).sensor_mode →
        imx273_set_mode env s pix_fmt sensor_mode_id
            = imx273_write_table env
                (set_cam_mode
                  (vc_mipi_reset env
                    (set_priv_sensor_mode (mode_state s pix_fmt sensor_mode_id)
                      (mode_state s pix_fmt sensor_mode_id).sensor_mode)
                    (mode_state s pix_fmt sensor_mode_id).sensor_mode).1
                  IMX273_MODE_1440X1080)
                imx273_mode_1440X1080
          ∧ (s.priv.rom = true →
              ∃ rest : List BusOp,
                (imx273_set_mode env s pix_fmt sensor_mode_id).1.log
                  = s.log ++ [BusOp.write Dev.rom 0x0100 2] ++ rest))
      ∧ (s.priv.sensor_mode = (mode_state s pix_fmt sensor_mode_id).sensor_mode →
          imx273_set_mode env s pix_fmt sensor_mode_id
              = imx273_write_table env
                  (set_cam_mode (mode_state s pix_fmt sensor_mode_id) IMX273_MODE_1440X1080)
                  imx273_mode_1440X1080
            ∧ (imx273_set_mode env s pix_fmt sensor_mode_id).1.log = s.log)
      ∧ (∀ val : Int, ∀ op ∈ (imx273_set_gain env s val).1.log.drop s.log.length,
          touches_reset_regs op = false)
      ∧ (∀ val : Int, ∀ op ∈ (imx273_set_exposure env s val).1.log.drop s.log.length,
          touches_reset_regs op = false)
      ∧ (∀ val : Int, (imx273_set_frame_rate env s val).1.log = s.log) := by
  refine ⟨?_, ?_, fun val => set_gain_no_reset env s val,
    fun val => set_exposure_no_reset env s val, fun _ => rfl⟩
  · intro hch
    constructor
    · rw [set_mode_eq, if_pos hch]
      rfl
    · intro hrom
      rw [set_mode_log, if_pos hch]
      obtain ⟨rest, hl, _⟩ := reset_first_write env
        (set_priv_sensor_mode (mode_state s pix_fmt sensor_mode_id)
          (mode_state s pix_fmt sensor_mode_id).sensor_mode)
        (mode_state s pix_fmt sensor_mode_id).sensor_mode hrom
      exact ⟨rest, hl⟩
  · intro heq
    have hn : ¬ s.priv.sensor_mode ≠ (mode_state s pix_fmt sensor_mode_id).sensor_mode :=
      not_not.mpr heq
    constructor
    · rw [set_mode_eq, if_neg hn]
      rfl
    · rw [set_mode_log, if_neg hn]

/-- C18 (witness): on the sample device (stored code 1) the 8-bit format
changes the code and the reset runs; the 10-bit format does not and nothing
is transferred. -/
theorem C18_reset_only_on_mode_change_witness :
    sys0.priv.sensor_mode ≠ (mode_state sys0 V4L2_PIX_FMT_GREY 0).sensor_mode
      ∧ sys0.priv.rom = true
      ∧ (∃ rest : List BusOp,
          (imx273_set_mode envReady sys0 V4L2_PIX_FMT_GREY 0).1.log
            = sys0.log ++ [BusOp.write Dev.rom 0x0100 2] ++ rest)
      ∧ sys0.priv.sensor_mode = (mode_state sys0 V4L2_PIX_FMT_Y10 0).sensor_mode
      ∧ (imx273_set_mode envReady sys0 V4L2_PIX_FMT_Y10 0).1.log = sys0.log :=
  ⟨by decide, rfl,
    ((C18_reset_only_on_mode_change envReady sys0 V4L2_PIX_FMT_GREY 0).1 (by decide)).2 rfl,
    by decide,
    ((C18_reset_only_on_mode_change envReady sys0 V4L2_PIX_FMT_Y10 0).2.1 (by decide)).2⟩

/-- C20 (counterexample): on the streaming sample device a call of
`imx273_set_mode` that changes the mode code issues power-down, mode select,
power-up and one status poll, and nothing else: no stream-off write
`0x7000 <- 0` comes first, no stream-on write `0x7000 <- 1` comes last, and
the streaming flag stays set. -/
theorem C20_counterexample :
    sysStreaming.priv.streaming = true
      ∧ sysStreaming.priv.sensor_mode ≠ (mode_state sysStreaming V4L2_PIX_FMT_GREY 0).sensor_mode
      ∧ (imx273_set_mode envReady sysStreaming V4L2_PIX_FMT_GREY 0).1.log
          = [BusOp.write Dev.rom 0x0100 2, BusOp.write Dev.rom 0x0102 0,
             BusOp.write Dev.rom 0x0100 0, BusOp.read Dev.rom 0x0101]
      ∧ BusOp.regmap_write 0x7000 0x00
          ∉ (imx273_set_mode envReady sysStreaming V4L2_PIX_FMT_GREY 0).1.log
      ∧ BusOp.regmap_write 0x7000 0x01
          ∉ (imx273_set_mode envReady sysStreaming V4L2_PIX_FMT_GREY 0).1.log
      ∧ (imx273_set_mode envReady sysStreaming V4L2_PIX_FMT_GREY 0).1.priv.streaming = true := by
  decide

/-- C20 (amended): when `imx273_set_mode` is called with a changed,
non-negative mode code while the device is streaming and the bridge is
present, it issues no table write at all (no stream-off, no stream-on) and
leaves the streaming flag set; its bus traffic is that of the reset, and when
the three writes succeed it is, in order, power-down `0x0100 <- 2`, mode
select `0x0102 <- code`, power-up `0x0100 <- 0`, then at least one
status poll of `0x0101`; the format table, applied last, is empty. -/
theorem C20_mode_change_while_streaming (env : Env) (s : Sys) (pix_fmt sensor_mode_id : Int)
    (hstr : s.priv.streaming = true)
    (hch : s.priv.sensor_mode ≠ (mode_state s pix_fmt sensor_mode_id).sensor_mode)
    (hrom : s.priv.rom = true) (hmode : 0 ≤ (mode_state s pix_fmt sensor_mode_id).sensor_mode) :
    (imx273_set_mode env s pix_fmt sensor_mode_id).1.priv.streaming = true
      ∧ (∀ op ∈ (imx273_set_mode env s pix_fmt sensor_mode_id).1.log.drop s.log.length,
          is_regmap_write op = false)
      ∧ imx273_write_table env
          (set_cam_mode
            (vc_mipi_reset env
              (set_priv_sensor_mode (mode_state s pix_fmt sensor_mode_id)
                (mode_state s pix_fmt sensor_mode_id).sensor_mode)
              (mode_state s pix_fmt sensor_mode_id).sensor_mode).1
            IMX273_MODE_1440X1080)
          imx273_mode_1440X1080
          = imx273_set_mode env s pix_fmt sensor_mode_id
      ∧ ((env s.log.length).ret = 1 → (env (s.log.length + 1)).ret = 1 →
          (env (s.log.length + 2)).ret = 1 →
          ∃ k : Nat, 1 ≤ k
            ∧ (imx273_set_mode env s pix_fmt sensor_mode_id).1.log
                = s.log
                  ++ [BusOp.write Dev.rom 0x0100 2,
                      BusOp.write Dev.rom 0x0102
                        (u8 (mode_state s pix_fmt sensor_mode_id).sensor_mode),
                      BusOp.write Dev.rom 0x0100 0]
                  ++ List.replicate k (BusOp.read Dev.rom 0x0101)) := by
  refine ⟨?_, ?_, ?_, ?_⟩
  · rw [set_mode_eq, if_pos hch]
    show (vc_mipi_reset env _ _).1.priv.streaming = true
    rw [reset_priv]
    exact hstr
  · intro op hop
    rw [set_mode_log, if_pos hch] at hop
    obtain ⟨rest, hl, hrest⟩ := reset_first_write env
      (set_priv_sensor_mode (mode_state s pix_fmt sensor_mode_id)
        (mode_state s pix_fmt sensor_mode_id).sensor_mode)
      (mode_state s pix_fmt sensor_mode_id).sensor_mode hrom
    rw [hl] at hop
    have hlog : (set_priv_sensor_mode (mode_state s pix_fmt sensor_mode_id)
        (mode_state s pix_fmt sensor_mode_id).sensor_mode).log = s.log := rfl
    rw [hlog, List.append_assoc, List.drop_left] at hop
    rw [List.mem_append] at hop
    rcases hop with hop | hop
    · simp only [List.mem_singleton] at hop
      rw [hop]
      rfl
    · exact hrest op hop
  · rw [set_mode_eq, if_pos hch]
    rfl
  · intro h1 h2 h3
    rw [set_mode_log, if_pos hch]
    exact reset_ok_log env
      (set_priv_sensor_mode (mode_state s pix_fmt sensor_mode_id)
        (mode_state s pix_fmt sensor_mode_id).sensor_mode)
      (mode_state s pix_fmt sensor_mode_id).sensor_mode hrom hmode h1 h2 h3

/-- C20 (witness): the amended statement on the streaming sample device. -/
theorem C20_mode_change_while_streaming_witness :
    sysStreaming.priv.streaming = true
      ∧ sysStreaming.priv.sensor_mode ≠ (mode_state sysStreaming V4L2_PIX_FMT_GREY 0).sensor_mode
      ∧ sysStreaming.priv.rom = true
      ∧ 0 ≤ (mode_state sysStreaming V4L2_PIX_FMT_GREY 0).sensor_mode
      ∧ (imx273_set_mode envReady sysStreaming V4L2_PIX_FMT_GREY 0).1.priv.streaming = true
      ∧ (∀ op ∈ (imx273_set_mode envReady sysStreaming V4L2_PIX_FMT_GREY 0).1.log.drop
            sysStreaming.log.length,
          is_regmap_write op = false) :=
  ⟨rfl, by decide, rfl, by decide,
    (C20_mode_change_while_streaming envReady sysStreaming V4L2_PIX_FMT_GREY 0 rfl (by decide)
      rfl (by decide)).1,
    (C20_mode_change_while_streaming envReady sysStreaming V4L2_PIX_FMT_GREY 0 rfl (by decide)
      rfl (by decide)).2.1⟩

/-! ## Attach: the descriptor read -/

theorem read_result_nonneg (x : Xfer) (h : 0 ≤ x.ret) : ¬ read_result x < 0 := by
  unfold read_result
  rw [if_neg (not_lt.mpr h)]
  exact not_lt.mpr (Int.natCast_nonneg _)

/-- When all `n` remaining bytes are readable, the descriptor loop issues the
`n` reads of the registers `0x1000 + addr ..` and appends the bytes delivered. -/
theorem rom_read_loop_ok (env : Env) :
    ∀ (n addr : Nat) (s : Sys) (acc : List Nat),
      (∀ i, i < n → 0 ≤ (env (s.log.length + i)).ret) → addr + n ≤ 0x1000 →
      rom_read_loop env n addr s acc
        = (log_append s ((List.range' addr n).map (fun a => BusOp.read Dev.rom (0x1000 + a))),
           some (acc ++ (List.range' s.log.length n).map (rom_byte env))) := by
  intro n
  induction n with
  | zero =>
    intro addr s acc _ _
    simp [rom_read_loop, log_append]
  | succ n ih =>
    intro addr s acc h hb
    have h0 : ¬ (reg_read env s Dev.rom (addr + 0x1000)).2 < 0 :=
      read_result_nonneg _ (by simpa using h 0 (Nat.succ_pos n))
    have hl : (reg_read env s Dev.rom (addr + 0x1000)).1.log.length = s.log.length + 1 := by
      simp
    have hm : (addr + 0x1000) % 65536 = 0x1000 + addr := by omega
    rw [rom_read_loop, if_neg h0, ih]
    · simp only [log_append, reg_read, List.range'_succ, List.map_cons, List.append_assoc,
        List.singleton_append, hm, List.length_append, List.length_singleton, rom_byte]
    · intro i hi
      rw [hl]
      have := h (i + 1) (by omega)
      rwa [show s.log.length + 1 + i = s.log.length + (i + 1) by omega]
    · omega

@[simp] theorem probed_state_log (s : Sys) (inp : board_inputs) :
    (probed_state s inp).log = s.log := rfl

@[simp] theorem log_append_log (s : Sys) (ops : List BusOp) :
    (log_append s ops).log = s.log ++ ops := rfl

/-- With valid host inputs `imx273_board_setup` reaches the descriptor read. -/
theorem board_setup_valid (env : Env) (s : Sys) (inp : board_inputs) (hin : valid_inputs inp) :
    imx273_board_setup env s inp = board_setup_rom env (probed_state s inp) := by
  obtain ⟨hm, hp, hl, hs, hr⟩ := hin
  have h1 : ¬ (inp.mclk_name = true ∧ inp.mclk_err ≠ 0) := fun h => h.2 (hm h.1)
  have h2 : ¬ inp.power_err ≠ 0 := not_not.mpr hp
  have h3 : ¬ ((set_num_lanes s inp.num_lanes).priv.num_lanes ≠ 2
      ∧ (set_num_lanes s inp.num_lanes).priv.num_lanes ≠ 4) := by
    show ¬ (inp.num_lanes ≠ 2 ∧ inp.num_lanes ≠ 4)
    rcases hl with h | h
    · exact fun c => c.1 h
    · exact fun c => c.2 h
  have h4 : ¬ inp.smbus = false := by rw [hs]; decide
  unfold imx273_board_setup
  rw [if_neg h1, if_neg h2]
  simp only []
  rw [if_neg h3, if_neg h4, hr]
  exact if_pos rfl

/-- When every byte is readable, the descriptor read issues the 166 reads and
hands the image delivered by the bus to the model check. -/
theorem board_setup_rom_readable (env : Env) (s : Sys)
    (hrd : rom_readable env s.log.length) :
    board_setup_rom env s
      = board_setup_check env (log_append s rom_reads) (rom_image env s.log.length) := by
  unfold board_setup_rom
  simp only []
  rw [rom_read_loop_ok env ROM_TABLE_SIZE 0 s [] hrd (by decide)]
  rfl

/-- The private data left by `board_setup_check`: the stored descriptor
members and the model found by `check_model`; the mode code follows the
file-scope `sensor_mode` only when the model is accepted. -/
theorem board_setup_check_priv (env : Env) (s : Sys) (bytes : List Nat) :
    (board_setup_check env s bytes).1.priv.model
        = check_model (desc_sen_type bytes) (desc_mod_id bytes)
      ∧ (board_setup_check env s bytes).1.priv.regs = (bytes.drop ROM_REGS).take 56
      ∧ (board_setup_check env s bytes).1.priv.sen_type = desc_sen_type bytes
      ∧ (board_setup_check env s bytes).1.priv.mod_id = desc_mod_id bytes := by
  unfold board_setup_check
  simp only []
  split_ifs <;> simp only [reset_priv] <;> exact ⟨rfl, rfl, rfl, rfl⟩

/-- The result of `board_setup_check`: `-ENODEV` exactly when the model check
leaves `IMX_MODEL_NONE`. -/
theorem board_setup_check_ret (env : Env) (s : Sys) (bytes : List Nat) :
    (check_model (desc_sen_type bytes) (desc_mod_id bytes) = imx_model.IMX_MODEL_NONE →
        (board_setup_check env s bytes).2 = - ENODEV)
      ∧ (check_model (desc_sen_type bytes) (desc_mod_id bytes) ≠ imx_model.IMX_MODEL_NONE →
        (board_setup_check env s bytes).2 = 0 ∨ (board_setup_check env s bytes).2 = - EIO) := by
  constructor
  · intro h
    have h' : (set_model (store_rom_table s bytes)
        (check_model (store_rom_table s bytes).priv.sen_type
          (store_rom_table s bytes).priv.mod_id)).priv.model = imx_model.IMX_MODEL_NONE := h
    unfold board_setup_check
    simp only []
    rw [if_pos h']
  · intro h
    have h' : ¬ (set_model (store_rom_table s bytes)
        (check_model (store_rom_table s bytes).priv.sen_type
          (store_rom_table s bytes).priv.mod_id)).priv.model = imx_model.IMX_MODEL_NONE := h
    unfold board_setup_check
    simp only []
    rw [if_neg h']
    split_ifs with h1 h2 h2
    · exact reset_ret _ _ _
    · left; rfl
    · exact reset_ret _ _ _
    · left; rfl

/-- The bus traffic of `vc_mipi_reset` extends the log. -/
theorem reset_log_prefix (env : Env) (s : Sys) (mode : Int) :
    ∃ rest : List BusOp, (vc_mipi_reset env s mode).1.log = s.log ++ rest := by
  by_cases hrom : s.priv.rom = true
  · obtain ⟨rest, hl, _⟩ := reset_first_write env s mode hrom
    exact ⟨[BusOp.write Dev.rom 0x0100 2] ++ rest, by rw [hl, List.append_assoc]⟩
  · have hf : s.priv.rom = false := by simpa using hrom
    exact ⟨[], by simp [vc_mipi_reset, hf]⟩

/-- The bus traffic of `board_setup_check` starts with the log it is given. -/
theorem board_setup_check_log (env : Env) (s : Sys) (bytes : List Nat) :
    ∃ rest : List BusOp, (board_setup_check env s bytes).1.log = s.log ++ rest := by
  unfold board_setup_check
  simp only []
  split_ifs with h0 h1 h2 h2
  · exact ⟨[], by simp [set_model, store_rom_table]⟩
  all_goals exact reset_log_prefix env _ _

theorem strnlen_le (str : List Nat) (n : Nat) : strnlen str n ≤ n := by
  unfold strnlen
  exact le_trans (List.takeWhile_sublist _).length_le (List.length_take_le n str)

/-- The outcome of the block "Check model" in terms of the module id and the
length of the sensor-type string. -/
theorem check_model_spec (sen_type : List Nat) (mod_id : Nat) :
    ((mod_id ≠ 0x0273 ∨ strnlen sen_type 16 = 0) →
        check_model sen_type mod_id = imx_model.IMX_MODEL_NONE)
      ∧ (¬ (mod_id ≠ 0x0273 ∨ strnlen sen_type 16 = 0) →
          check_model sen_type mod_id
            = if sen_type.getD (strnlen sen_type 16 - 1) 0 = 0x43
              then imx_model.IMX273_MODEL_COLOR else imx_model.IMX273_MODEL_MONOCHROME) := by
  have hle := strnlen_le sen_type 16
  constructor
  · intro h
    unfold check_model
    simp only []
    rcases h with h | h
    · rw [if_neg h]
      split_ifs <;> rfl
    · rw [if_neg (by omega)]
  · intro h
    have h1 : mod_id = 0x0273 := by
      by_contra c
      exact h (Or.inl c)
    have h2 : strnlen sen_type 16 > 0 ∧ strnlen sen_type 16 < 17 := by
      have : strnlen sen_type 16 ≠ 0 := fun c => h (Or.inr c)
      omega
    unfold check_model
    simp only []
    rw [if_pos h2, if_pos h1]

/-- With valid host inputs and a readable descriptor, `imx273_board_setup` is
the model check and reset on the image delivered by the bus, after the 166
reads. -/
theorem board_setup_eq (env : Env) (s : Sys) (inp : board_inputs) (hin : valid_inputs inp)
    (hrd : rom_readable env s.log.length) :
    imx273_board_setup env s inp
      = board_setup_check env (log_append (probed_state s inp) rom_reads)
          (rom_image env s.log.length) := by
  rw [board_setup_valid env s inp hin, board_setup_rom_readable env (probed_state s inp) hrd]
  rfl

theorem rom_byte_lt (env : Env) (k : Nat) : rom_byte env k < 256 := by
  unfold rom_byte u8
  omega

theorem rom_image_length (env : Env) (n0 : Nat) : (rom_image env n0).length = 166 := by
  simp [rom_image, ROM_TABLE_SIZE]

theorem rom_image_getD (env : Env) (n0 i : Nat) (hi : i < 166) :
    (rom_image env n0).getD i 0 = rom_byte env (n0 + i) := by
  rw [List.getD_eq_getElem?_getD]
  unfold rom_image
  rw [List.getElem?_map, List.getElem?_range' n0 1 (show i < ROM_TABLE_SIZE from hi)]
  simp

theorem rom_reads_getElem (i : Nat) (hi : i < 166) :
    rom_reads[i]? = some (BusOp.read Dev.rom (0x1000 + i)) := by
  unfold rom_reads
  rw [List.getElem?_map, List.getElem?_range' 0 1 (show i < ROM_TABLE_SIZE from hi)]
  simp

theorem regs_getD (img : List Nat) (j : Nat) (hj : j < 56) :
    ((img.drop ROM_REGS).take 56).getD j 0 = img.getD (74 + j) 0 := by
  rw [List.getD_eq_getElem?_getD, List.getD_eq_getElem?_getD, List.getElem?_take, if_pos hj,
    List.getElem?_drop]
  rfl

theorem inputs0_valid : valid_inputs inputs0 :=
  ⟨fun _ => rfl, rfl, Or.inl rfl, rfl, rfl⟩

theorem envRom_readable (img : List Nat) : rom_readable (envRom img) sysProbe.log.length := by
  intro i hi
  have h : sysProbe.log.length + i < 166 := by
    show 0 + i < 166
    rw [Nat.zero_add]
    exact hi
  unfold envRom
  rw [if_pos h]
  exact Int.le_of_lt (by decide : (0 : Int) < 2)

/-- C13: with valid host inputs (clock and power up, two or four lanes, bridge
found) and a descriptor whose 166 bytes are all readable, `imx273_board_setup`
returns `-ENODEV` and leaves the model `IMX_MODEL_NONE` when the module id of
the descriptor is not `0x0273` or its sensor-type string is empty; in every
other case it does not return `-ENODEV`, and the model is
`IMX273_MODEL_COLOR` when the last character of the sensor-type string (within
its 16 bytes) is `'C'` and `IMX273_MODEL_MONOCHROME` otherwise. -/
theorem C13_sensor_classification (env : Env) (s : Sys) (inp : board_inputs)
    (hin : valid_inputs inp) (hrd : rom_readable env s.log.length) :
    ((desc_mod_id (rom_image env s.log.length) ≠ 0x0273
          ∨ strnlen (desc_sen_type (rom_image env s.log.length)) 16 = 0) →
        (imx273_board_setup env s inp).2 = - ENODEV
          ∧ (imx273_board_setup env s inp).1.priv.model = imx_model.IMX_MODEL_NONE)
      ∧ (¬ (desc_mod_id (rom_image env s.log.length) ≠ 0x0273
            ∨ strnlen (desc_sen_type (rom_image env s.log.length)) 16 = 0) →
          (imx273_board_setup env s inp).2 ≠ - ENODEV
            ∧ (imx273_board_setup env s inp).1.priv.model
                = if (desc_sen_type (rom_image env s.log.length)).getD
                      (strnlen (desc_sen_type (rom_image env s.log.length)) 16 - 1) 0 = 0x43
                  then imx_model.IMX273_MODEL_COLOR
                  else imx_model.IMX273_MODEL_MONOCHROME) := by
  rw [board_setup_eq env s inp hin hrd]
  have hspec := check_model_spec (desc_sen_type (rom_image env s.log.length))
    (desc_mod_id (rom_image env s.log.length))
  have hret := board_setup_check_ret env (log_append (probed_state s inp) rom_reads)
    (rom_image env s.log.length)
  have hpriv := (board_setup_check_priv env (log_append (probed_state s inp) rom_reads)
    (rom_image env s.log.length)).1
  constructor
  · intro h
    have hm := hspec.1 h
    exact ⟨hret.1 hm, by rw [hpriv, hm]⟩
  · intro h
    have hm := hspec.2 h
    have hne : check_model (desc_sen_type (rom_image env s.log.length))
        (desc_mod_id (rom_image env s.log.length)) ≠ imx_model.IMX_MODEL_NONE := by
      rw [hm]
      split_ifs <;> decide
    refine ⟨?_, by rw [hpriv, hm]⟩
    rcases hret.2 hne with h0 | h0 <;> rw [h0] <;> decide

/-- C13 (witness): a readable descriptor with module id `0x0273` and sensor
type `"IMX273C"` is not rejected and is classified as colour. -/
theorem C13_sensor_classification_witness :
    valid_inputs inputs0
      ∧ rom_readable (envRom (romImage 0x6D 0x43)) sysProbe.log.length
      ∧ (imx273_board_setup (envRom (romImage 0x6D 0x43)) sysProbe inputs0).2 ≠ - ENODEV
      ∧ (imx273_board_setup (envRom (romImage 0x6D 0x43)) sysProbe inputs0).1.priv.model
          = imx_model.IMX273_MODEL_COLOR :=
  ⟨inputs0_valid, envRom_readable _,
    ((C13_sensor_classification (envRom (romImage 0x6D 0x43)) sysProbe inputs0 inputs0_valid
      (envRom_readable _)).2 (by decide)).1,
    ((C13_sensor_classification (envRom (romImage 0x6D 0x43)) sysProbe inputs0 inputs0_valid
      (envRom_readable _)).2 (by decide)).2.trans (if_pos (by decide))⟩

/-- C14: with valid host inputs and a readable descriptor, the `i`-th
transfer of `imx273_board_setup` reads descriptor byte `i` from the bridge
register `0x1000 + i`; afterwards, for every role `k` from `MODEL_ID_HIGH` (0)
to `RESERVED7` (27), the address `sen_reg(priv, k)` is the little-endian 16-bit
value of the descriptor bytes at offsets `0x4A + 2k` and `0x4A + 2k + 1`
(`EXPOSURE_HIGH` at `0x6A`, `GAIN_HIGH` at `0x70`, `GAIN_LOW` at `0x72`), and
the 28 roles fill the 56 bytes of `regs`. -/
theorem C14_register_map_layout (env : Env) (s : Sys) (inp : board_inputs)
    (hin : valid_inputs inp) (hrd : rom_readable env s.log.length) :
    (∀ i, i < ROM_TABLE_SIZE →
        (imx273_board_setup env s inp).1.log[s.log.length + i]?
          = some (BusOp.read Dev.rom (0x1000 + i)))
      ∧ (∀ k, k ≤ RESERVED7 →
          sen_reg (imx273_board_setup env s inp).1.priv k
            = rom_byte env (s.log.length + (0x4A + 2 * k))
              + 256 * rom_byte env (s.log.length + (0x4A + 2 * k + 1)))
      ∧ 0x4A + 2 * EXPOSURE_HIGH = 0x6A ∧ 0x4A + 2 * GAIN_HIGH = 0x70
      ∧ 0x4A + 2 * GAIN_LOW = 0x72
      ∧ MODEL_ID_HIGH = 0 ∧ RESERVED7 = 27
      ∧ (imx273_board_setup env s inp).1.priv.regs.length = 2 * (RESERVED7 + 1)
      ∧ 2 * (RESERVED7 + 1) = 56 := by
  rw [board_setup_eq env s inp hin hrd]
  have hregs := (board_setup_check_priv env (log_append (probed_state s inp) rom_reads)
    (rom_image env s.log.length)).2.1
  refine ⟨?_, ?_, by decide, by decide, by decide, rfl, rfl, ?_, by decide⟩
  · intro i hi
    obtain ⟨rest, hl⟩ := board_setup_check_log env (log_append (probed_state s inp) rom_reads)
      (rom_image env s.log.length)
    have hi6 : i < 166 := hi
    have hlen : rom_reads.length = 166 := by simp [rom_reads, ROM_TABLE_SIZE]
    rw [hl, log_append_log, probed_state_log, List.append_assoc,
      List.getElem?_append_right (Nat.le_add_right _ _), Nat.add_sub_cancel_left,
      List.getElem?_append_left (by rw [hlen]; exact hi6)]
    exact rom_reads_getElem i hi6
  · intro k hk
    have hk27 : k ≤ 27 := hk
    unfold sen_reg le16
    rw [hregs, regs_getD _ _ (by omega), regs_getD _ _ (by omega),
      rom_image_getD _ _ _ (by omega), rom_image_getD _ _ _ (by omega),
      Nat.mod_eq_of_lt (rom_byte_lt _ _), Nat.mod_eq_of_lt (rom_byte_lt _ _)]
    have e1 : s.log.length + (74 + k * 2) = s.log.length + (0x4A + 2 * k) := by omega
    have e2 : s.log.length + (74 + (k * 2 + 1)) = s.log.length + (0x4A + 2 * k + 1) := by omega
    rw [e1, e2]
  · rw [hregs, List.length_take, List.length_drop, rom_image_length]
    decide

/-- C14 (witness): on the sample descriptor the gain roles resolve to the
sensor addresses `0x0405` and `0x0404` stored at offsets `0x70` and `0x72`. -/
theorem C14_register_map_layout_witness :
    valid_inputs inputs0
      ∧ rom_readable (envRom (romImage 0x6D 0)) sysProbe.log.length
      ∧ sen_reg (imx273_board_setup (envRom (romImage 0x6D 0)) sysProbe inputs0).1.priv GAIN_HIGH
          = rom_byte (envRom (romImage 0x6D 0)) (sysProbe.log.length + (0x4A + 2 * GAIN_HIGH))
            + 256 * rom_byte (envRom (romImage 0x6D 0))
                (sysProbe.log.length + (0x4A + 2 * GAIN_HIGH + 1))
      ∧ rom_byte (envRom (romImage 0x6D 0)) (sysProbe.log.length + (0x4A + 2 * GAIN_HIGH))
            + 256 * rom_byte (envRom (romImage 0x6D 0))
                (sysProbe.log.length + (0x4A + 2 * GAIN_HIGH + 1)) = 0x0405 :=
  ⟨inputs0_valid, envRom_readable _,
    (C14_register_map_layout (envRom (romImage 0x6D 0)) sysProbe inputs0 inputs0_valid
      (envRom_readable _)).2.1 GAIN_HIGH (by decide),
    by decide⟩

/-! ## Attach: dependence on the bus -/

theorem role_write_no_zero (p : imx273) (role data : Nat) :
    ∀ op ∈ role_write p role data, ∀ d : Nat, op ≠ BusOp.write Dev.sensor 0 d := by
  intro op hop d
  unfold role_write at hop
  split_ifs at hop with h
  · simp only [List.mem_singleton] at hop
    rw [hop]
    intro c
    injection c with _ ha _
    exact h ha
  · simp at hop

theorem vmax_writes_no_zero (m : imx_model) (v : Nat) :
    ∀ op ∈ vmax_writes (exposure_base m) v, ∀ d : Nat, op ≠ BusOp.write Dev.sensor 0 d := by
  intro op hop d
  simp only [vmax_writes, List.mem_cons, List.mem_singleton, List.not_mem_nil, or_false] at hop
  have hb : 0x0200 ≤ exposure_base m := by cases m <;> decide
  rcases hop with h | h | h <;> rw [h] <;> intro c <;> injection c with _ ha _ <;> omega

theorem vmax_reads_no_zero (base : Nat) :
    ∀ op ∈ vmax_reads base, ∀ d : Nat, op ≠ BusOp.write Dev.sensor 0 d := by
  intro op hop d
  simp only [vmax_reads, List.mem_cons, List.mem_singleton, List.not_mem_nil, or_false] at hop
  rcases hop with h | h | h <;> rw [h] <;> intro c <;> cases c

/-- C15: for every descriptor (every content of `regs`) and every requested
value, `imx273_set_gain` and the free-run `imx273_set_exposure` issue no write
to sensor address 0.  The write to a role (`role_write`) is empty when the
address of the role is 0 and is the single write to that address otherwise,
and the traffic of both functions is the concatenation of the writes of their
roles, each with its usual value whether or not the other roles are present. -/
theorem C15_absent_roles_skipped (env : Env) (s : Sys) (val : Int) :
    (∀ op ∈ (imx273_set_gain env s val).1.log.drop s.log.length,
        ∀ d : Nat, op ≠ BusOp.write Dev.sensor 0 d)
      ∧ (s.priv.sensor_ext_trig = 0 →
          ∀ op ∈ (imx273_set_exposure env s val).1.log.drop s.log.length,
            ∀ d : Nat, op ≠ BusOp.write Dev.sensor 0 d)
      ∧ (∀ role d : Nat, sen_reg s.priv role = 0 → role_write s.priv role d = [])
      ∧ (∀ role d : Nat, sen_reg s.priv role ≠ 0 →
          role_write s.priv role d = [BusOp.write Dev.sensor (sen_reg s.priv role) d])
      ∧ (imx273_set_gain env s val).1.log
          = s.log
            ++ role_write s.priv GAIN_HIGH
                (((if u32 val > 480 then 480 else u32 val) >>> 8) &&& 0xff)
            ++ role_write s.priv GAIN_LOW ((if u32 val > 480 then 480 else u32 val) &&& 0xff)
      ∧ (s.priv.sensor_ext_trig = 0 →
          (imx273_set_exposure env s val).1.log
            = s.log ++ vmax_reads (exposure_base s.priv.model)
              ++ (if outer_clamp (u32 val) < 16504 then
                    vmax_writes (exposure_base s.priv.model) (vmax_at env s.log.length)
                      ++ role_write s.priv EXPOSURE_HIGH
                          ((short_shutter (outer_clamp (u32 val)) (vmax_at env s.log.length)
                              1000 TOFFSET_296 H1PERIOD_296 >>> 16) &&& 0x07)
                      ++ role_write s.priv EXPOSURE_MIDDLE
                          ((short_shutter (outer_clamp (u32 val)) (vmax_at env s.log.length)
                              1000 TOFFSET_296 H1PERIOD_296 >>> 8) &&& 0xff)
                      ++ role_write s.priv EXPOSURE_LOW
                          (short_shutter (outer_clamp (u32 val)) (vmax_at env s.log.length)
                              1000 TOFFSET_296 H1PERIOD_296 &&& 0xff)
                  else
                    role_write s.priv EXPOSURE_HIGH 0x00
                      ++ role_write s.priv EXPOSURE_MIDDLE 0x00
                      ++ role_write s.priv EXPOSURE_LOW 0x0e
                      ++ vmax_writes (exposure_base s.priv.model)
                          (long_vmax (outer_clamp (u32 val)) 1000 TOFFSET_296 H1PERIOD_296))) := by
  have hgain : (imx273_set_gain env s val).1.log
      = s.log
        ++ role_write s.priv GAIN_HIGH
            (((if u32 val > 480 then 480 else u32 val) >>> 8) &&& 0xff)
        ++ role_write s.priv GAIN_LOW ((if u32 val > 480 then 480 else u32 val) &&& 0xff) :=
    set_gain_log env s val
  refine ⟨?_, ?_, ?_, ?_, hgain, ?_⟩
  · intro op hop
    rw [hgain, List.append_assoc, List.drop_left, List.mem_append] at hop
    rcases hop with hop | hop
    · exact role_write_no_zero _ _ _ op hop
    · exact role_write_no_zero _ _ _ op hop
  · intro h op hop
    rw [set_exposure_freerun_log env s val h, List.append_assoc, List.drop_left,
      List.mem_append] at hop
    rcases hop with hop | hop
    · exact vmax_reads_no_zero _ op hop
    · split_ifs at hop
      · simp only [short_writes, List.mem_append] at hop
        rcases hop with ((hop | hop) | hop) | hop
        · exact vmax_writes_no_zero _ _ op hop
        · exact role_write_no_zero _ _ _ op hop
        · exact role_write_no_zero _ _ _ op hop
        · exact role_write_no_zero _ _ _ op hop
      · simp only [long_writes, List.mem_append] at hop
        rcases hop with ((hop | hop) | hop) | hop
        · exact role_write_no_zero _ _ _ op hop
        · exact role_write_no_zero _ _ _ op hop
        · exact role_write_no_zero _ _ _ op hop
        · exact vmax_writes_no_zero _ _ op hop
  · intro role d h
    unfold role_write
    rw [if_neg (not_not.mpr h)]
  · intro role d h
    unfold role_write
    rw [if_pos h]
  · intro h
    exact set_exposure_freerun_log env s val h

/-- C15 (witness): with the role `GAIN_HIGH` absent, a gain request of 300
issues the single write of the low byte to the `GAIN_LOW` address `0x0404`,
and no write to address 0. -/
theorem C15_absent_roles_skipped_witness :
    sen_reg sysNoGainHigh.priv GAIN_HIGH = 0
      ∧ role_write sysNoGainHigh.priv GAIN_HIGH 1 = []
      ∧ sysNoGainHigh.priv.sensor_ext_trig = 0
      ∧ (∀ op ∈ (imx273_set_exposure envVmax sysNoGainHigh 10000).1.log.drop
            sysNoGainHigh.log.length,
          ∀ d : Nat, op ≠ BusOp.write Dev.sensor 0 d)
      ∧ (imx273_set_gain envOk sysNoGainHigh 300).1.log
          = [BusOp.write Dev.sensor 0x0404 44] :=
  ⟨by decide,
    (C15_absent_roles_skipped envOk sysNoGainHigh 300).2.2.1 GAIN_HIGH 1 (by decide),
    rfl,
    (C15_absent_roles_skipped envVmax sysNoGainHigh 10000).2.1 rfl,
    by decide⟩

/-! ## Streaming start and stop, control calls -/

/-- C21 (failing input): on the sample device in free-run mode, with a bus on
which only the write to `0x0103` of the trigger configuration fails,
`imx273_start_streaming` issues `0x0108 <- 0` and `0x0103 <- 0`, skips the
stream-on write, leaves the streaming flag clear, and returns 0: the block
leaves through `goto exit` with `err` still 0. -/
theorem C21_trigger_config_failure_returns_success :
    sys0.priv.sensor_ext_trig = 0
      ∧ (envCfgFail 12).ret ≠ 1
      ∧ (trigger_config envCfgFail (ctrl_state envCfgFail sys0)).2 ≠ 0
      ∧ (imx273_start_streaming envCfgFail sys0).1.log.drop 11
          = [BusOp.write Dev.rom 0x0108 0, BusOp.write Dev.rom 0x0103 0]
      ∧ (imx273_start_streaming envCfgFail sys0).1.priv.streaming = false
      ∧ (imx273_start_streaming envCfgFail sys0).2 = 0 := by
  decide

/-- C24 (failing input): on the sample device in trigger mode, with a bus on
which every `reg_write` fails, `imx273_set_exposure` issues the four shutter
writes and returns 0: their results are collected in a block-local `ret` that
shadows the one returned.  On the same bus `imx273_set_gain` and the free-run
`imx273_set_exposure` return `-EIO`. -/
theorem C24_trigger_exposure_error_dropped :
    sysTrig.priv.sensor_ext_trig ≠ 0
      ∧ (reg_write envWriteFail sysTrig Dev.rom 0x0109 0x60).2 = - EIO
      ∧ (imx273_set_exposure envWriteFail sysTrig 10000).1.log
          = [BusOp.write Dev.rom 0x0109 0x60, BusOp.write Dev.rom 0x010A 0x3D,
             BusOp.write Dev.rom 0x010B 0x08, BusOp.write Dev.rom 0x010C 0x00]
      ∧ (imx273_set_exposure envWriteFail sysTrig 10000).2 = 0
      ∧ (imx273_set_gain envWriteFail sys0 300).2 = - EIO
      ∧ (imx273_set_exposure envWriteFail sys0 10000).2 = - EIO := by
  decide

/-- C29 (failing input): with the frame-length registers reading `0x00`,
`0x04`, `0x00` (frame length 1024), the read-back of `imx_exposure_296_297`
yields 4: a byte that reads 0 skips the shift of the bytes read before it.
The request 10000 then programs the frame length 4 (`0x0212 <- 0`,
`0x0211 <- 0`, `0x0210 <- 4`). -/
theorem C29_zero_byte_skips_shift :
    read_result (envVmax1024 0) = 0x00 ∧ read_result (envVmax1024 1) = 0x04
      ∧ read_result (envVmax1024 2) = 0x00
      ∧ join24 0x00 0x04 0x00 = 1024
      ∧ (read_vmax envVmax1024 sys0 (exposure_base sys0.priv.model)).2 = 4
      ∧ (imx273_set_exposure envVmax1024 sys0 10000).1.log.take 6
          = [BusOp.read Dev.sensor 0x0212, BusOp.read Dev.sensor 0x0211,
             BusOp.read Dev.sensor 0x0210, BusOp.write Dev.sensor 0x0212 0,
             BusOp.write Dev.sensor 0x0211 0, BusOp.write Dev.sensor 0x0210 4] := by
  decide

/-- C25 (counterexample): `imx273_set_frame_rate` with the request 60 on the
sample device returns 0 and issues no transfer, and the stored frame rate is
still 30000000: the request is not recorded. -/
theorem C25_counterexample :
    (imx273_set_frame_rate envOk sys0 60).2 = 0
      ∧ (imx273_set_frame_rate envOk sys0 60).1.log = sys0.log
      ∧ (imx273_set_frame_rate envOk sys0 60).1.priv.frame_rate = 30000000
      ∧ (imx273_set_frame_rate envOk sys0 60).1.priv.frame_rate ≠ 60 := by
  decide

/-- C28 (counterexample): on the sample device, where both gain roles are
present (`GAIN_HIGH = 0x0405`, `GAIN_LOW = 0x0404`), the gain request 300
writes the high byte 1 to `GAIN_HIGH` first and the low byte 44 to `GAIN_LOW`
second. -/
theorem C28_counterexample :
    sen_reg sys0.priv GAIN_HIGH = 0x0405 ∧ sen_reg sys0.priv GAIN_LOW = 0x0404
      ∧ (imx273_set_gain envOk sys0 300).1.log
          = [BusOp.write Dev.sensor 0x0405 1, BusOp.write Dev.sensor 0x0404 44]
      ∧ (imx273_set_gain envOk sys0 300).1.log
          ≠ [BusOp.write Dev.sensor 0x0404 44, BusOp.write Dev.sensor 0x0405 1] := by
  decide

/-! ## Frame rate -/

theorem sen_reg_with_frame_rate (s : Sys) (f k : Nat) :
    sen_reg (with_frame_rate s f).priv k = sen_reg s.priv k := rfl

theorem short_branch_frame_rate (env : Env) (s : Sys) (base vMax sh f : Nat) :
    short_branch env (with_frame_rate s f) base vMax sh
      = (with_frame_rate (short_branch env s base vMax sh).1 f,
         (short_branch env s base vMax sh).2) := by
  by_cases hH : sen_reg s.priv EXPOSURE_HIGH = 0 <;>
    by_cases hM : sen_reg s.priv EXPOSURE_MIDDLE = 0 <;>
    by_cases hL : sen_reg s.priv EXPOSURE_LOW = 0 <;>
    simp only [short_branch, reg_write_priv, sen_reg_with_frame_rate, hH, hM, hL, ne_eq,
      not_true_eq_false, not_false_eq_true, if_true, if_false] <;>
    rfl

theorem long_branch_frame_rate (env : Env) (s : Sys) (base v f : Nat) :
    long_branch env (with_frame_rate s f) base v
      = (with_frame_rate (long_branch env s base v).1 f, (long_branch env s base v).2) := by
  by_cases hH : sen_reg s.priv EXPOSURE_HIGH = 0 <;>
    by_cases hM : sen_reg s.priv EXPOSURE_MIDDLE = 0 <;>
    by_cases hL : sen_reg s.priv EXPOSURE_LOW = 0 <;>
    simp only [long_branch, reg_write_priv, sen_reg_with_frame_rate, hH, hM, hL, ne_eq,
      not_true_eq_false, not_false_eq_true, if_true, if_false] <;>
    rfl

theorem read_vmax_frame_rate (env : Env) (s : Sys) (base f : Nat) :
    read_vmax env (with_frame_rate s f) base
      = (with_frame_rate (read_vmax env s base).1 f, (read_vmax env s base).2) := rfl

/-- The function `imx273_set_exposure` does not use the stored frame rate:
with another stored frame rate it issues the same transfers, returns the same
value and leaves the same state, the frame-rate field apart. -/
theorem set_exposure_frame_rate (env : Env) (s : Sys) (f : Nat) (val : Int) :
    imx273_set_exposure env (with_frame_rate s f) val
      = (with_frame_rate (imx273_set_exposure env s val).1 f,
         (imx273_set_exposure env s val).2) := by
  by_cases h : s.priv.sensor_ext_trig = 0
  · rw [set_exposure_freerun env (with_frame_rate s f) val h, set_exposure_freerun env s val h]
    have hs : set_exposure_time (with_frame_rate s f) (outer_clamp (u32 val))
        = with_frame_rate (set_exposure_time s (outer_clamp (u32 val))) f := rfl
    have hm : (with_frame_rate s f).priv.model = s.priv.model := rfl
    rw [hs, hm, read_vmax_frame_rate]
    generalize read_vmax env (set_exposure_time s (outer_clamp (u32 val)))
      (exposure_base s.priv.model) = rv
    split_ifs
    · exact short_branch_frame_rate env rv.1 _ _ _ f
    · exact long_branch_frame_rate env rv.1 _ _ f
  · rw [set_exposure_trig env (with_frame_rate s f) val h, set_exposure_trig env s val h]
    rfl

/-- C25 (amended): for every requested rate `imx273_set_frame_rate` issues no
transfer, returns 0 and leaves the whole state, the stored frame rate
included, as it was; and the exposure computation does not read the stored
frame rate (its `multiplier` is the constant 1000): with any other stored
frame rate `imx273_set_exposure` issues the same transfers, returns the same
value and leaves the same state, the frame-rate field apart. -/
theorem C25_frame_rate_not_recorded (env : Env) (s : Sys) (v : Int) :
    imx273_set_frame_rate env s v = (s, 0)
      ∧ (imx273_set_frame_rate env s v).1.priv.frame_rate = s.priv.frame_rate
      ∧ (∀ (f : Nat) (val : Int),
          imx273_set_exposure env (with_frame_rate s f) val
            = (with_frame_rate (imx273_set_exposure env s val).1 f,
               (imx273_set_exposure env s val).2)) :=
  ⟨rfl, rfl, fun f val => set_exposure_frame_rate env s f val⟩

/-- C28 (amended): when both gain roles are present, `imx273_set_gain` issues
exactly two transfers: the high byte `(gain >> 8) & 0xff` of the stored gain
to the `GAIN_HIGH` address first, then the low byte `gain & 0xff` to the
`GAIN_LOW` address. -/
theorem C28_gain_byte_order (env : Env) (s : Sys) (val : Int)
    (hH : sen_reg s.priv GAIN_HIGH ≠ 0) (hL : sen_reg s.priv GAIN_LOW ≠ 0) :
    (imx273_set_gain env s val).1.log
      = s.log
        ++ [BusOp.write Dev.sensor (sen_reg s.priv GAIN_HIGH)
              (((imx273_set_gain env s val).1.priv.digital_gain >>> 8) &&& 0xff),
            BusOp.write Dev.sensor (sen_reg s.priv GAIN_LOW)
              ((imx273_set_gain env s val).1.priv.digital_gain &&& 0xff)] := by
  rw [set_gain_stored, set_gain_log, if_pos hH, if_pos hL, List.append_assoc]
  rfl

/-- C28 (witness): the gain request 300 on the sample device. -/
theorem C28_gain_byte_order_witness :
    sen_reg sys0.priv GAIN_HIGH ≠ 0 ∧ sen_reg sys0.priv GAIN_LOW ≠ 0
      ∧ (imx273_set_gain envOk sys0 300).1.log
          = sys0.log
            ++ [BusOp.write Dev.sensor (sen_reg sys0.priv GAIN_HIGH)
                  (((imx273_set_gain envOk sys0 300).1.priv.digital_gain >>> 8) &&& 0xff),
                BusOp.write Dev.sensor (sen_reg sys0.priv GAIN_LOW)
                  ((imx273_set_gain envOk sys0 300).1.priv.digital_gain &&& 0xff)] :=
  ⟨by decide, by decide, C28_gain_byte_order envOk sys0 300 (by decide) (by decide)⟩

/-! ## Frame of the control calls -/

/-- The private data left by `imx273_set_exposure`, in both modes: only the
stored exposure changes. -/
theorem set_exposure_priv (env : Env) (s : Sys) (val : Int) :
    (imx273_set_exposure env s val).1.priv
      = (set_exposure_time s (outer_clamp (u32 val))).priv := by
  by_cases h : s.priv.sensor_ext_trig = 0
  · rw [set_exposure_freerun env s val h]
    split_ifs
    · rw [short_branch_priv, read_vmax_priv]
    · rw [long_branch_priv, read_vmax_priv]
  · rw [set_exposure_trig env s val h]
    exact write_shutter_priv _ _ _ _ _

theorem short_branch_globals (env : Env) (s : Sys) (base vMax sh : Nat) :
    globals (short_branch env s base vMax sh).1 = globals s := by
  simp only [short_branch]
  split_ifs <;> rfl

theorem long_branch_globals (env : Env) (s : Sys) (base v : Nat) :
    globals (long_branch env s base v).1 = globals s := by
  simp only [long_branch]
  split_ifs <;> rfl

/-- The function `imx273_set_gain` leaves the file-scope variables and the
retry counter as they were. -/
theorem set_gain_globals (env : Env) (s : Sys) (val : Int) :
    globals (imx273_set_gain env s val).1 = globals s := by
  simp only [imx273_set_gain]
  split_ifs <;> rfl

/-- The function `imx273_set_exposure` leaves the file-scope variables and the
retry counter as they were. -/
theorem set_exposure_globals (env : Env) (s : Sys) (val : Int) :
    globals (imx273_set_exposure env s val).1 = globals s := by
  by_cases h : s.priv.sensor_ext_trig = 0
  · rw [set_exposure_freerun env s val h]
    split_ifs
    · rw [short_branch_globals]
      rfl
    · rw [long_branch_globals]
      rfl
  · rw [set_exposure_trig env s val h]
    rfl

theorem role_write_addr (p : imx273) (role data : Nat) :
    ∀ op ∈ role_write p role data, op = BusOp.write Dev.sensor (sen_reg p role) data := by
  intro op hop
  unfold role_write at hop
  split_ifs at hop
  · simpa using hop
  · simp at hop

/-- C27: for every state, bus and requested value, `imx273_set_gain` issues
only writes to the sensor addresses of the roles `GAIN_HIGH` and `GAIN_LOW`
and changes nothing in the driver state but the stored gain;
`imx273_set_exposure` changes nothing but the stored exposure.  Both leave the
streaming flag, the mode code (`priv->sensor_mode` and the file-scope
`sensor_mode`) and the trigger configuration (`priv->sensor_ext_trig`,
`priv->flash_output`, `ext_trig_mode`) as they were, whatever the writes
return.  Afterwards the stored gain is at most 480 and the stored exposure
lies in `[29, 15110711]`. -/
theorem C27_control_frame (env : Env) (s : Sys) (val : Int) :
    (∀ op ∈ (imx273_set_gain env s val).1.log.drop s.log.length,
        ∃ d : Nat, op = BusOp.write Dev.sensor (sen_reg s.priv GAIN_HIGH) d
          ∨ op = BusOp.write Dev.sensor (sen_reg s.priv GAIN_LOW) d)
      ∧ (imx273_set_gain env s val).1.priv
          = (set_digital_gain s (imx273_set_gain env s val).1.priv.digital_gain).priv
      ∧ globals (imx273_set_gain env s val).1 = globals s
      ∧ ((imx273_set_gain env s val).1.priv.streaming = s.priv.streaming
          ∧ (imx273_set_gain env s val).1.priv.sensor_mode = s.priv.sensor_mode
          ∧ (imx273_set_gain env s val).1.sensor_mode = s.sensor_mode
          ∧ (imx273_set_gain env s val).1.priv.sensor_ext_trig = s.priv.sensor_ext_trig
          ∧ (imx273_set_gain env s val).1.priv.flash_output = s.priv.flash_output
          ∧ (imx273_set_gain env s val).1.ext_trig_mode = s.ext_trig_mode)
      ∧ (0 ≤ (imx273_set_gain env s val).1.priv.digital_gain
          ∧ (imx273_set_gain env s val).1.priv.digital_gain ≤ 480)
      ∧ (imx273_set_exposure env s val).1.priv
          = (set_exposure_time s (imx273_set_exposure env s val).1.priv.exposure_time).priv
      ∧ globals (imx273_set_exposure env s val).1 = globals s
      ∧ ((imx273_set_exposure env s val).1.priv.streaming = s.priv.streaming
          ∧ (imx273_set_exposure env s val).1.priv.sensor_mode = s.priv.sensor_mode
          ∧ (imx273_set_exposure env s val).1.sensor_mode = s.sensor_mode
          ∧ (imx273_set_exposure env s val).1.priv.sensor_ext_trig = s.priv.sensor_ext_trig
          ∧ (imx273_set_exposure env s val).1.priv.flash_output = s.priv.flash_output
          ∧ (imx273_set_exposure env s val).1.ext_trig_mode = s.ext_trig_mode)
      ∧ (29 ≤ (imx273_set_exposure env s val).1.priv.exposure_time
          ∧ (imx273_set_exposure env s val).1.priv.exposure_time ≤ 15110711) := by
  have hgp := set_gain_priv env s val
  have hgg := set_gain_globals env s val
  have hep := set_exposure_priv env s val
  have heg := set_exposure_globals env s val
  have hgs := set_gain_stored env s val
  have hes := set_exposure_stored env s val
  refine ⟨?_, ?_, hgg, ⟨?_, ?_, ?_, ?_, ?_, ?_⟩, ⟨Nat.zero_le _, ?_⟩, ?_, heg,
    ⟨?_, ?_, ?_, ?_, ?_, ?_⟩, ?_⟩
  · intro op hop
    have hl : (imx273_set_gain env s val).1.log
        = s.log
          ++ (role_write s.priv GAIN_HIGH
                (((if u32 val > 480 then 480 else u32 val) >>> 8) &&& 0xff)
              ++ role_write s.priv GAIN_LOW
                ((if u32 val > 480 then 480 else u32 val) &&& 0xff)) := by
      rw [set_gain_log, List.append_assoc]
      rfl
    rw [hl, List.drop_left, List.mem_append] at hop
    rcases hop with hop | hop
    · exact ⟨_, Or.inl (role_write_addr _ _ _ op hop)⟩
    · exact ⟨_, Or.inr (role_write_addr _ _ _ op hop)⟩
  · rw [hgs, hgp]
  · rw [hgp]; rfl
  · rw [hgp]; rfl
  · exact congrArg (fun g => g.1) hgg
  · rw [hgp]; rfl
  · rw [hgp]; rfl
  · exact congrArg (fun g => g.2.1) hgg
  · rw [hgs]
    split_ifs <;> omega
  · rw [hes, hep]
  · rw [hep]; rfl
  · rw [hep]; rfl
  · exact congrArg (fun g => g.1) heg
  · rw [hep]; rfl
  · rw [hep]; rfl
  · exact congrArg (fun g => g.2.1) heg
  · rw [hes]
    exact outer_clamp_range _

/-! ## Reset result and polled statuses -/

theorem error_status_ready (reg : Int) (h : u32 reg &&& 0x80 ≠ 0) : error_status reg = false := by
  unfold error_status
  exact decide_eq_false (fun c => h c.1)

theorem error_status_wait (reg : Int) (h : ¬ u32 reg &&& 0x80 ≠ 0) :
    error_status reg = decide (u32 reg &&& 0x01 ≠ 0) := by
  unfold error_status
  have h0 : u32 reg &&& 0x80 = 0 := not_not.mp h
  by_cases h1 : u32 reg &&& 0x01 ≠ 0
  · rw [decide_eq_true (And.intro h0 h1), decide_eq_true h1]
  · rw [decide_eq_false (fun c => h1 c.2), decide_eq_false h1]

theorem error_seen_iff (env : Env) :
    ∀ (k n0 : Nat), error_seen env n0 k = true
      ↔ ∃ j, j < k ∧ error_status (read_result (env (n0 + j))) = true := by
  intro k
  induction k with
  | zero =>
    intro n0
    simp [error_seen]
  | succ k ih =>
    intro n0
    rw [error_seen, Bool.or_eq_true, ih]
    constructor
    · rintro (h | ⟨j, hj, h⟩)
      · exact ⟨0, Nat.succ_pos k, h⟩
      · refine ⟨j + 1, by omega, ?_⟩
        rwa [show n0 + (j + 1) = n0 + 1 + j by omega]
    · rintro ⟨j, hj, h⟩
      cases j with
      | zero => exact Or.inl h
      | succ j =>
        refine Or.inr ⟨j, by omega, ?_⟩
        rwa [show n0 + 1 + j = n0 + (j + 1) by omega]

/-- One pass of the loop that ends it: the result is `- EIO` when the status
read shows the error bit without the ready bit, the previous `err` otherwise. -/
theorem poll_body_err (env : Env) (s : Sys) (err : Int) :
    (poll_body env s err).2.1
      = if error_status (read_result (env s.log.length)) = true then - EIO else err := by
  by_cases h7 : u32 (read_result (env s.log.length)) &&& 0x80 ≠ 0
  · rw [poll_body_ready env s err h7, error_status_ready _ h7]
    rfl
  · rw [poll_body_wait env s err h7, error_status_wait _ h7]
    by_cases h1 : u32 (read_result (env s.log.length)) &&& 0x01 ≠ 0
    · rw [decide_eq_true h1]
      show (if u32 (read_result (env s.log.length)) &&& 0x01 ≠ 0 then - EIO else err) = _
      rw [if_pos h1, if_pos rfl]
    · rw [decide_eq_false h1]
      show (if u32 (read_result (env s.log.length)) &&& 0x01 ≠ 0 then - EIO else err) = _
      rw [if_neg h1]
      rfl

/-- A ready status on the first poll ends the status loop at once, with the
initial `err`. -/
theorem status_poll_first_ready (env : Env) (n : Nat) (s : Sys) (err : Int)
    (h7 : u32 (read_result (env s.log.length)) &&& 0x80 ≠ 0) :
    status_poll env n s err = ((reg_read env s Dev.rom 0x0101).1, err) := by
  cases n with
  | zero =>
    simp only [status_poll]
    rw [poll_body_ready env s err h7]
  | succ n =>
    simp only [status_poll]
    rw [poll_body_ready env s err h7]
    rfl

/-- The result of the status loop: with `k` the number of polls issued, it
is `- EIO` when one of them shows the error bit without the ready bit, and the
initial `err` otherwise. -/
theorem status_poll_result (env : Env) :
    ∀ (n : Nat) (s : Sys) (err : Int),
      ∃ k : Nat, 1 ≤ k
        ∧ (status_poll env n s err).1.log
            = s.log ++ List.replicate k (BusOp.read Dev.rom 0x0101)
        ∧ (status_poll env n s err).2
            = if error_seen env s.log.length k = true then - EIO else err := by
  intro n
  induction n with
  | zero =>
    intro s err
    refine ⟨1, Nat.le_refl 1, ?_, ?_⟩
    · simp only [status_poll, poll_body_log]
      rfl
    · simp only [status_poll, poll_body_err, error_seen, Bool.or_false]
  | succ n ih =>
    intro s err
    by_cases hb : (poll_body env s err).2.2 = true
    · refine ⟨1, Nat.le_refl 1, ?_, ?_⟩
      · simp only [status_poll, if_pos hb, poll_body_log]
        rfl
      · simp only [status_poll, if_pos hb, poll_body_err, error_seen, Bool.or_false]
    · obtain ⟨k, hk, hlog, hres⟩ := ih (poll_body env s err).1 (poll_body env s err).2.1
      have hlen : (poll_body env s err).1.log.length = s.log.length + 1 := by
        rw [poll_body_log]
        simp
      refine ⟨k + 1, by omega, ?_, ?_⟩
      · simp only [status_poll, if_neg hb]
        rw [hlog, poll_body_log, List.append_assoc]
        rfl
      · simp only [status_poll, if_neg hb]
        rw [hres, hlen, poll_body_err, error_seen]
        by_cases h0 : error_status (read_result (env s.log.length)) = true
        · rw [h0, if_pos rfl, Bool.true_or, if_pos rfl]
          split_ifs <;> rfl
        · have h0f : error_status (read_result (env s.log.length)) = false := by
            simpa using h0
          simp only [h0f, Bool.false_or, Bool.false_eq_true, if_false]

/-- C30: with the bridge present, a mode code and the three writes
succeeding, let `k` be the number of status polls issued by `vc_mipi_reset`
(the last of them ends the loop) and let the status of poll `j` be the value
returned by the read that is transfer `log length + 3 + j` (the byte read,
when the bus does not fail).  The reset returns an error (`-EIO`) exactly
when one of these `k` statuses has bit 0 set and bit 7 clear, and 0
otherwise; a ready status on the first poll gives 0. -/
theorem C30_reset_result_from_statuses (env : Env) (s : Sys) (mode : Int)
    (hrom : s.priv.rom = true) (hmode : 0 ≤ mode)
    (hw1 : (env s.log.length).ret = 1) (hw2 : (env (s.log.length + 1)).ret = 1)
    (hw3 : (env (s.log.length + 2)).ret = 1) :
    ∃ k : Nat, 1 ≤ k
      ∧ (vc_mipi_reset env s mode).1.log
          = s.log
            ++ [BusOp.write Dev.rom 0x0100 2, BusOp.write Dev.rom 0x0102 (u8 mode),
                BusOp.write Dev.rom 0x0100 0]
            ++ List.replicate k (BusOp.read Dev.rom 0x0101)
      ∧ ((vc_mipi_reset env s mode).2 ≠ 0
          ↔ ∃ j, j < k
              ∧ u32 (read_result (env (s.log.length + 3 + j))) &&& 0x80 = 0
              ∧ u32 (read_result (env (s.log.length + 3 + j))) &&& 0x01 ≠ 0)
      ∧ ((vc_mipi_reset env s mode).2 = 0 ∨ (vc_mipi_reset env s mode).2 = - EIO)
      ∧ (u32 (read_result (env (s.log.length + 3))) &&& 0x80 ≠ 0 →
          (vc_mipi_reset env s mode).2 = 0)
      ∧ (∀ j : Nat, 0 ≤ (env j).ret →
          read_result (env j) = (((env j).buf0 % 256 : Nat) : Int)) := by
  rw [reset_reaches_poll env s mode hrom hmode hw1 hw2 hw3]
  obtain ⟨k, hk, hlog, hres⟩ := status_poll_result env (5 - s.try_).toNat
    (reg_write env (reg_write env (reg_write env s Dev.rom 0x0100 2).1 Dev.rom 0x0102
      (u8 mode)).1 Dev.rom 0x0100 0).1 0
  have hlen : (reg_write env (reg_write env (reg_write env s Dev.rom 0x0100 2).1 Dev.rom 0x0102
      (u8 mode)).1 Dev.rom 0x0100 0).1.log.length = s.log.length + 3 := by
    simp
  rw [hlen] at hres
  have hiff : error_seen env (s.log.length + 3) k = true
      ↔ ∃ j, j < k
          ∧ u32 (read_result (env (s.log.length + 3 + j))) &&& 0x80 = 0
          ∧ u32 (read_result (env (s.log.length + 3 + j))) &&& 0x01 ≠ 0 := by
    rw [error_seen_iff]
    constructor
    · rintro ⟨j, hj, h⟩
      exact ⟨j, hj, of_decide_eq_true h⟩
    · rintro ⟨j, hj, h⟩
      exact ⟨j, hj, decide_eq_true h⟩
  refine ⟨k, hk, ?_, ?_, ?_, ?_, ?_⟩
  · show (status_poll env _ _ 0).1.log = _
    rw [hlog, reset_writes_log]
  · show (status_poll env _ _ 0).2 ≠ 0 ↔ _
    rw [hres, ← hiff]
    by_cases he : error_seen env (s.log.length + 3) k = true
    · rw [if_pos he]
      exact ⟨fun _ => he, fun _ => by decide⟩
    · rw [if_neg he]
      exact ⟨fun c => absurd rfl c, fun c => absurd c he⟩
  · show (status_poll env _ _ 0).2 = 0 ∨ (status_poll env _ _ 0).2 = - EIO
    rw [hres]
    split_ifs
    · exact Or.inr rfl
    · exact Or.inl rfl
  · intro h7
    show (status_poll env _ _ 0).2 = 0
    rw [status_poll_first_ready env _
      (reg_write env (reg_write env (reg_write env s Dev.rom 0x0100 2).1 Dev.rom 0x0102
        (u8 mode)).1 Dev.rom 0x0100 0).1 0 (by rw [hlen]; exact h7)]
  · intro j hj
    unfold read_result
    rw [if_neg (not_lt.mpr hj)]

/-- C30 (witness): on a bus whose first status poll shows the error bit
(`0x01`) and whose second shows ready (`0x80`), the reset fails. -/
theorem C30_reset_result_from_statuses_witness :
    sys0.priv.rom = true ∧ (0 : Int) ≤ 1
      ∧ (vc_mipi_reset envErrorThenReady sys0 1).2 = - EIO
      ∧ ∃ k : Nat, 1 ≤ k
          ∧ (vc_mipi_reset envErrorThenReady sys0 1).1.log
              = sys0.log
                ++ [BusOp.write Dev.rom 0x0100 2, BusOp.write Dev.rom 0x0102 (u8 1),
                    BusOp.write Dev.rom 0x0100 0]
                ++ List.replicate k (BusOp.read Dev.rom 0x0101)
          ∧ ((vc_mipi_reset envErrorThenReady sys0 1).2 ≠ 0
              ↔ ∃ j, j < k
                  ∧ u32 (read_result (envErrorThenReady (sys0.log.length + 3 + j))) &&& 0x80 = 0
                  ∧ u32 (read_result (envErrorThenReady (sys0.log.length + 3 + j))) &&& 0x01
                      ≠ 0)
          ∧ ((vc_mipi_reset envErrorThenReady sys0 1).2 = 0
              ∨ (vc_mipi_reset envErrorThenReady sys0 1).2 = - EIO)
          ∧ (u32 (read_result (envErrorThenReady (sys0.log.length + 3))) &&& 0x80 ≠ 0 →
              (vc_mipi_reset envErrorThenReady sys0 1).2 = 0)
          ∧ (∀ j : Nat, 0 ≤ (envErrorThenReady j).ret →
              read_result (envErrorThenReady j)
                = (((envErrorThenReady j).buf0 % 256 : Nat) : Int)) :=
  ⟨rfl, by decide, by decide,
    C30_reset_result_from_statuses envErrorThenReady sys0 1 rfl (by decide) (by decide)
      (by decide) (by decide)⟩

/-! ## Streaming stop -/

/-- The function `imx273_stop_streaming` in terms of its three fallible
steps. -/
theorem stop_streaming_eq (env : Env) (s : Sys) :
    imx273_stop_streaming env s
      = if (stop_reset1 env s).2 ≠ 0 then stop_reset1 env s
        else if (stop_reset2 env s).2 ≠ 0 then stop_reset2 env s
        else if (stop_table env s).2 ≠ 0 then stop_table env s
        else (set_streaming (stop_table env s).1 false, (stop_table env s).2) := rfl

theorem trigmode_off_log (env : Env) (s : Sys) :
    (vc_mipi_common_trigmode_write env s 0 0 0 0 0).1.log
      = s.log ++ [BusOp.write Dev.rom 0x0108 0, BusOp.write Dev.rom 0x0103 0] := by
  simp [vc_mipi_common_trigmode_write]

theorem trigmode_off_priv (env : Env) (s : Sys) :
    (vc_mipi_common_trigmode_write env s 0 0 0 0 0).1.priv = s.priv := by
  simp [vc_mipi_common_trigmode_write]

theorem write_table_stop (env : Env) (s : Sys) :
    (imx273_write_table env s (imx273_mode_table IMX273_MODE_STOP_STREAM)).1.log
        = s.log ++ [BusOp.regmap_write 0x7000 0x00]
      ∧ (imx273_write_table env s (imx273_mode_table IMX273_MODE_STOP_STREAM)).2
        = (env s.log.length).ret := by
  have ht : imx273_mode_table IMX273_MODE_STOP_STREAM = imx273_stop := by decide
  rw [ht]
  simp only [imx273_write_table, imx273_stop, regmap_write, IMX273_TABLE_END,
    IMX273_TABLE_WAIT_MS]
  split_ifs <;> simp_all

theorem stop_table_priv (env : Env) (s : Sys) : (stop_table env s).1.priv = s.priv := by
  unfold stop_table stop_reset2 stop_reset1
  rw [write_table_priv, trigmode_off_priv, reset_priv, reset_priv]

/-- A reset with a mode code whose three writes succeed and whose first status
poll shows ready: four transfers, result 0. -/
theorem reset_ready (env : Env) (s : Sys) (mode : Int)
    (hrom : s.priv.rom = true) (hmode : 0 ≤ mode)
    (hw1 : (env s.log.length).ret = 1) (hw2 : (env (s.log.length + 1)).ret = 1)
    (hw3 : (env (s.log.length + 2)).ret = 1)
    (h7 : u32 (read_result (env (s.log.length + 3))) &&& 0x80 ≠ 0) :
    (vc_mipi_reset env s mode).1.log
        = s.log
          ++ [BusOp.write Dev.rom 0x0100 2, BusOp.write Dev.rom 0x0102 (u8 mode),
              BusOp.write Dev.rom 0x0100 0, BusOp.read Dev.rom 0x0101]
      ∧ (vc_mipi_reset env s mode).2 = 0 := by
  have hlen : (reg_write env (reg_write env (reg_write env s Dev.rom 0x0100 2).1 Dev.rom 0x0102
      (u8 mode)).1 Dev.rom 0x0100 0).1.log.length = s.log.length + 3 := by
    simp
  rw [reset_reaches_poll env s mode hrom hmode hw1 hw2 hw3,
    status_poll_first_ready env _
      (reg_write env (reg_write env (reg_write env s Dev.rom 0x0100 2).1 Dev.rom 0x0102
        (u8 mode)).1 Dev.rom 0x0100 0).1 0 (by rw [hlen]; exact h7)]
  constructor
  · show (reg_read env _ Dev.rom 0x0101).1.log = _
    rw [reg_read_log, reset_writes_log]
    simp
  · rfl

/-- C23: `imx273_stop_streaming` returns the error of the teardown reset, of
the reset with the current mode code, or of the stream-off table write,
whichever fails first, and then leaves the streaming flag as it was; when all
three succeed it returns 0 and clears the streaming flag.  With the bridge
present, a non-negative mode code, the reset writes succeeding, the status
poll showing ready and the stream-off write succeeding, the transfers are, in
order: `0x0100 <- 2` and a status read (teardown), `0x0100 <- 2`,
`0x0102 <- mode code`, `0x0100 <- 0` and the status poll, `0x0108 <- 0`,
`0x0103 <- 0` (trigger disable), `0x7000 <- 0` (stream off). -/
theorem C23_stop_streaming_sequence (env : Env) (s : Sys) :
    ((stop_reset1 env s).2 ≠ 0 →
        (imx273_stop_streaming env s).2 = (stop_reset1 env s).2
          ∧ (imx273_stop_streaming env s).1.priv.streaming = s.priv.streaming)
      ∧ ((stop_reset1 env s).2 = 0 → (stop_reset2 env s).2 ≠ 0 →
          (imx273_stop_streaming env s).2 = (stop_reset2 env s).2
            ∧ (imx273_stop_streaming env s).1.priv.streaming = s.priv.streaming)
      ∧ ((stop_reset1 env s).2 = 0 → (stop_reset2 env s).2 = 0 → (stop_table env s).2 ≠ 0 →
          (imx273_stop_streaming env s).2 = (stop_table env s).2
            ∧ (imx273_stop_streaming env s).1.priv.streaming = s.priv.streaming)
      ∧ ((stop_reset1 env s).2 = 0 → (stop_reset2 env s).2 = 0 → (stop_table env s).2 = 0 →
          (imx273_stop_streaming env s).2 = 0
            ∧ (imx273_stop_streaming env s).1.priv.streaming = false)
      ∧ (s.priv.rom = true → 0 ≤ s.sensor_mode →
          (env s.log.length).ret = 1 → (env (s.log.length + 2)).ret = 1 →
          (env (s.log.length + 3)).ret = 1 → (env (s.log.length + 4)).ret = 1 →
          u32 (read_result (env (s.log.length + 5))) &&& 0x80 ≠ 0 →
          (env (s.log.length + 8)).ret = 0 →
          (imx273_stop_streaming env s).1.log
              = s.log
                ++ [BusOp.write Dev.rom 0x0100 2, BusOp.read Dev.rom 0x0101,
                    BusOp.write Dev.rom 0x0100 2, BusOp.write Dev.rom 0x0102 (u8 s.sensor_mode),
                    BusOp.write Dev.rom 0x0100 0, BusOp.read Dev.rom 0x0101,
                    BusOp.write Dev.rom 0x0108 0, BusOp.write Dev.rom 0x0103 0,
                    BusOp.regmap_write 0x7000 0x00]
            ∧ (imx273_stop_streaming env s).2 = 0
            ∧ (imx273_stop_streaming env s).1.priv.streaming = false) := by
  have hp1 : (stop_reset1 env s).1.priv = s.priv := reset_priv env s (-1)
  have hp2 : (stop_reset2 env s).1.priv = s.priv := by
    unfold stop_reset2
    rw [reset_priv]
    exact hp1
  have hp3 := stop_table_priv env s
  have part1 : (stop_reset1 env s).2 ≠ 0 →
      (imx273_stop_streaming env s).2 = (stop_reset1 env s).2
        ∧ (imx273_stop_streaming env s).1.priv.streaming = s.priv.streaming := by
    intro h1
    rw [stop_streaming_eq, if_pos h1, hp1]
    exact ⟨rfl, rfl⟩
  have part2 : (stop_reset1 env s).2 = 0 → (stop_reset2 env s).2 ≠ 0 →
      (imx273_stop_streaming env s).2 = (stop_reset2 env s).2
        ∧ (imx273_stop_streaming env s).1.priv.streaming = s.priv.streaming := by
    intro h1 h2
    rw [stop_streaming_eq, if_neg (not_not.mpr h1), if_pos h2, hp2]
    exact ⟨rfl, rfl⟩
  have part3 : (stop_reset1 env s).2 = 0 → (stop_reset2 env s).2 = 0 →
      (stop_table env s).2 ≠ 0 →
      (imx273_stop_streaming env s).2 = (stop_table env s).2
        ∧ (imx273_stop_streaming env s).1.priv.streaming = s.priv.streaming := by
    intro h1 h2 h3
    rw [stop_streaming_eq, if_neg (not_not.mpr h1), if_neg (not_not.mpr h2), if_pos h3, hp3]
    exact ⟨rfl, rfl⟩
  have part4 : (stop_reset1 env s).2 = 0 → (stop_reset2 env s).2 = 0 →
      (stop_table env s).2 = 0 →
      (imx273_stop_streaming env s).2 = 0
        ∧ (imx273_stop_streaming env s).1.priv.streaming = false := by
    intro h1 h2 h3
    rw [stop_streaming_eq, if_neg (not_not.mpr h1), if_neg (not_not.mpr h2),
      if_neg (not_not.mpr h3)]
    exact ⟨h3, rfl⟩
  refine ⟨part1, part2, part3, part4, ?_⟩
  intro hrom hmode hw0 hw2 hw3 hw4 h7 hw8
  have ht := reset_teardown env s (-1) hrom (by decide)
  have hl1 : (stop_reset1 env s).1.log
      = s.log ++ [BusOp.write Dev.rom 0x0100 2, BusOp.read Dev.rom 0x0101] := by
    have := ht.1
    rw [if_pos hw0, List.append_assoc] at this
    exact this
  have hr1 : (stop_reset1 env s).2 = 0 := ht.2.1 hw0
  have hlen1 : (stop_reset1 env s).1.log.length = s.log.length + 2 := by
    rw [hl1]
    simp
  have hm1 : (stop_reset1 env s).1.sensor_mode = s.sensor_mode := reset_sensor_mode env s (-1)
  have hrd := reset_ready env (stop_reset1 env s).1 (stop_reset1 env s).1.sensor_mode
    (by rw [hp1]; exact hrom) (by rw [hm1]; exact hmode)
    (by rw [hlen1]; exact hw2)
    (by rw [hlen1]; exact hw3)
    (by rw [hlen1]; exact hw4)
    (by rw [hlen1]; exact h7)
  have hl2 : (stop_reset2 env s).1.log
      = s.log
        ++ [BusOp.write Dev.rom 0x0100 2, BusOp.read Dev.rom 0x0101,
            BusOp.write Dev.rom 0x0100 2, BusOp.write Dev.rom 0x0102 (u8 s.sensor_mode),
            BusOp.write Dev.rom 0x0100 0, BusOp.read Dev.rom 0x0101] := by
    unfold stop_reset2
    rw [hrd.1, hl1, hm1, List.append_assoc]
    rfl
  have hr2 : (stop_reset2 env s).2 = 0 := hrd.2
  have hlen3 : (vc_mipi_common_trigmode_write env (stop_reset2 env s).1 0 0 0 0 0).1.log.length
      = s.log.length + 8 := by
    rw [trigmode_off_log, hl2]
    simp
  have hl3 : (stop_table env s).1.log
      = s.log
        ++ [BusOp.write Dev.rom 0x0100 2, BusOp.read Dev.rom 0x0101,
            BusOp.write Dev.rom 0x0100 2, BusOp.write Dev.rom 0x0102 (u8 s.sensor_mode),
            BusOp.write Dev.rom 0x0100 0, BusOp.read Dev.rom 0x0101,
            BusOp.write Dev.rom 0x0108 0, BusOp.write Dev.rom 0x0103 0,
            BusOp.regmap_write 0x7000 0x00] := by
    unfold stop_table
    rw [(write_table_stop env _).1, trigmode_off_log, hl2]
    simp
  have hr3 : (stop_table env s).2 = 0 := by
    unfold stop_table
    rw [(write_table_stop env _).2, hlen3]
    exact hw8
  refine ⟨?_, (part4 hr1 hr2 hr3).1, (part4 hr1 hr2 hr3).2⟩
  rw [stop_streaming_eq, if_neg (not_not.mpr hr1), if_neg (not_not.mpr hr2),
    if_neg (not_not.mpr hr3)]
  exact hl3

/-- C23 (witness): the streaming sample device on a bus where every transfer
succeeds and the status poll shows ready. -/
theorem C23_stop_streaming_sequence_witness :
    sysStreaming.priv.rom = true ∧ 0 ≤ sysStreaming.sensor_mode
      ∧ sysStreaming.priv.streaming = true
      ∧ (imx273_stop_streaming envStop sysStreaming).1.log
          = sysStreaming.log
            ++ [BusOp.write Dev.rom 0x0100 2, BusOp.read Dev.rom 0x0101,
                BusOp.write Dev.rom 0x0100 2,
                BusOp.write Dev.rom 0x0102 (u8 sysStreaming.sensor_mode),
                BusOp.write Dev.rom 0x0100 0, BusOp.read Dev.rom 0x0101,
                BusOp.write Dev.rom 0x0108 0, BusOp.write Dev.rom 0x0103 0,
                BusOp.regmap_write 0x7000 0x00]
      ∧ (imx273_stop_streaming envStop sysStreaming).2 = 0
      ∧ (imx273_stop_streaming envStop sysStreaming).1.priv.streaming = false :=
  ⟨rfl, by decide, rfl,
    (C23_stop_streaming_sequence envStop sysStreaming).2.2.2.2 rfl (by decide) (by decide)
      (by decide) (by decide) (by decide) (by decide) (by decide)⟩

/-! ## Streaming start: trigger configuration -/

/-- The function `imx273_start_streaming` in terms of the state left by its
control calls. -/
theorem start_streaming_eq (env : Env) (s : Sys) :
    imx273_start_streaming env s
      = if (trigger_config env (ctrl_state env s)).2 ≠ 0 then
          ((trigger_config env (ctrl_state env s)).1, 0)
        else stream_on env (trigger_config env (ctrl_state env s)).1 := rfl

theorem set_exposure_time_priv_frame (s : Sys) (e : Nat) :
    (set_exposure_time s e).priv.sensor_ext_trig = s.priv.sensor_ext_trig
      ∧ (set_exposure_time s e).priv.flash_output = s.priv.flash_output
      ∧ (set_exposure_time s e).priv.sen_clk = s.priv.sen_clk := ⟨rfl, rfl, rfl⟩

theorem ctrl_state_priv (env : Env) (s : Sys) :
    (ctrl_state env s).priv.sensor_ext_trig = s.priv.sensor_ext_trig
      ∧ (ctrl_state env s).priv.flash_output = s.priv.flash_output
      ∧ (ctrl_state env s).priv.sen_clk = s.priv.sen_clk := by
  unfold ctrl_state
  rw [set_exposure_priv]
  have hg := set_gain_priv env s (s.priv.digital_gain : Int)
  generalize (imx273_set_gain env s (s.priv.digital_gain : Int)).1 = s1 at hg ⊢
  obtain ⟨h1, h2, h3⟩ := set_exposure_time_priv_frame s1
    (outer_clamp (u32 (s1.priv.exposure_time : Int)))
  rw [h1, h2, h3, hg]
  exact ⟨rfl, rfl, rfl⟩

theorem on_sensor_not_shutter (op : BusOp) (h : on_sensor op = true) :
    is_shutter_write op = false := by
  cases op with
  | write d a v =>
    cases d with
    | sensor => rfl
    | rom => cases h
  | read d a => rfl
  | regmap_write a v => rfl

theorem role_write_on_sensor (p : imx273) (role data : Nat) :
    ∀ op ∈ role_write p role data, on_sensor op = true := by
  intro op hop
  rw [role_write_addr p role data op hop]
  rfl

theorem vmax_writes_on_sensor (base v : Nat) :
    ∀ op ∈ vmax_writes base v, on_sensor op = true := by
  intro op hop
  simp only [vmax_writes, List.mem_cons, List.mem_singleton, List.not_mem_nil, or_false] at hop
  rcases hop with h | h | h <;> rw [h] <;> rfl

theorem vmax_reads_on_sensor (base : Nat) :
    ∀ op ∈ vmax_reads base, on_sensor op = true := by
  intro op hop
  simp only [vmax_reads, List.mem_cons, List.mem_singleton, List.not_mem_nil, or_false] at hop
  rcases hop with h | h | h <;> rw [h] <;> rfl

/-- The transfers of `imx273_set_gain` extend the log and address the sensor. -/
theorem set_gain_ops (env : Env) (s : Sys) (val : Int) :
    ∃ ops : List BusOp, (imx273_set_gain env s val).1.log = s.log ++ ops
      ∧ ∀ op ∈ ops, on_sensor op = true := by
  refine ⟨role_write s.priv GAIN_HIGH
            (((if u32 val > 480 then 480 else u32 val) >>> 8) &&& 0xff)
          ++ role_write s.priv GAIN_LOW
            ((if u32 val > 480 then 480 else u32 val) &&& 0xff), ?_, ?_⟩
  · rw [set_gain_log, List.append_assoc]
    rfl
  · intro op hop
    rw [List.mem_append] at hop
    rcases hop with hop | hop
    · exact role_write_on_sensor _ _ _ op hop
    · exact role_write_on_sensor _ _ _ op hop

/-- The transfers of `imx273_set_exposure` extend the log; in free-run mode
they address the sensor. -/
theorem set_exposure_ops (env : Env) (s : Sys) (val : Int) :
    ∃ ops : List BusOp, (imx273_set_exposure env s val).1.log = s.log ++ ops
      ∧ (s.priv.sensor_ext_trig = 0 → ∀ op ∈ ops, on_sensor op = true) := by
  by_cases h : s.priv.sensor_ext_trig = 0
  · refine ⟨_, by rw [set_exposure_freerun_log env s val h, List.append_assoc], ?_⟩
    intro _ op hop
    rw [List.mem_append] at hop
    rcases hop with hop | hop
    · exact vmax_reads_on_sensor _ op hop
    · split_ifs at hop
      · simp only [short_writes, List.mem_append] at hop
        rcases hop with ((hop | hop) | hop) | hop
        · exact vmax_writes_on_sensor _ _ op hop
        · exact role_write_on_sensor _ _ _ op hop
        · exact role_write_on_sensor _ _ _ op hop
        · exact role_write_on_sensor _ _ _ op hop
      · simp only [long_writes, List.mem_append] at hop
        rcases hop with ((hop | hop) | hop) | hop
        · exact role_write_on_sensor _ _ _ op hop
        · exact role_write_on_sensor _ _ _ op hop
        · exact role_write_on_sensor _ _ _ op hop
        · exact vmax_writes_on_sensor _ _ op hop
  · exact ⟨_, set_exposure_trig_log env s val h, fun c => absurd c h⟩

/-- The transfers of the control calls of `imx273_start_streaming` extend the
log; in free-run mode they address the sensor. -/
theorem ctrl_state_ops (env : Env) (s : Sys) :
    ∃ ctrl : List BusOp, (ctrl_state env s).log = s.log ++ ctrl
      ∧ (s.priv.sensor_ext_trig = 0 → ∀ op ∈ ctrl, on_sensor op = true) := by
  obtain ⟨g, hg, hgs⟩ := set_gain_ops env s (s.priv.digital_gain : Int)
  obtain ⟨e, he, hes⟩ := set_exposure_ops env (imx273_set_gain env s (s.priv.digital_gain : Int)).1
    ((imx273_set_gain env s (s.priv.digital_gain : Int)).1.priv.exposure_time : Int)
  have ht : (imx273_set_gain env s (s.priv.digital_gain : Int)).1.priv.sensor_ext_trig
      = s.priv.sensor_ext_trig := by
    rw [set_gain_priv]
    rfl
  refine ⟨g ++ e, ?_, ?_⟩
  · unfold ctrl_state
    rw [he, hg, List.append_assoc]
  · intro h op hop
    rw [List.mem_append] at hop
    rcases hop with hop | hop
    · exact hgs op hop
    · exact hes (by rw [ht]; exact h) op hop

theorem trigger_config_off_log (env : Env) (s : Sys) (h : s.priv.sensor_ext_trig = 0) :
    (trigger_config env s).1.log
      = s.log
        ++ [BusOp.write Dev.rom 0x0108 0, BusOp.write Dev.rom 0x0103 (u8 s.priv.flash_output)] := by
  simp [trigger_config, h, u8_mod]

/-- The trigger-configuration block returns 0 when its writes succeed. -/
theorem trigger_config_ok (env : Env) (s : Sys)
    (h : ∀ i, i < 6 → (env (s.log.length + i)).ret = 1) :
    (trigger_config env s).2 = 0 := by
  have h0 : (env s.log.length).ret = 1 := h 0 (by decide)
  have h1 := h 1 (by decide)
  have h2 := h 2 (by decide)
  have h3 := h 3 (by decide)
  have h4 := h 4 (by decide)
  have h5 := h 5 (by decide)
  by_cases ht : s.priv.sensor_ext_trig = 0
  · simp [trigger_config, reg_write, ht, h0, h1]
  · simp [trigger_config, write_shutter, reg_write, ht, h0, h1, h2, h3, h4, h5]

theorem shutter_writes_mod (x : Nat) : shutter_writes (x % 4294967296) = shutter_writes x := by
  unfold shutter_writes
  simp only [and_ff_eq_mod, Nat.shiftRight_eq_div_pow]
  have e0 : x % 4294967296 % 256 = x % 256 := by omega
  have e1 : x % 4294967296 / 2 ^ 8 % 256 = x / 2 ^ 8 % 256 := by
    norm_num
    omega
  have e2 : x % 4294967296 / 2 ^ 16 % 256 = x / 2 ^ 16 % 256 := by
    norm_num
    omega
  have e3 : x % 4294967296 / 2 ^ 24 % 256 = x / 2 ^ 24 % 256 := by
    norm_num
    omega
  rw [e0, e1, e2, e3]

/-- The transfers of `imx273_start_streaming`: those of the trigger
configuration, then the stream-on write when the configuration block
returned 0. -/
theorem start_streaming_tail (env : Env) (s : Sys) :
    ∃ tail : List BusOp,
      (tail = [] ∨ tail = [BusOp.regmap_write 0x7000 0x01])
        ∧ ((trigger_config env (ctrl_state env s)).2 = 0 →
            tail = [BusOp.regmap_write 0x7000 0x01])
        ∧ (imx273_start_streaming env s).1.log
            = (trigger_config env (ctrl_state env s)).1.log ++ tail := by
  rw [start_streaming_eq]
  by_cases hz : (trigger_config env (ctrl_state env s)).2 ≠ 0
  · refine ⟨[], Or.inl rfl, fun c => absurd c hz, ?_⟩
    rw [if_pos hz, List.append_nil]
  · refine ⟨[BusOp.regmap_write 0x7000 0x01], Or.inr rfl, fun _ => rfl, ?_⟩
    rw [if_neg hz, stream_on_log]

/-- C22: the transfers of `imx273_start_streaming` are those of its gain and
exposure control calls, then `0x0108 <- 0` when the trigger is disabled and
`0x0108 <- priv->sensor_ext_trig` when it is enabled, then
`0x0103 <- priv->flash_output`, then, only when the trigger is enabled, the
four bytes of `exposure_time * (sen_clk / 1000000)` to `0x0109..0x010C`, LSB
first, then at most the stream-on write `0x7000 <- 1`, which is issued when
the configuration block returned 0, in particular when its writes succeed.
With the trigger disabled no transfer of the call is a write to
`0x0109..0x010C`. -/
theorem C22_trigger_configuration (env : Env) (s : Sys) :
    (∃ ctrl : List BusOp, (ctrl_state env s).log = s.log ++ ctrl)
      ∧ (∃ tail : List BusOp,
          (tail = [] ∨ tail = [BusOp.regmap_write 0x7000 0x01])
            ∧ ((trigger_config env (ctrl_state env s)).2 = 0 →
                tail = [BusOp.regmap_write 0x7000 0x01])
            ∧ (s.priv.sensor_ext_trig = 0 →
                (imx273_start_streaming env s).1.log
                  = (ctrl_state env s).log
                    ++ [BusOp.write Dev.rom 0x0108 0,
                        BusOp.write Dev.rom 0x0103 (u8 s.priv.flash_output)]
                    ++ tail)
            ∧ (s.priv.sensor_ext_trig ≠ 0 →
                (imx273_start_streaming env s).1.log
                  = (ctrl_state env s).log
                    ++ [BusOp.write Dev.rom 0x0108 (u8 s.priv.sensor_ext_trig),
                        BusOp.write Dev.rom 0x0103 (u8 s.priv.flash_output)]
                    ++ shutter_writes
                        (trig_exposure (ctrl_state env s).priv.exposure_time s.priv.sen_clk)
                    ++ tail))
      ∧ (s.priv.sensor_ext_trig = 0 →
          ∀ op ∈ (imx273_start_streaming env s).1.log.drop s.log.length,
            is_shutter_write op = false)
      ∧ ((∀ i, i < 6 → (env ((ctrl_state env s).log.length + i)).ret = 1) →
          (trigger_config env (ctrl_state env s)).2 = 0)
      ∧ (∀ e : Nat, 0 ≤ s.priv.sen_clk → s.priv.sen_clk < 2147483648 →
          shutter_writes (trig_exposure e s.priv.sen_clk)
            = shutter_writes (spec_ticks e s.priv.sen_clk.toNat)) := by
  obtain ⟨ctrl, hctrl, hsens⟩ := ctrl_state_ops env s
  obtain ⟨ht, hf, hc⟩ := ctrl_state_priv env s
  obtain ⟨tail, htail, hzero, hlog⟩ := start_streaming_tail env s
  have hoff : s.priv.sensor_ext_trig = 0 →
      (imx273_start_streaming env s).1.log
        = (ctrl_state env s).log
          ++ [BusOp.write Dev.rom 0x0108 0, BusOp.write Dev.rom 0x0103 (u8 s.priv.flash_output)]
          ++ tail := by
    intro h
    rw [hlog, trigger_config_off_log env (ctrl_state env s) (by rw [ht]; exact h), hf]
  refine ⟨⟨ctrl, hctrl⟩, ⟨tail, htail, hzero, hoff, ?_⟩, ?_,
    fun h => trigger_config_ok env (ctrl_state env s) h, ?_⟩
  · intro h
    rw [hlog, trigger_config_trig_log env (ctrl_state env s) (by rw [ht]; exact h), ht, hf, hc]
  · intro h op hop
    rw [hoff h, hctrl, List.append_assoc, List.append_assoc, List.drop_left] at hop
    rw [List.mem_append, List.mem_append] at hop
    rcases hop with hop | hop | hop
    · exact on_sensor_not_shutter op (hsens h op hop)
    · simp only [List.mem_cons, List.mem_singleton, List.not_mem_nil, or_false] at hop
      rcases hop with hop | hop <;> rw [hop] <;> rfl
    · rcases htail with e | e
      · rw [e] at hop
        simp at hop
      · rw [e] at hop
        simp only [List.mem_singleton] at hop
        rw [hop]
        rfl
  · intro e h0 h1
    rw [trig_exposure_eq e s.priv.sen_clk h0 h1, shutter_writes_mod]

/-- C22 (witness): the sample device in trigger mode on a bus where every
write succeeds: `0x0108 <- 1`, `0x0103 <- 0`, the four bytes of
`10000 * 54 = 540000` LSB first, then the stream-on write. -/
theorem C22_trigger_configuration_witness :
    sysTrig.priv.sensor_ext_trig ≠ 0
      ∧ (0 : Int) ≤ sysTrig.priv.sen_clk ∧ sysTrig.priv.sen_clk < 2147483648
      ∧ shutter_writes (trig_exposure 10000 sysTrig.priv.sen_clk)
          = shutter_writes (spec_ticks 10000 sysTrig.priv.sen_clk.toNat)
      ∧ (imx273_start_streaming envOk sysTrig).1.log.drop
            (ctrl_state envOk sysTrig).log.length
          = [BusOp.write Dev.rom 0x0108 1, BusOp.write Dev.rom 0x0103 0,
             BusOp.write Dev.rom 0x0109 0x60, BusOp.write Dev.rom 0x010A 0x3D,
             BusOp.write Dev.rom 0x010B 0x08, BusOp.write Dev.rom 0x010C 0x00,
             BusOp.regmap_write 0x7000 0x01] :=
  ⟨by decide, by decide, by decide,
    (C22_trigger_configuration envOk sysTrig).2.2.2.2 10000 (by decide) (by decide),
    by decide⟩

/-! ## Attach: lane count and initial mode code -/

theorem ite_pair (r : Sys × Int) : (if r.2 ≠ 0 then (r.1, r.2) else (r.1, 0)) = r := by
  by_cases h : r.2 ≠ 0
  · rw [if_pos h]
  · rw [if_neg h]
    exact Prod.ext rfl (not_not.mp h).symm

/-- With clock and power up, a lane count other than 2 or 4 ends
`imx273_board_setup` with `-EINVAL` right after the lane count is stored. -/
theorem board_setup_bad_lanes (env : Env) (s : Sys) (inp : board_inputs)
    (hm : inp.mclk_name = true → inp.mclk_err = 0) (hp : inp.power_err = 0)
    (h2 : inp.num_lanes ≠ 2) (h4 : inp.num_lanes ≠ 4) :
    imx273_board_setup env s inp = (set_num_lanes s inp.num_lanes, - EINVAL) := by
  have c1 : ¬ (inp.mclk_name = true ∧ inp.mclk_err ≠ 0) := fun h => h.2 (hm h.1)
  have c2 : ¬ inp.power_err ≠ 0 := not_not.mpr hp
  have c3 : (set_num_lanes s inp.num_lanes).priv.num_lanes ≠ 2
      ∧ (set_num_lanes s inp.num_lanes).priv.num_lanes ≠ 4 := ⟨h2, h4⟩
  unfold imx273_board_setup
  rw [if_neg c1, if_neg c2]
  simp only []
  rw [if_pos c3]

/-- When the model is accepted, `board_setup_check` is the reset, with the
mode code `sensor_mode` (plus 3 when `ext_trig_mode >= 1`), of a state that
holds this code in `sensor_mode` and in `priv->sensor_mode`. -/
theorem board_setup_check_accept (env : Env) (s : Sys) (bytes : List Nat)
    (hacc : check_model (desc_sen_type bytes) (desc_mod_id bytes) ≠ imx_model.IMX_MODEL_NONE) :
    ∃ T : Sys,
      T.priv.sensor_mode = s.sensor_mode + (if s.ext_trig_mode ≥ 1 then 3 else 0)
        ∧ T.sensor_mode = s.sensor_mode + (if s.ext_trig_mode ≥ 1 then 3 else 0)
        ∧ T.log = s.log ∧ T.priv.rom = s.priv.rom
        ∧ board_setup_check env s bytes
            = vc_mipi_reset env T (s.sensor_mode + (if s.ext_trig_mode ≥ 1 then 3 else 0)) := by
  have hacc1 : ¬ (set_model (store_rom_table s bytes)
      (check_model (store_rom_table s bytes).priv.sen_type
        (store_rom_table s bytes).priv.mod_id)).priv.model = imx_model.IMX_MODEL_NONE := hacc
  by_cases ht : s.ext_trig_mode ≥ 1
  · have ht1 : (set_model (store_rom_table s bytes)
        (check_model (store_rom_table s bytes).priv.sen_type
          (store_rom_table s bytes).priv.mod_id)).ext_trig_mode ≥ 1 := ht
    refine ⟨set_priv_sensor_mode
        (set_sensor_mode (set_model (store_rom_table s bytes)
          (check_model (store_rom_table s bytes).priv.sen_type
            (store_rom_table s bytes).priv.mod_id)) (s.sensor_mode + 3)) (s.sensor_mode + 3),
      ?_, ?_, rfl, rfl, ?_⟩
    · rw [if_pos ht]
      rfl
    · rw [if_pos ht]
      rfl
    · rw [if_pos ht]
      unfold board_setup_check
      simp only []
      rw [if_neg hacc1, if_pos ht1]
      exact ite_pair _
  · have ht1 : ¬ (set_model (store_rom_table s bytes)
        (check_model (store_rom_table s bytes).priv.sen_type
          (store_rom_table s bytes).priv.mod_id)).ext_trig_mode ≥ 1 := ht
    refine ⟨set_priv_sensor_mode
        (set_model (store_rom_table s bytes)
          (check_model (store_rom_table s bytes).priv.sen_type
            (store_rom_table s bytes).priv.mod_id)) s.sensor_mode,
      ?_, ?_, rfl, rfl, ?_⟩
    · rw [if_neg ht, Int.add_zero]
      rfl
    · rw [if_neg ht, Int.add_zero]
      rfl
    · rw [if_neg ht, Int.add_zero]
      unfold board_setup_check
      simp only []
      rw [if_neg hacc1, if_neg ht1]
      exact ite_pair _

theorem attach_mode_code_cases (l t : Int) (hl : l = 2 ∨ l = 4) :
    attach_mode_code l t = 1 ∨ attach_mode_code l t = 4 ∨ attach_mode_code l t = 7
      ∨ attach_mode_code l t = 10 := by
  unfold attach_mode_code
  rcases hl with h | h <;> rw [h] <;> by_cases ht : t ≥ 1
  · rw [if_pos rfl, if_pos ht]
    decide
  · rw [if_pos rfl, if_neg ht]
    decide
  · rw [if_neg (by decide), if_pos ht]
    decide
  · rw [if_neg (by decide), if_neg ht]
    decide

/-- C26: with clock and power up, a lane count other than 2 or 4 makes
`imx273_board_setup` return `-EINVAL` without any bus transfer.  With valid
inputs, a readable descriptor and an accepted model, the mode code stored in
`priv->sensor_mode` and in `sensor_mode` and written to `0x0102` by the reset
that follows the descriptor read is 1 for two lanes and 7 for four lanes, plus
3 when `ext_trig_mode >= 1`: one of 1, 4, 7, 10. -/
theorem C26_lane_count_validation (env : Env) (s : Sys) (inp : board_inputs) :
    ((inp.mclk_name = true → inp.mclk_err = 0) → inp.power_err = 0 →
        inp.num_lanes ≠ 2 → inp.num_lanes ≠ 4 →
        (imx273_board_setup env s inp).2 = - EINVAL
          ∧ (imx273_board_setup env s inp).1.log = s.log)
      ∧ (valid_inputs inp → rom_readable env s.log.length →
          check_model (desc_sen_type (rom_image env s.log.length))
              (desc_mod_id (rom_image env s.log.length)) ≠ imx_model.IMX_MODEL_NONE →
          (imx273_board_setup env s inp).1.priv.sensor_mode
              = attach_mode_code inp.num_lanes s.ext_trig_mode
            ∧ (imx273_board_setup env s inp).1.sensor_mode
              = attach_mode_code inp.num_lanes s.ext_trig_mode
            ∧ ∃ j k : Nat, 1 ≤ j ∧ j ≤ 3 ∧ (k ≠ 0 → j = 3)
                ∧ (imx273_board_setup env s inp).1.log
                    = s.log ++ rom_reads
                      ++ List.take j [BusOp.write Dev.rom 0x0100 2,
                          BusOp.write Dev.rom 0x0102
                            (u8 (attach_mode_code inp.num_lanes s.ext_trig_mode)),
                          BusOp.write Dev.rom 0x0100 0]
                      ++ List.replicate k (BusOp.read Dev.rom 0x0101))
      ∧ (∀ l t : Int, l = 2 ∨ l = 4 →
          attach_mode_code l t = 1 ∨ attach_mode_code l t = 4 ∨ attach_mode_code l t = 7
            ∨ attach_mode_code l t = 10)
      ∧ (∀ t : Int, ¬ t ≥ 1 → attach_mode_code 2 t = 1 ∧ attach_mode_code 4 t = 7)
      ∧ (∀ t : Int, t ≥ 1 → attach_mode_code 2 t = 4 ∧ attach_mode_code 4 t = 10) := by
  refine ⟨?_, ?_, attach_mode_code_cases, ?_, ?_⟩
  · intro hm hp h2 h4
    rw [board_setup_bad_lanes env s inp hm hp h2 h4]
    exact ⟨rfl, rfl⟩
  · intro hin hrd hacc
    rw [board_setup_eq env s inp hin hrd]
    obtain ⟨T, hTp, hTs, hTl, hTr, heq⟩ := board_setup_check_accept env
      (log_append (probed_state s inp) rom_reads) (rom_image env s.log.length) hacc
    have hcode : (log_append (probed_state s inp) rom_reads).sensor_mode
        + (if (log_append (probed_state s inp) rom_reads).ext_trig_mode ≥ 1 then 3 else 0)
        = attach_mode_code inp.num_lanes s.ext_trig_mode := rfl
    rw [hcode] at hTp hTs heq
    have hrom : T.priv.rom = true := by
      rw [hTr]
      rfl
    have h0 : 0 ≤ attach_mode_code inp.num_lanes s.ext_trig_mode := by
      rcases attach_mode_code_cases inp.num_lanes s.ext_trig_mode hin.2.2.1 with h | h | h | h <;>
        rw [h] <;> decide
    rw [heq, reset_priv, reset_sensor_mode]
    refine ⟨hTp, hTs, ?_⟩
    obtain ⟨j, k, hj1, hj3, hk, hl⟩ := reset_log_shape env T
      (attach_mode_code inp.num_lanes s.ext_trig_mode) hrom h0
    refine ⟨j, k, hj1, hj3, hk, ?_⟩
    rw [hl, hTl]
    rfl
  · intro t ht
    unfold attach_mode_code
    rw [if_neg ht]
    exact ⟨by decide, by decide⟩
  · intro t ht
    unfold attach_mode_code
    rw [if_pos ht]
    exact ⟨by decide, by decide⟩

/-- C26 (witness): three lanes are rejected without a transfer; the sample
descriptor on two lanes is attached with mode code 1. -/
theorem C26_lane_count_validation_witness :
    (imx273_board_setup (envRom (romImage 0x6D 0)) sysProbe
        { mclk_name := true, mclk_err := 0, power_err := 0, num_lanes := 3, smbus := true,
          rom_found := true }).2 = - EINVAL
      ∧ (imx273_board_setup (envRom (romImage 0x6D 0)) sysProbe
          { mclk_name := true, mclk_err := 0, power_err := 0, num_lanes := 3, smbus := true,
            rom_found := true }).1.log = sysProbe.log
      ∧ valid_inputs inputs0
      ∧ rom_readable (envRom (romImage 0x6D 0)) sysProbe.log.length
      ∧ (imx273_board_setup (envRom (romImage 0x6D 0)) sysProbe inputs0).1.priv.sensor_mode
          = attach_mode_code inputs0.num_lanes sysProbe.ext_trig_mode
      ∧ attach_mode_code inputs0.num_lanes sysProbe.ext_trig_mode = 1 :=
  ⟨((C26_lane_count_validation (envRom (romImage 0x6D 0)) sysProbe
        { mclk_name := true, mclk_err := 0, power_err := 0, num_lanes := 3, smbus := true,
          rom_found := true }).1 (fun _ => rfl) rfl (by decide) (by decide)).1,
    ((C26_lane_count_validation (envRom (romImage 0x6D 0)) sysProbe
        { mclk_name := true, mclk_err := 0, power_err := 0, num_lanes := 3, smbus := true,
          rom_found := true }).1 (fun _ => rfl) rfl (by decide) (by decide)).2,
    inputs0_valid, envRom_readable _,
    ((C26_lane_count_validation (envRom (romImage 0x6D 0)) sysProbe inputs0).2.1 inputs0_valid
      (envRom_readable _) (by decide)).1,
    by decide⟩

/-! ## Sample runs of the frame statements -/

/-- C25 (witness): the request 60 on the sample device, and the exposure
request 10000 with the stored frame rate replaced by 60. -/
theorem C25_frame_rate_not_recorded_witness :
    imx273_set_frame_rate envOk sys0 60 = (sys0, 0)
      ∧ imx273_set_exposure envVmax (with_frame_rate sys0 60) 10000
          = (with_frame_rate (imx273_set_exposure envVmax sys0 10000).1 60,
             (imx273_set_exposure envVmax sys0 10000).2) :=
  ⟨(C25_frame_rate_not_recorded envOk sys0 60).1,
    (C25_frame_rate_not_recorded envVmax sys0 60).2.2 60 10000⟩

/-- C27 (witness): a gain request of 300 on the streaming sample device with
every write failing: the file-scope variables and the streaming flag are
unchanged and the stored gain is within range. -/
theorem C27_control_frame_witness :
    (imx273_set_gain envWriteFail sysStreaming 300).2 ≠ 0
      ∧ globals (imx273_set_gain envWriteFail sysStreaming 300).1 = globals sysStreaming
      ∧ (imx273_set_gain envWriteFail sysStreaming 300).1.priv.streaming
          = sysStreaming.priv.streaming
      ∧ (imx273_set_gain envWriteFail sysStreaming 300).1.priv.digital_gain ≤ 480 :=
  ⟨by decide,
    (C27_control_frame envWriteFail sysStreaming 300).2.2.1,
    (C27_control_frame envWriteFail sysStreaming 300).2.2.2.1.1,
    (C27_control_frame envWriteFail sysStreaming 300).2.2.2.2.1.2⟩

end Imx273
